import Mathlib

/-!
# Server-side socket management (`server/sock.c`)

A shallow embedding of the socket event layer of `server/sock.c`, and theorems about it.

* `unsigned int` fields are natural numbers; `x & ~y` on 32-bit words is `x &&& bnot32 y`.
* The calls the file makes into the operating system (`poll`, `recv`, `getsockopt`,
  `accept`, `socket`) are answered by an oracle `Env`, indexed by a clock that counts the
  calls answered so far.
* The calls the file makes into the rest of the server (poll loop, events, error status)
  are recorded in order in `Sys.calls`; the signaled state of events and the last error
  are kept as explicit state in `Sys`.
* `sock_reselect` and `sock_poll_event` call each other; the embedding bounds the nesting
  of `sock_poll_event` by a fuel argument and returns `none` when it is exhausted.
-/

namespace Sock2

/-! ## Constants of the headers -/

/-- Modelled from the spec: `winsock2.h` is not among the sources. The event kinds are bit
flags over a fixed small enumeration (readable, writable, out-of-band, incoming connection,
connect completed, peer closed); the bit numbers are those of the Winsock API. -/
def FD_READ_BIT : Nat := 0
/-- Bit number of the writable event (Winsock API). -/
def FD_WRITE_BIT : Nat := 1
/-- Bit number of the out-of-band event (Winsock API). -/
def FD_OOB_BIT : Nat := 2
/-- Bit number of the incoming-connection event (Winsock API). -/
def FD_ACCEPT_BIT : Nat := 3
/-- Bit number of the connect-completed event (Winsock API). -/
def FD_CONNECT_BIT : Nat := 4
/-- Bit number of the peer-closed event (Winsock API). -/
def FD_CLOSE_BIT : Nat := 5
/-- Length of the per-kind error array `errors[FD_MAX_EVENTS]` (Winsock API). -/
def FD_MAX_EVENTS : Nat := 10

/-- Event mask `1 << FD_READ_BIT`. -/
def FD_READ : Nat := 1 <<< FD_READ_BIT
/-- Event mask `1 << FD_WRITE_BIT`. -/
def FD_WRITE : Nat := 1 <<< FD_WRITE_BIT
/-- Event mask `1 << FD_OOB_BIT`. -/
def FD_OOB : Nat := 1 <<< FD_OOB_BIT
/-- Event mask `1 << FD_ACCEPT_BIT`. -/
def FD_ACCEPT : Nat := 1 <<< FD_ACCEPT_BIT
/-- Event mask `1 << FD_CONNECT_BIT`. -/
def FD_CONNECT : Nat := 1 <<< FD_CONNECT_BIT
/-- Event mask `1 << FD_CLOSE_BIT`. -/
def FD_CLOSE : Nat := 1 <<< FD_CLOSE_BIT

/-- Modelled from the spec: the server-internal flags of `winsock2.h` (not among the
sources): the "service" monitoring kind and the phase flags listening, non-blocking and
connected, each a single bit above the event kinds. -/
def FD_WINE_SERVEVENT : Nat := 0x01000000
/-- Phase flag: the socket is listening. -/
def FD_WINE_LISTENING : Nat := 0x10000000
/-- State flag: the socket is non-blocking. -/
def FD_WINE_NONBLOCKING : Nat := 0x20000000
/-- Phase flag: the socket is connected. -/
def FD_WINE_CONNECTED : Nat := 0x40000000

/-- Modelled from the spec: the readiness flags of `poll.h` (not among the sources):
readable, priority, writable, error and hangup, independent flags that may combine. -/
def POLLIN : Nat := 0x001
/-- Readiness flag: priority (out-of-band) data. -/
def POLLPRI : Nat := 0x002
/-- Readiness flag: writable. -/
def POLLOUT : Nat := 0x004
/-- Readiness flag: error. -/
def POLLERR : Nat := 0x008
/-- Readiness flag: hangup. -/
def POLLHUP : Nat := 0x010

/-- Socket flag of `winsock2.h` asking for overlapped mode. -/
def WSA_FLAG_OVERLAPPED : Nat := 0x01
/-- Socket type of a stream socket (`sys/socket.h`). -/
def SOCK_STREAM : Int := 1

/-- Network error codes of `winerror.h` (not among the sources), numbered from
`WSABASEERR = 10000`. -/
def WSAEINTR : Int := 10004
def WSAEBADF : Int := 10009
def WSAEACCES : Int := 10013
def WSAEFAULT : Int := 10014
def WSAEINVAL : Int := 10022
def WSAEMFILE : Int := 10024
def WSAEWOULDBLOCK : Int := 10035
def WSAEINPROGRESS : Int := 10036
def WSAEALREADY : Int := 10037
def WSAENOTSOCK : Int := 10038
def WSAEDESTADDRREQ : Int := 10039
def WSAEMSGSIZE : Int := 10040
def WSAEPROTOTYPE : Int := 10041
def WSAENOPROTOOPT : Int := 10042
def WSAEPROTONOSUPPORT : Int := 10043
def WSAESOCKTNOSUPPORT : Int := 10044
def WSAEOPNOTSUPP : Int := 10045
def WSAEPFNOSUPPORT : Int := 10046
def WSAEAFNOSUPPORT : Int := 10047
def WSAEADDRINUSE : Int := 10048
def WSAEADDRNOTAVAIL : Int := 10049
def WSAENETDOWN : Int := 10050
def WSAENETUNREACH : Int := 10051
def WSAENETRESET : Int := 10052
def WSAECONNABORTED : Int := 10053
def WSAECONNRESET : Int := 10054
def WSAENOBUFS : Int := 10055
def WSAEISCONN : Int := 10056
def WSAENOTCONN : Int := 10057
def WSAESHUTDOWN : Int := 10058
def WSAETOOMANYREFS : Int := 10059
def WSAETIMEDOUT : Int := 10060
def WSAECONNREFUSED : Int := 10061
def WSAELOOP : Int := 10062
def WSAENAMETOOLONG : Int := 10063
def WSAEHOSTDOWN : Int := 10064
def WSAEHOSTUNREACH : Int := 10065
def WSAENOTEMPTY : Int := 10066
def WSAEPROCLIM : Int := 10067
def WSAEUSERS : Int := 10068
def WSAEDQUOT : Int := 10069
def WSAESTALE : Int := 10070
def WSAEREMOTE : Int := 10071
/-- Generic "unknown error" code of `winerror.h`. -/
def ERROR_UNKNOWN : Int := 99999

/-- OS error numbers of `errno.h` (not among the sources), with the values of a Linux
host. `EPROCLIM` is not defined there, so its conditional entry is compiled out; `EUSERS`,
`EDQUOT`, `ESTALE` and `EREMOTE` are defined. -/
def EPERM : Int := 1
def EINTR : Int := 4
def EBADF : Int := 9
def EWOULDBLOCK : Int := 11
def EACCES : Int := 13
def EFAULT : Int := 14
def EINVAL : Int := 22
def EMFILE : Int := 24
def EPIPE : Int := 32
def ENAMETOOLONG : Int := 36
def ENOTEMPTY : Int := 39
def ELOOP : Int := 40
def EREMOTE : Int := 66
def EUSERS : Int := 87
def ENOTSOCK : Int := 88
def EDESTADDRREQ : Int := 89
def EMSGSIZE : Int := 90
def EPROTOTYPE : Int := 91
def ENOPROTOOPT : Int := 92
def EPROTONOSUPPORT : Int := 93
def ESOCKTNOSUPPORT : Int := 94
def EOPNOTSUPP : Int := 95
def EPFNOSUPPORT : Int := 96
def EAFNOSUPPORT : Int := 97
def EADDRINUSE : Int := 98
def EADDRNOTAVAIL : Int := 99
def ENETDOWN : Int := 100
def ENETUNREACH : Int := 101
def ENETRESET : Int := 102
def ECONNABORTED : Int := 103
def ECONNRESET : Int := 104
def ENOBUFS : Int := 105
def EISCONN : Int := 106
def ENOTCONN : Int := 107
def ESHUTDOWN : Int := 108
def ETOOMANYREFS : Int := 109
def ETIMEDOUT : Int := 110
def ECONNREFUSED : Int := 111
def EHOSTDOWN : Int := 112
def EHOSTUNREACH : Int := 113
def EALREADY : Int := 114
def EINPROGRESS : Int := 115
def ESTALE : Int := 116
def EDQUOT : Int := 122

/-! ## Machine words -/

/-- The C operator `~` on a 32-bit `unsigned int`. -/
def bnot32 (x : Nat) : Nat := 2 ^ 32 - 1 - x % 2 ^ 32

/-- Conversion of an `unsigned int` to `int` (wrapping at 32 bits). -/
def int_of_uint (x : Nat) : Int :=
  if x % 2 ^ 32 < 2 ^ 31 then ((x % 2 ^ 32 : Nat) : Int) else ((x % 2 ^ 32 : Nat) : Int) - 2 ^ 32

/-! ## Data model -/

/-- The fields of `struct sock` the event layer uses, with `obj.fd` and `obj.select` of the
object header. `event` is the pointer to the subscriber event, `none` for `NULL`. -/
structure Sock where
  fd : Int
  select : Int
  state : Nat
  mask : Nat
  hmask : Nat
  pmask : Nat
  flags : Nat
  event : Option Nat
  errors : List Int
  deriving DecidableEq, Repr

/-- A call made by `sock.c` into the rest of the server or into the operating system, as
recorded in `Sys.calls`. Event arguments are pointers, `none` for `NULL`. -/
inductive Call where
  | add_select_user (fd : Int)
  | set_select_events (fd : Int) (events : Int)
  | poll (fd : Int) (events : Nat) (revents : Nat)
  | recv_peek (fd : Int) (ret : Int)
  | accept (fd : Int) (ret : Int)
  | socket (ret : Int)
  | getsockopt_so_error (fd : Int) (optval : Nat)
  | set_event (event : Option Nat)
  | reset_event (event : Option Nat)
  | grab_object (event : Option Nat)
  | release_object (event : Option Nat)
  | wake_up (fd : Int)
  | set_error (code : Int)
  | clear_error
  | init_async_queue (fd : Int)
  | destroy_async_queue (fd : Int)
  deriving DecidableEq, Repr

/-- The state of the collaborators: the clock of the oracle, the events that are
signaled, the last error of the current request and the calls made so far. -/
structure Sys where
  clock : Nat
  signaled : List Nat
  last_error : Int
  calls : List Call
  deriving DecidableEq, Repr

/-- The answers of the operating system and of the handle table. Every answer may depend
on the clock, so that the same call may be answered differently at different moments. -/
structure Env where
  /-- The call `poll( &pfd, 1, 0 )`: clock, descriptor, requested events, answer `revents`. -/
  poll : Nat → Int → Nat → Nat
  /-- The call `recv( fd, &dummy, 1, MSG_PEEK )`: its return value. -/
  recv_peek : Nat → Int → Int
  /-- The call `getsockopt( s, SOL_SOCKET, SO_ERROR, .. )`: the value left in `optval`
  (0 also when the call fails). -/
  so_error : Nat → Int → Nat
  /-- The call `accept( fd, .. )`: its return value. -/
  accept : Nat → Int → Int
  /-- The call `socket( family, type, protocol )`: its return value. -/
  socket : Nat → Int → Int → Int → Int
  /-- The value of `errno` after a failed call. -/
  errno : Nat → Int
  /-- The call `alloc_object( &sock_ops, -1 )`: the memory of the new object, `none` for `NULL`. -/
  alloc_object : Nat → Option Sock
  /-- The slot `add_select_user` gives to an object in the poll loop. -/
  select_slot : Nat → Nat
  /-- The call `get_event_obj( process, handle, access )`: `none` for `NULL`. -/
  get_event_obj : Nat → Option Nat

/-! ## Collaborators -/

/-- The next moment of the oracle: one more call has been answered. -/
def tick (sys : Sys) : Sys := { sys with clock := sys.clock + 1 }

/-- Record a call. -/
def log (sys : Sys) (c : Call) : Sys := { sys with calls := sys.calls ++ [c] }

/-- Modelled from the spec: `set_event` of the waitable-event primitive (not among the
sources) signals the event. The call is recorded; the event, when there is one, becomes
signaled. -/
def set_event (sys : Sys) (event : Option Nat) : Sys :=
  let sys1 := log sys (Call.set_event event)
  match event with
  | some e => { sys1 with signaled := e :: sys1.signaled.erase e }
  | none => sys1

/-- Modelled from the spec: `reset_event` of the waitable-event primitive (not among the
sources) resets the event. The call is recorded; the event, when there is one, is no
longer signaled. -/
def reset_event (sys : Sys) (event : Option Nat) : Sys :=
  let sys1 := log sys (Call.reset_event event)
  match event with
  | some e => { sys1 with signaled := sys1.signaled.filter (fun x => x ≠ e) }
  | none => sys1

/-- Modelled from the spec: `set_error` of the request layer (not among the sources)
stores the error reported to the client. -/
def set_error (sys : Sys) (code : Int) : Sys :=
  { log sys (Call.set_error code) with last_error := code }

/-- Modelled from the spec: `clear_error` of the request layer (not among the sources)
resets the error reported to the client. -/
def clear_error (sys : Sys) : Sys :=
  { log sys Call.clear_error with last_error := 0 }

/-- Modelled from the spec: `add_select_user` of the poll loop (not among the sources)
registers the object and stores its slot in `obj.select`. -/
def add_select_user (env : Env) (sys : Sys) (sock : Sock) : Sys × Sock :=
  (log sys (Call.add_select_user sock.fd), { sock with select := (env.select_slot sys.clock : Int) })

/-- Modelled from the spec: `set_select_events` of the poll loop (not among the sources)
takes the interest to store for the object, or -1 to stop waiting on it. The call is
recorded. -/
def set_select_events (sys : Sys) (sock : Sock) (events : Int) : Sys :=
  log sys (Call.set_select_events sock.fd events)

/-- Modelled from the spec: `alloc_object( &sock_ops, -1 )` of the object system (not
among the sources) gives a fresh object that has no descriptor and is not registered
with the poll loop; the other fields hold whatever the allocator left there. -/
def alloc_object (env : Env) (sys : Sys) : Option Sock :=
  (env.alloc_object sys.clock).map (fun raw => { raw with fd := -1, select := -1 })

/-! ## The operations of `sock.c` -/

/-- The function `sock_get_error`: the switch over the OS error number. The conditional
entries are those a Linux host compiles in. -/
def sock_get_error (err : Int) : Int :=
  if err = EINTR then WSAEINTR
  else if err = EBADF then WSAEBADF
  else if err = EPERM ∨ err = EACCES then WSAEACCES
  else if err = EFAULT then WSAEFAULT
  else if err = EINVAL then WSAEINVAL
  else if err = EMFILE then WSAEMFILE
  else if err = EWOULDBLOCK then WSAEWOULDBLOCK
  else if err = EINPROGRESS then WSAEINPROGRESS
  else if err = EALREADY then WSAEALREADY
  else if err = ENOTSOCK then WSAENOTSOCK
  else if err = EDESTADDRREQ then WSAEDESTADDRREQ
  else if err = EMSGSIZE then WSAEMSGSIZE
  else if err = EPROTOTYPE then WSAEPROTOTYPE
  else if err = ENOPROTOOPT then WSAENOPROTOOPT
  else if err = EPROTONOSUPPORT then WSAEPROTONOSUPPORT
  else if err = ESOCKTNOSUPPORT then WSAESOCKTNOSUPPORT
  else if err = EOPNOTSUPP then WSAEOPNOTSUPP
  else if err = EPFNOSUPPORT then WSAEPFNOSUPPORT
  else if err = EAFNOSUPPORT then WSAEAFNOSUPPORT
  else if err = EADDRINUSE then WSAEADDRINUSE
  else if err = EADDRNOTAVAIL then WSAEADDRNOTAVAIL
  else if err = ENETDOWN then WSAENETDOWN
  else if err = ENETUNREACH then WSAENETUNREACH
  else if err = ENETRESET then WSAENETRESET
  else if err = ECONNABORTED then WSAECONNABORTED
  else if err = EPIPE ∨ err = ECONNRESET then WSAECONNRESET
  else if err = ENOBUFS then WSAENOBUFS
  else if err = EISCONN then WSAEISCONN
  else if err = ENOTCONN then WSAENOTCONN
  else if err = ESHUTDOWN then WSAESHUTDOWN
  else if err = ETOOMANYREFS then WSAETOOMANYREFS
  else if err = ETIMEDOUT then WSAETIMEDOUT
  else if err = ECONNREFUSED then WSAECONNREFUSED
  else if err = ELOOP then WSAELOOP
  else if err = ENAMETOOLONG then WSAENAMETOOLONG
  else if err = EHOSTDOWN then WSAEHOSTDOWN
  else if err = EHOSTUNREACH then WSAEHOSTUNREACH
  else if err = ENOTEMPTY then WSAENOTEMPTY
  else if err = EUSERS then WSAEUSERS
  else if err = EDQUOT then WSAEDQUOT
  else if err = ESTALE then WSAESTALE
  else if err = EREMOTE then WSAEREMOTE
  else ERROR_UNKNOWN

/-- The function `sock_set_error`: report the translation of `errno`. -/
def sock_set_error (env : Env) (sys : Sys) : Sys :=
  set_error sys (sock_get_error (env.errno sys.clock))

/-- The function `sock_error`: read `SO_ERROR` of the descriptor and translate it; 0 when
the option reads 0. -/
def sock_error (env : Env) (sys : Sys) (s : Int) : Sys × Int :=
  let optval := env.so_error sys.clock s
  (tick (log sys (Call.getsockopt_so_error s optval)),
    if optval % 2 ^ 32 ≠ 0 then sock_get_error (int_of_uint optval) else 0)

/-- The function `sock_get_poll_events`: the interest to ask of the poll loop. -/
def sock_get_poll_events (sock : Sock) : Nat :=
  let mask := sock.mask &&& sock.state &&& bnot32 sock.hmask
  if sock.state &&& FD_CONNECT ≠ 0 then
    POLLOUT
  else if sock.state &&& FD_WINE_LISTENING ≠ 0 then
    (if sock.hmask &&& FD_ACCEPT ≠ 0 then 0 else POLLIN)
  else
    let ev := if mask &&& FD_READ ≠ 0 then 0 ||| (POLLIN ||| POLLPRI) else 0
    let ev := if mask &&& FD_WRITE ≠ 0 then ev ||| POLLOUT else ev
    ev

/-- The state update of `sock_poll_event` in the connecting phase (`state & FD_CONNECT`). -/
def sock_poll_event_connecting (env : Env) (sys : Sys) (sock : Sock) (event : Nat) :
    Sys × Sock × Nat :=
  if event &&& POLLOUT ≠ 0 then
    (sys, { sock with
        state := (sock.state ||| (FD_WINE_CONNECTED ||| FD_READ ||| FD_WRITE)) &&& bnot32 FD_CONNECT
        pmask := sock.pmask ||| FD_CONNECT
        errors := sock.errors.set FD_CONNECT_BIT 0 }, event)
  else if event &&& (POLLERR ||| POLLHUP) ≠ 0 then
    let r := sock_error env sys sock.fd
    (r.1, { sock with
        state := sock.state &&& bnot32 FD_CONNECT
        pmask := sock.pmask ||| FD_CONNECT
        errors := sock.errors.set FD_CONNECT_BIT r.2 }, event)
  else (sys, sock, event)

/-- The state update of `sock_poll_event` in the listening phase
(`state & FD_WINE_LISTENING`, not connecting). -/
def sock_poll_event_listening (env : Env) (sys : Sys) (sock : Sock) (event : Nat) :
    Sys × Sock × Nat :=
  if event &&& POLLIN ≠ 0 then
    (sys, { sock with
        pmask := sock.pmask ||| FD_ACCEPT
        errors := sock.errors.set FD_ACCEPT_BIT 0
        hmask := sock.hmask ||| FD_ACCEPT }, event)
  else if event &&& (POLLERR ||| POLLHUP) ≠ 0 then
    let r := sock_error env sys sock.fd
    (r.1, { sock with
        pmask := sock.pmask ||| FD_ACCEPT
        errors := sock.errors.set FD_ACCEPT_BIT r.2
        hmask := sock.hmask ||| FD_ACCEPT }, event)
  else (sys, sock, event)

/-- The readable rule of the normal phase: peek one byte; end of stream turns the
readiness into `POLLHUP`, anything else marks `FD_READ` pending and held. -/
def sock_poll_event_pollin (env : Env) (sys : Sys) (sock : Sock) (event : Nat) :
    Sys × Sock × Nat :=
  if event &&& POLLIN ≠ 0 then
    let r := env.recv_peek sys.clock sock.fd
    let sys1 := tick (log sys (Call.recv_peek sock.fd r))
    if r = 0 then (sys1, sock, POLLHUP)
    else
      (sys1, { sock with
          pmask := sock.pmask ||| FD_READ
          hmask := sock.hmask ||| FD_READ
          errors := sock.errors.set FD_READ_BIT 0 }, event)
  else (sys, sock, event)

/-- The writable rule of the normal phase. -/
def sock_poll_event_pollout (sock : Sock) (event : Nat) : Sock :=
  if event &&& POLLOUT ≠ 0 then
    { sock with
        pmask := sock.pmask ||| FD_WRITE
        hmask := sock.hmask ||| FD_WRITE
        errors := sock.errors.set FD_WRITE_BIT 0 }
  else sock

/-- The priority rule of the normal phase. -/
def sock_poll_event_pollpri (sock : Sock) (event : Nat) : Sock :=
  if event &&& POLLPRI ≠ 0 then
    { sock with
        pmask := sock.pmask ||| FD_OOB
        hmask := sock.hmask ||| FD_OOB
        errors := sock.errors.set FD_OOB_BIT 0 }
  else sock

/-- The close rule of the normal phase. -/
def sock_poll_event_close (env : Env) (sys : Sys) (sock : Sock) (event : Nat) :
    Sys × Sock :=
  if (event &&& POLLERR ≠ 0 ∨ event &&& (POLLIN ||| POLLHUP) = POLLHUP)
      ∧ sock.state &&& (FD_READ ||| FD_WRITE) ≠ 0 then
    let r := sock_error env sys sock.fd
    (r.1, { sock with
        errors := sock.errors.set FD_CLOSE_BIT r.2
        state := sock.state &&& bnot32 (FD_WINE_CONNECTED ||| FD_READ ||| FD_WRITE)
        pmask := sock.pmask ||| FD_CLOSE })
  else (sys, sock)

/-- The state update of `sock_poll_event` in the normal phase: the four rules in the
order of the source, each on the result of the one before. -/
def sock_poll_event_normal (env : Env) (sys : Sys) (sock : Sock) (event : Nat) :
    Sys × Sock × Nat :=
  let r1 := sock_poll_event_pollin env sys sock event
  let sock2 := sock_poll_event_pollout r1.2.1 r1.2.2
  let sock3 := sock_poll_event_pollpri sock2 r1.2.2
  let r4 := sock_poll_event_close env r1.1 sock3 r1.2.2
  (r4.1, r4.2, r1.2.2)

/-- The first part of `sock_poll_event`, up to the end of the three-way branch on the
phase: the updated socket and the readiness as the rest of the function sees it. -/
def sock_poll_event_update (env : Env) (sys : Sys) (sock : Sock) (event : Nat) :
    Sys × Sock × Nat :=
  if sock.state &&& FD_CONNECT ≠ 0 then sock_poll_event_connecting env sys sock event
  else if sock.state &&& FD_WINE_LISTENING ≠ 0 then sock_poll_event_listening env sys sock event
  else sock_poll_event_normal env sys sock event

/-- The last part of `sock_poll_event`: signal the subscriber event when `pmask & mask`
is non-empty and there is one, then wake up the waiters on the socket itself. -/
def sock_poll_event_wake (sys : Sys) (sock : Sock) : Sys :=
  let emask := sock.pmask &&& sock.mask
  let sys1 := if emask ≠ 0 ∧ sock.event ≠ none then set_event sys sock.event else sys
  log sys1 (Call.wake_up sock.fd)

/-- The body of `sock_reselect`, with the function to call on a satisfied condition as
a parameter. -/
def sock_reselect_body (poll_event : Sys → Sock → Nat → Option (Sys × Sock)) (env : Env)
    (sys : Sys) (sock : Sock) : Option (Sys × Sock) :=
  let ev := sock_get_poll_events sock
  if sock.select = -1 ∧ ¬ (sock.state &&& bnot32 FD_WINE_NONBLOCKING ≠ 0) then some (sys, sock)
  else
    let r := if sock.select = -1 then add_select_user env sys sock else (sys, sock)
    let sys2 := set_select_events r.1 r.2 ev
    let revents := env.poll sys2.clock r.2.fd ev
    let sys3 := tick (log sys2 (Call.poll r.2.fd ev revents))
    if revents ≠ 0 then poll_event sys3 r.2 revents else some (sys3, r.2)

/-- The function `sock_poll_event`. The fuel bounds the nesting of the calls the function
makes to itself through `sock_reselect`. -/
def sock_poll_event : Nat → Env → Sys → Sock → Nat → Option (Sys × Sock)
  | 0, _, _, _, _ => none
  | fuel + 1, env, sys, sock, event =>
    let u := sock_poll_event_update env sys sock event
    let r := if u.2.2 &&& (POLLERR ||| POLLHUP) ≠ 0 then
        some (set_select_events u.1 u.2.1 (-1), u.2.1)
      else sock_reselect_body (sock_poll_event fuel env) env u.1 u.2.1
    r.map (fun p => (sock_poll_event_wake p.1 p.2, p.2))

/-- The function `sock_reselect`. -/
def sock_reselect (fuel : Nat) (env : Env) (sys : Sys) (sock : Sock) : Option (Sys × Sock) :=
  sock_reselect_body (sock_poll_event fuel env) env sys sock

/-- The function `sock_destroy`. -/
def sock_destroy (sys : Sys) (sock : Sock) : Sys :=
  let sys1 := if sock.flags &&& WSA_FLAG_OVERLAPPED ≠ 0 then
      log (log sys (Call.destroy_async_queue sock.fd)) (Call.destroy_async_queue sock.fd)
    else sys
  if sock.event ≠ none then
    let sys2 := if sock.mask &&& FD_WINE_SERVEVENT ≠ 0 then set_event sys1 sock.event else sys1
    log sys2 (Call.release_object sock.event)
  else sys1

/-- The function `create_socket`: `none` when the fuel is exhausted, otherwise the new
state of the collaborators and the new socket (`none` for `NULL`). -/
def create_socket (fuel : Nat) (env : Env) (sys : Sys) (family type protocol : Int)
    (flags : Nat) : Option (Sys × Option Sock) :=
  let sockfd := env.socket sys.clock family type protocol
  let sys1 := tick (log sys (Call.socket sockfd))
  if sockfd = -1 then some (sock_set_error env sys1, none)
  else
    match alloc_object env sys1 with
    | none => some (sys1, none)
    | some raw =>
      let sock : Sock := { raw with
        fd := sockfd
        state := if type ≠ SOCK_STREAM then FD_READ ||| FD_WRITE else 0
        mask := 0
        hmask := 0
        pmask := 0
        flags := flags
        event := none }
      (sock_reselect fuel env sys1 sock).map (fun p =>
        let sys2 := clear_error p.1
        let sys3 := if p.2.flags &&& WSA_FLAG_OVERLAPPED ≠ 0 then
            log (log sys2 (Call.init_async_queue p.2.fd)) (Call.init_async_queue p.2.fd)
          else sys2
        (sys3, some p.2))

/-- The function `accept_socket`, on the result `sock` of the handle lookup: `none` when
the fuel is exhausted, otherwise the new state of the collaborators, the listener and the
accepted socket (`none` for `NULL`). -/
def accept_socket (fuel : Nat) (env : Env) (sys : Sys) (sock : Option Sock) :
    Option (Sys × Option Sock × Option Sock) :=
  match sock with
  | none => some (sys, none, none)
  | some sock =>
    let acceptfd := env.accept sys.clock sock.fd
    let sys1 := tick (log sys (Call.accept sock.fd acceptfd))
    if acceptfd = -1 then some (sock_set_error env sys1, some sock, none)
    else
      match alloc_object env sys1 with
      | none => some (sys1, some sock, none)
      | some raw =>
        let state0 := FD_WINE_CONNECTED ||| FD_READ ||| FD_WRITE
        let takes_event := sock.event ≠ none ∧ ¬ (sock.mask &&& FD_WINE_SERVEVENT ≠ 0)
        let acceptsock : Sock := { raw with
          fd := acceptfd
          state := if sock.state &&& FD_WINE_NONBLOCKING ≠ 0 then state0 ||| FD_WINE_NONBLOCKING
            else state0
          mask := sock.mask
          hmask := 0
          pmask := 0
          event := if takes_event then sock.event else none
          flags := sock.flags }
        let sys2 := if takes_event then log sys1 (Call.grab_object sock.event) else sys1
        let sys3 := if acceptsock.flags &&& WSA_FLAG_OVERLAPPED ≠ 0 then
            log (log sys2 (Call.init_async_queue acceptfd)) (Call.init_async_queue acceptfd)
          else sys2
        (sock_reselect fuel env sys3 acceptsock).bind (fun a =>
          let sys4 := clear_error a.1
          let sock1 : Sock := { sock with
            pmask := sock.pmask &&& bnot32 FD_ACCEPT
            hmask := sock.hmask &&& bnot32 FD_ACCEPT }
          (sock_reselect fuel env sys4 sock1).map (fun l => (l.1, some l.2, some a.2)))

/-- The request of `set_socket_event`. -/
structure set_socket_event_request where
  handle : Nat
  mask : Nat
  event : Nat
  deriving DecidableEq, Repr

/-- The handler of `set_socket_event`, on the result `sock` of the handle lookup. -/
def set_socket_event (fuel : Nat) (env : Env) (sys : Sys) (sock : Option Sock)
    (req : set_socket_event_request) : Option (Sys × Option Sock) :=
  match sock with
  | none => some (sys, none)
  | some sock =>
    let oevent := sock.event
    let omask := sock.mask
    let sock1 : Sock := { sock with mask := req.mask, event := env.get_event_obj req.event }
    (sock_reselect fuel env sys sock1).map (fun p =>
      let sock2 : Sock := if p.2.mask ≠ 0 then { p.2 with state := p.2.state ||| FD_WINE_NONBLOCKING }
        else p.2
      let sys2 := if sock2.pmask &&& sock2.mask ≠ 0 then set_event p.1 sock2.event else p.1
      let sys3 := if oevent ≠ none then
          let sys2a := if oevent ≠ sock2.event ∧ omask &&& FD_WINE_SERVEVENT ≠ 0 then
              set_event sys2 oevent else sys2
          log sys2a (Call.release_object oevent)
        else sys2
      (sys3, some sock2))

/-- The request of `get_socket_event`, with the size the client leaves for the reply data. -/
structure get_socket_event_request where
  handle : Nat
  service : Int
  s_event : Nat
  c_event : Nat
  reply_max_size : Nat
  deriving DecidableEq, Repr

/-- The reply of `get_socket_event`: the three words, and the reply data as the array it
is taken from with the number of bytes sent. -/
structure get_socket_event_reply where
  mask : Nat
  pmask : Nat
  state : Nat
  data : List Int
  data_size : Nat
  deriving DecidableEq, Repr

/-- The handler of `get_socket_event`, on the result `sock` of the handle lookup. -/
def get_socket_event (fuel : Nat) (env : Env) (sys : Sys) (sock : Option Sock)
    (req : get_socket_event_request) : Option (Sys × Option Sock × get_socket_event_reply) :=
  match sock with
  | none =>
    some (set_error sys WSAENOTSOCK, none,
      { mask := 0, pmask := 0, state := 0, data := [], data_size := 0 })
  | some sock =>
    let reply : get_socket_event_reply :=
      { mask := sock.mask, pmask := sock.pmask, state := sock.state, data := sock.errors,
        data_size := min req.reply_max_size (4 * FD_MAX_EVENTS) }
    if req.service ≠ 0 then
      let r := if req.s_event ≠ 0 then
          let sevent := env.get_event_obj req.s_event
          (if sevent = sock.event then 0 else req.s_event, log sys (Call.release_object sevent))
        else (req.s_event, sys)
      if r.1 = 0 then
        let sys2 := if req.c_event ≠ 0 then
            let cevent := env.get_event_obj req.c_event
            log (reset_event r.2 cevent) (Call.release_object cevent)
          else r.2
        (sock_reselect fuel env sys2 { sock with pmask := 0 }).map (fun p => (p.1, some p.2, reply))
      else some (set_error r.2 WSAEINVAL, some sock, reply)
    else some (sys, some sock, reply)

/-- The request of `enable_socket_event`. -/
structure enable_socket_event_request where
  handle : Nat
  mask : Nat
  sstate : Nat
  cstate : Nat
  deriving DecidableEq, Repr

/-- The handler of `enable_socket_event`, on the result `sock` of the handle lookup. -/
def enable_socket_event (fuel : Nat) (env : Env) (sys : Sys) (sock : Option Sock)
    (req : enable_socket_event_request) : Option (Sys × Option Sock) :=
  match sock with
  | none => some (sys, none)
  | some sock =>
    let sock1 : Sock := { sock with
      pmask := sock.pmask &&& bnot32 req.mask
      hmask := sock.hmask &&& bnot32 req.mask
      state := (sock.state ||| req.sstate) &&& bnot32 req.cstate }
    (sock_reselect fuel env sys sock1).map (fun p =>
      if req.mask &&& FD_WINE_SERVEVENT ≠ 0 then
        let sock2 : Sock := { p.2 with pmask := p.2.pmask ||| FD_WINE_SERVEVENT }
        (if sock2.event ≠ none then set_event p.1 sock2.event else p.1, some sock2)
      else (p.1, some p.2))

/-! ## Specification-side definitions -/

/-- The poll-interest policy in the words of the specification, three rules in strict
priority order: connecting asks for writable only; listening asks for readable unless an
accept event is held; otherwise a readable kind that is subscribed, capable and not held
asks for readable and priority, and a writable kind that is subscribed, capable and not
held asks for writable. -/
def poll_interest_policy (state mask hmask : Nat) : Nat :=
  if state &&& FD_CONNECT ≠ 0 then POLLOUT
  else if state &&& FD_WINE_LISTENING ≠ 0 then
    (if hmask &&& FD_ACCEPT ≠ 0 then 0 else POLLIN)
  else
    (if mask &&& FD_READ ≠ 0 ∧ state &&& FD_READ ≠ 0 ∧ hmask &&& FD_READ = 0
      then POLLIN + POLLPRI else 0)
    + (if mask &&& FD_WRITE ≠ 0 ∧ state &&& FD_WRITE ≠ 0 ∧ hmask &&& FD_WRITE = 0
      then POLLOUT else 0)

/-- The translated `SO_ERROR` of a descriptor at a moment of the oracle: what `sock_error`
returns there. -/
def translated_so_error (env : Env) (t : Nat) (fd : Int) : Int :=
  if env.so_error t fd % 2 ^ 32 ≠ 0 then sock_get_error (int_of_uint (env.so_error t fd)) else 0

/-- An environment in which every zero-timeout probe reports no readiness. -/
def quiet (env : Env) : Prop := ∀ t fd ev, env.poll t fd ev = 0

/-- The result of `sock_reselect` when the probe reports nothing: the socket is registered
if it has to be, the interest is stored, the probe is made, and no nested call follows. -/
def sock_reselect_idle (env : Env) (sys : Sys) (sock : Sock) : Sys × Sock :=
  if sock.select = -1 ∧ ¬ (sock.state &&& bnot32 FD_WINE_NONBLOCKING ≠ 0) then (sys, sock)
  else
    let r := if sock.select = -1 then add_select_user env sys sock else (sys, sock)
    let ev := sock_get_poll_events sock
    (tick (log (set_select_events r.1 r.2 ev) (Call.poll r.2.fd ev 0)), r.2)

/-- The result of `sock_poll_event` when the probe of its reselection reports nothing. -/
def sock_poll_event_idle (env : Env) (sys : Sys) (sock : Sock) (event : Nat) : Sys × Sock :=
  let u := sock_poll_event_update env sys sock event
  let p := if u.2.2 &&& (POLLERR ||| POLLHUP) ≠ 0 then
      (set_select_events u.1 u.2.1 (-1), u.2.1)
    else sock_reselect_idle env u.1 u.2.1
  (sock_poll_event_wake p.1 p.2, p.2)

/-- Two socket records agree outside the event state: same subscription, same subscriber
event and same object header apart from `obj.select`. -/
def same_subscription (a b : Sock) : Prop :=
  a.mask = b.mask ∧ a.event = b.event ∧ a.fd = b.fd ∧ a.flags = b.flags

/-- Two socket records agree on the event state: state bits, held and pending sets and
per-kind errors. -/
def same_event_state (a b : Sock) : Prop :=
  a.state = b.state ∧ a.hmask = b.hmask ∧ a.pmask = b.pmask ∧ a.errors = b.errors

/-- Two collaborator states agree on the signaled events and on the last error. -/
def same_events (a b : Sys) : Prop :=
  a.signaled = b.signaled ∧ a.last_error = b.last_error

/-- The subscriber has got every wakeup it is owed: when `pmask & mask` is non-empty and
an event is registered, the event is signaled. -/
def wakeup_delivered (sys : Sys) (sock : Sock) : Prop :=
  ∀ e, sock.event = some e → sock.pmask &&& sock.mask ≠ 0 → e ∈ sys.signaled

/-- The second socket record comes after the first in the life of a socket as far as
`sock_poll_event` can change it: pending and held kinds are only added, `FD_CLOSE` is held
in the one exactly when it is in the other, `FD_WINE_LISTENING` is set in the one exactly
when it is in the other, `FD_CONNECT` is not newly set, the error array keeps its length,
and an error of `FD_READ`, `FD_WRITE` or `FD_OOB` that is 0 stays 0. -/
def grows_from (a b : Sock) : Prop :=
  (∀ k, a.pmask.testBit k = true → b.pmask.testBit k = true)
  ∧ (∀ k, a.hmask.testBit k = true → b.hmask.testBit k = true)
  ∧ (b.hmask &&& FD_CLOSE ≠ 0 ↔ a.hmask &&& FD_CLOSE ≠ 0)
  ∧ (b.state &&& FD_WINE_LISTENING ≠ 0 ↔ a.state &&& FD_WINE_LISTENING ≠ 0)
  ∧ (b.state &&& FD_CONNECT ≠ 0 → a.state &&& FD_CONNECT ≠ 0)
  ∧ b.errors.length = a.errors.length
  ∧ (∀ i, i < 3 → a.errors[i]? = some 0 → b.errors[i]? = some 0)

/-- The readiness after the peek-based reinterpretation, in the words of the
specification: a readable readiness whose peek finds the end of the stream is treated as
a hangup; any other readiness is taken as it is. -/
def readiness_after_peek (env : Env) (sys : Sys) (sock : Sock) (event : Nat) : Nat :=
  if event &&& POLLIN ≠ 0 ∧ env.recv_peek sys.clock sock.fd = 0 then POLLHUP else event

/-- The condition of the close rule in the words of the specification: the state has
`FD_READ` or `FD_WRITE`, and the readiness has `POLLERR`, or has `POLLHUP` without
`POLLIN`. -/
def close_rule_applies (state readiness : Nat) : Prop :=
  state &&& (FD_READ ||| FD_WRITE) ≠ 0
  ∧ (readiness &&& POLLERR ≠ 0 ∨ (readiness &&& POLLHUP ≠ 0 ∧ readiness &&& POLLIN = 0))

/-- The table of `sock_get_error` in the words of the specification: each OS error number
the function lists, with the network error of the same name; `EPERM` and `EACCES` both go
with `WSAEACCES`, `EPIPE` and `ECONNRESET` both with `WSAECONNRESET`. -/
def errno_table : List (Int × Int) :=
  [(EINTR, WSAEINTR), (EBADF, WSAEBADF), (EPERM, WSAEACCES), (EACCES, WSAEACCES),
   (EFAULT, WSAEFAULT), (EINVAL, WSAEINVAL), (EMFILE, WSAEMFILE),
   (EWOULDBLOCK, WSAEWOULDBLOCK), (EINPROGRESS, WSAEINPROGRESS), (EALREADY, WSAEALREADY),
   (ENOTSOCK, WSAENOTSOCK), (EDESTADDRREQ, WSAEDESTADDRREQ), (EMSGSIZE, WSAEMSGSIZE),
   (EPROTOTYPE, WSAEPROTOTYPE), (ENOPROTOOPT, WSAENOPROTOOPT),
   (EPROTONOSUPPORT, WSAEPROTONOSUPPORT), (ESOCKTNOSUPPORT, WSAESOCKTNOSUPPORT),
   (EOPNOTSUPP, WSAEOPNOTSUPP), (EPFNOSUPPORT, WSAEPFNOSUPPORT),
   (EAFNOSUPPORT, WSAEAFNOSUPPORT), (EADDRINUSE, WSAEADDRINUSE),
   (EADDRNOTAVAIL, WSAEADDRNOTAVAIL), (ENETDOWN, WSAENETDOWN), (ENETUNREACH, WSAENETUNREACH),
   (ENETRESET, WSAENETRESET), (ECONNABORTED, WSAECONNABORTED), (EPIPE, WSAECONNRESET),
   (ECONNRESET, WSAECONNRESET), (ENOBUFS, WSAENOBUFS), (EISCONN, WSAEISCONN),
   (ENOTCONN, WSAENOTCONN), (ESHUTDOWN, WSAESHUTDOWN), (ETOOMANYREFS, WSAETOOMANYREFS),
   (ETIMEDOUT, WSAETIMEDOUT), (ECONNREFUSED, WSAECONNREFUSED), (ELOOP, WSAELOOP),
   (ENAMETOOLONG, WSAENAMETOOLONG), (EHOSTDOWN, WSAEHOSTDOWN),
   (EHOSTUNREACH, WSAEHOSTUNREACH), (ENOTEMPTY, WSAENOTEMPTY), (EUSERS, WSAEUSERS),
   (EDQUOT, WSAEDQUOT), (ESTALE, WSAESTALE), (EREMOTE, WSAEREMOTE)]

/-- The invocations of `sock_poll_event` that disable the registration: the readiness
passed in has `POLLERR` or `POLLHUP`, or the socket is in the normal phase and the
readiness has `POLLIN` with a peek that finds the end of the stream. -/
def disables_registration (env : Env) (sys : Sys) (sock : Sock) (event : Nat) : Prop :=
  event &&& (POLLERR ||| POLLHUP) ≠ 0
  ∨ (sock.state &&& FD_CONNECT = 0 ∧ sock.state &&& FD_WINE_LISTENING = 0
      ∧ event &&& POLLIN ≠ 0 ∧ env.recv_peek sys.clock sock.fd = 0)

/-- The phase invariant of the specification: `FD_CONNECT` and `FD_WINE_LISTENING` are
not both set. -/
def phase_invariant (sock : Sock) : Prop :=
  ¬ (sock.state &&& FD_CONNECT ≠ 0 ∧ sock.state &&& FD_WINE_LISTENING ≠ 0)

/-- An acknowledge keeps the phases of a socket: the state it asks for does not have both
phase flags, and has `FD_WINE_LISTENING` when the socket has it. -/
def keeps_phase (sock : Sock) (req : enable_socket_event_request) : Prop :=
  ¬ (((sock.state ||| req.sstate) &&& bnot32 req.cstate) &&& FD_CONNECT ≠ 0
      ∧ ((sock.state ||| req.sstate) &&& bnot32 req.cstate) &&& FD_WINE_LISTENING ≠ 0)
  ∧ (sock.state &&& FD_WINE_LISTENING ≠ 0 →
      ((sock.state ||| req.sstate) &&& bnot32 req.cstate) &&& FD_WINE_LISTENING ≠ 0)

/-- One call on a socket, from the record before to the record after: a readiness
notification, a subscription, a query, an acknowledge that keeps the phases, or an accept
on the socket as the listener. -/
inductive sock_step : Sock → Sock → Prop where
  | notify {fuel : Nat} {env : Env} {sys : Sys} {sock : Sock} {event : Nat} {p : Sys × Sock} :
      sock_poll_event fuel env sys sock event = some p → sock_step sock p.2
  | subscribe {fuel : Nat} {env : Env} {sys sys1 : Sys} {sock sock1 : Sock}
      {req : set_socket_event_request} :
      set_socket_event fuel env sys (some sock) req = some (sys1, some sock1) →
      sock_step sock sock1
  | query {fuel : Nat} {env : Env} {sys sys1 : Sys} {sock sock1 : Sock}
      {req : get_socket_event_request} {reply : get_socket_event_reply} :
      get_socket_event fuel env sys (some sock) req = some (sys1, some sock1, reply) →
      sock_step sock sock1
  | acknowledge {fuel : Nat} {env : Env} {sys sys1 : Sys} {sock sock1 : Sock}
      {req : enable_socket_event_request} :
      keeps_phase sock req →
      enable_socket_event fuel env sys (some sock) req = some (sys1, some sock1) →
      sock_step sock sock1
  | listen_accept {fuel : Nat} {env : Env} {sys sys1 : Sys} {sock sock1 : Sock}
      {acceptsock : Option Sock} :
      accept_socket fuel env sys (some sock) = some (sys1, some sock1, acceptsock) →
      sock_step sock sock1

/-- The socket records that `create_socket` and `accept_socket` produce, and those that
come from them by the calls of `sock_step`. -/
inductive reachable : Sock → Prop where
  | created {fuel : Nat} {env : Env} {sys sys1 : Sys} {family type protocol : Int}
      {flags : Nat} {sock : Sock} :
      create_socket fuel env sys family type protocol flags = some (sys1, some sock) →
      reachable sock
  | accepted {fuel : Nat} {env : Env} {sys sys1 : Sys} {listener listener1 sock : Sock} :
      accept_socket fuel env sys (some listener) = some (sys1, some listener1, some sock) →
      reachable sock
  | step {a b : Sock} : reachable a → sock_step a b → reachable b

/-- Modelled from the spec: what one call does to the interest the poll loop stores for
the descriptor `fd`. A `set_select_events` for the descriptor stores its argument, unless
the registration has been disabled by an earlier -1, which is for good; any other call
leaves the stored interest as it is. -/
def interest_step (fd : Int) (acc : Option Int) (c : Call) : Option Int :=
  match c with
  | Call.set_select_events fd1 events => if fd1 = fd ∧ acc ≠ some (-1) then some events else acc
  | _ => acc

/-- Modelled from the spec: the interest the poll loop stores for a descriptor after a
sequence of calls; `none` when no interest has been stored, -1 when the registration is
disabled. -/
def registered_interest (calls : List Call) (fd : Int) : Option Int :=
  calls.foldl (interest_step fd) none

/-- The registered interest of the socket is settled: the registration is disabled, or
the stored interest is what `sock_get_poll_events` computes from the socket. -/
def interest_settled (sys : Sys) (sock : Sock) : Prop :=
  registered_interest sys.calls sock.fd = some (-1)
  ∨ registered_interest sys.calls sock.fd = some (sock_get_poll_events sock : Int)

/-- The readiness oracles of the termination claim, first condition: the zero-timeout
probe answers only with bits of the requested interest, `POLLERR` and `POLLHUP`. -/
def answers_within_interest (env : Env) : Prop :=
  ∀ t fd ev, env.poll t fd ev &&& (ev ||| POLLERR ||| POLLHUP) = env.poll t fd ev

/-- The readiness oracles of the termination claim, second condition: the answer to a
probe does not change with time. -/
def answers_stable (env : Env) : Prop :=
  ∀ t1 t2 fd ev, env.poll t1 fd ev = env.poll t2 fd ev

/-- A normal-phase socket that asks the poll loop for readable data: `FD_READ` is
subscribed, in the state and not held. -/
def polls_for_read (sock : Sock) : Prop :=
  sock.state &&& FD_CONNECT = 0 ∧ sock.state &&& FD_WINE_LISTENING = 0
  ∧ (sock.mask &&& sock.state &&& bnot32 sock.hmask) &&& FD_READ ≠ 0

/-- The measure of the termination claim, on the state and the held set (and the mask,
which no nested call changes): 3 while connecting; for a listener 1 until an accept
event is held; in the normal phase the number of kinds among `FD_READ` and `FD_WRITE`
that are subscribed, in the state and not held. -/
def nesting_measure (sock : Sock) : Nat :=
  if sock.state &&& FD_CONNECT ≠ 0 then 3
  else if sock.state &&& FD_WINE_LISTENING ≠ 0 then
    (if sock.hmask &&& FD_ACCEPT ≠ 0 then 0 else 1)
  else
    (if (sock.mask &&& sock.state &&& bnot32 sock.hmask) &&& FD_READ ≠ 0 then 1 else 0)
    + (if (sock.mask &&& sock.state &&& bnot32 sock.hmask) &&& FD_WRITE ≠ 0 then 1 else 0)

/-- A readiness oracle that reports priority data only together with readable data. -/
def priority_with_readable (env : Env) : Prop :=
  ∀ t fd ev, env.poll t fd ev &&& POLLPRI ≠ 0 → env.poll t fd ev &&& POLLIN ≠ 0

/-- A readiness that such an oracle can answer to the probe of a socket: not empty, within
the interest of the socket, `POLLERR` and `POLLHUP`, and with `POLLPRI` only together with
`POLLIN`. -/
def probe_answer (sock : Sock) (revents : Nat) : Prop :=
  revents ≠ 0
  ∧ revents &&& (sock_get_poll_events sock ||| POLLERR ||| POLLHUP) = revents
  ∧ (revents &&& POLLPRI ≠ 0 → revents &&& POLLIN ≠ 0)

/-- A call that signals, resets or releases an event that is not there: `set_event`,
`reset_event` or `release_object` on `NULL`. -/
def absent_event_call : Call → Bool
  | Call.set_event none => true
  | Call.reset_event none => true
  | Call.release_object none => true
  | _ => false

/-- The calls on an absent event among the calls made so far, in the order they were
made. -/
def absent_event_calls (sys : Sys) : List Call :=
  sys.calls.filter absent_event_call

/-! ## Concrete sockets and environments -/

/-- A socket record with every field empty, descriptor 3, registered in slot 0, and an
error array of `FD_MAX_EVENTS` zeros. -/
def blank_sock : Sock :=
  { fd := 3, select := 0, state := 0, mask := 0, hmask := 0, pmask := 0, flags := 0,
    event := none, errors := List.replicate FD_MAX_EVENTS 0 }

/-- A connecting socket subscribed to everything that holds `FD_WRITE`. -/
def connecting_holding_write : Sock :=
  { blank_sock with
    state := FD_CONNECT
    mask := FD_READ ||| FD_WRITE
    hmask := FD_WRITE }

/-- A listening socket that holds `FD_READ` and not `FD_ACCEPT`. -/
def listening_holding_read : Sock :=
  { blank_sock with
    state := FD_WINE_LISTENING
    mask := FD_ACCEPT
    hmask := FD_READ }

/-- A connected socket subscribed to `FD_READ` that holds `FD_ACCEPT`. -/
def normal_holding_accept : Sock :=
  { blank_sock with
    state := FD_WINE_CONNECTED ||| FD_READ ||| FD_WRITE
    mask := FD_READ
    hmask := FD_ACCEPT }

/-- A connected socket subscribed to `FD_READ` and `FD_WRITE` that holds `FD_READ`. -/
def normal_holding_read : Sock :=
  { blank_sock with
    state := FD_WINE_CONNECTED ||| FD_READ ||| FD_WRITE
    mask := FD_READ ||| FD_WRITE
    hmask := FD_READ }

/-- A collaborator state at the start: nothing signaled, no error, no call made. -/
def idle_sys : Sys := { clock := 0, signaled := [], last_error := 0, calls := [] }

/-- An environment in which no probe reports readiness: a peek finds data, `SO_ERROR`
reads 0, `accept` and `socket` give descriptors 5 and 4, allocation succeeds, and a
handle `h` other than 0 names the event `h + 100`. -/
def quiet_env : Env :=
  { poll := fun _ _ _ => 0
    recv_peek := fun _ _ => 1
    so_error := fun _ _ => 0
    accept := fun _ _ => 5
    socket := fun _ _ _ _ => 4
    errno := fun _ => 0
    alloc_object := fun _ => some blank_sock
    select_slot := fun _ => 0
    get_event_obj := fun h => if h = 0 then none else some (h + 100) }

/-- An environment in which descriptor 3 has a connection queued whenever it is probed
for readability; otherwise like `quiet_env`. -/
def second_connection_env : Env :=
  { quiet_env with poll := fun _ fd ev => if fd = 3 then ev &&& POLLIN else 0 }

/-- An environment in which every probe reports `POLLERR` and `SO_ERROR` reads
`ECONNRESET`; otherwise like `quiet_env`. -/
def failing_env : Env :=
  { quiet_env with
    poll := fun _ _ _ => POLLERR
    so_error := fun _ _ => 104 }

/-- A listening socket subscribed to `FD_ACCEPT`, with nothing pending or held. -/
def listening_sock : Sock :=
  { blank_sock with
    state := FD_WINE_LISTENING
    mask := FD_ACCEPT }

/-- A listening socket on which an accept event is pending and held. -/
def held_listener : Sock :=
  { blank_sock with
    state := FD_WINE_LISTENING
    mask := FD_ACCEPT
    hmask := FD_ACCEPT
    pmask := FD_ACCEPT }

/-- An acknowledge of `FD_ACCEPT` that also clears `FD_WINE_LISTENING`. -/
def accept_ack_unlisten : enable_socket_event_request :=
  { handle := 1, mask := FD_ACCEPT, sstate := 0, cstate := FD_WINE_LISTENING }

/-- A socket with both phase flags set, subscribed to `FD_WRITE`. -/
def connecting_listener : Sock :=
  { blank_sock with
    state := FD_CONNECT ||| FD_WINE_LISTENING
    mask := FD_WRITE }

/-- A connecting socket subscribed to `FD_CONNECT`. -/
def connecting_sock : Sock :=
  { blank_sock with
    state := FD_CONNECT
    mask := FD_CONNECT }

/-- An environment in which `SO_ERROR` reads `ECONNREFUSED`; otherwise like `quiet_env`. -/
def refused_env : Env :=
  { quiet_env with so_error := fun _ _ => 111 }

/-- A connected socket subscribed to `FD_READ` and `FD_CLOSE`, nothing pending or held. -/
def connected_sock : Sock :=
  { blank_sock with
    state := FD_WINE_CONNECTED ||| FD_READ ||| FD_WRITE
    mask := FD_READ ||| FD_CLOSE }

/-- An environment in which a peek finds the end of the stream; otherwise like
`quiet_env`. -/
def eof_env : Env :=
  { quiet_env with recv_peek := fun _ _ => 0 }

/-- A connected socket subscribed to `FD_READ` with event 107, on which `FD_READ` is
pending and held. -/
def readable_sock : Sock :=
  { blank_sock with
    state := FD_WINE_CONNECTED ||| FD_READ ||| FD_WRITE
    mask := FD_READ
    hmask := FD_READ
    pmask := FD_READ
    event := some 107 }

/-- A service-mode query whose companion signalling event is handle 7, in `quiet_env` the
event 107. -/
def service_query_registered : get_socket_event_request :=
  { handle := 1, service := 1, s_event := 7, c_event := 0, reply_max_size := 40 }

/-- A service-mode query whose companion signalling event is handle 8, in `quiet_env` the
event 108. -/
def service_query_other : get_socket_event_request :=
  { handle := 1, service := 1, s_event := 8, c_event := 0, reply_max_size := 40 }

/-- An acknowledge that asks for the service trigger on a socket with event 107. -/
def service_ack : enable_socket_event_request :=
  { handle := 1, mask := FD_READ ||| FD_WINE_SERVEVENT, sstate := FD_READ, cstate := 0 }

/-- A socket that has just connected: `FD_CONNECT` is still pending. -/
def just_connected_sock : Sock :=
  { blank_sock with
    state := FD_WINE_CONNECTED ||| FD_READ ||| FD_WRITE
    pmask := FD_CONNECT }

/-- A subscription to `FD_READ` with the event of handle 7. -/
def read_subscription : set_socket_event_request :=
  { handle := 1, mask := FD_READ, event := 7 }

/-- A service-mode query without companion events. -/
def service_query : get_socket_event_request :=
  { handle := 1, service := 1, s_event := 0, c_event := 0, reply_max_size := 40 }

/-- A query that is not in service mode. -/
def plain_query : get_socket_event_request :=
  { handle := 1, service := 0, s_event := 0, c_event := 0, reply_max_size := 40 }

/-- A listening socket with event 107, subscribed to `FD_ACCEPT` and `FD_READ`, on which
an accept event is pending and held. -/
def sharing_listener : Sock :=
  { blank_sock with
    state := FD_WINE_LISTENING
    mask := FD_ACCEPT ||| FD_READ
    hmask := FD_ACCEPT
    pmask := FD_ACCEPT
    event := some 107 }

/-- A service-mode query that names handle 7, in `quiet_env` the event 107, as the
companion event to reset. -/
def service_query_resetting : get_socket_event_request :=
  { handle := 1, service := 1, s_event := 0, c_event := 7, reply_max_size := 40 }

/-- An acknowledge of `FD_WRITE` that changes no state bit. -/
def write_ack : enable_socket_event_request :=
  { handle := 2, mask := FD_WRITE, sstate := 0, cstate := 0 }

/-- An acknowledge of `FD_CLOSE` that changes no state bit. -/
def close_ack : enable_socket_event_request :=
  { handle := 1, mask := FD_CLOSE, sstate := 0, cstate := 0 }

/-- An acknowledge of `FD_ACCEPT` that changes no state bit. -/
def accept_ack : enable_socket_event_request :=
  { handle := 1, mask := FD_ACCEPT, sstate := 0, cstate := 0 }

/-- The acknowledge a client sends when it starts a connect: it acknowledges `FD_CONNECT`,
`FD_READ` and `FD_WRITE`, sets `FD_CONNECT` and clears `FD_WINE_CONNECTED` and
`FD_WINE_LISTENING`. -/
def connect_ack : enable_socket_event_request :=
  { handle := 1, mask := FD_CONNECT ||| FD_READ ||| FD_WRITE, sstate := FD_CONNECT,
    cstate := FD_WINE_CONNECTED ||| FD_WINE_LISTENING }

/-- A datagram socket subscribed to `FD_WRITE` on which `FD_WRITE` is pending and held. -/
def write_pending_sock : Sock :=
  { blank_sock with
    state := FD_READ ||| FD_WRITE
    mask := FD_WRITE
    hmask := FD_WRITE
    pmask := FD_WRITE }

/-- An environment in which the allocation of an object fails; otherwise like
`quiet_env`. -/
def no_memory_env : Env :=
  { quiet_env with alloc_object := fun _ => none }

/-- The socket type `SOCK_SEQPACKET` of the host headers (not among the sources; the
value is that of Linux). -/
def SOCK_SEQPACKET : Int := 5

/-- An environment in which every probe reports `POLLHUP`, as the host does for a
connection-oriented descriptor that is not connected; otherwise like `quiet_env`. -/
def hangup_env : Env :=
  { quiet_env with poll := fun _ _ _ => POLLHUP }

/-- An acknowledge that sets both phase flags. -/
def both_phases_ack : enable_socket_event_request :=
  { handle := 1, mask := 0, sstate := FD_CONNECT ||| FD_WINE_LISTENING, cstate := 0 }

/-- The acknowledge a client sends when it starts to listen: it sets
`FD_WINE_LISTENING` and clears `FD_CONNECT` and `FD_WINE_CONNECTED`. -/
def listen_ack : enable_socket_event_request :=
  { handle := 1, mask := FD_ACCEPT, sstate := FD_WINE_LISTENING,
    cstate := FD_CONNECT ||| FD_WINE_CONNECTED }

/-- An environment in which urgent data, and nothing else, is waiting on every
descriptor: a probe that asks for `POLLPRI` is answered with `POLLPRI`; otherwise like
`quiet_env`. -/
def urgent_env : Env :=
  { quiet_env with poll := fun _ _ ev => ev &&& POLLPRI }

/-- A subscription to `FD_CONNECT` that names no event (handle 0). -/
def connect_subscription_without_event : set_socket_event_request :=
  { handle := 1, mask := FD_CONNECT, event := 0 }

/-- An environment in which no handle names an event; otherwise like `quiet_env`. -/
def stale_handle_env : Env :=
  { quiet_env with get_event_obj := fun _ => none }

/-! ## Bit-level lemmas -/

@[simp] theorem testBit_bnot32 (x i : Nat) :
    (bnot32 x).testBit i = (decide (i < 32) && !x.testBit i) := by
  have h : x % 2 ^ 32 < 2 ^ 32 := Nat.mod_lt _ (by decide)
  have e : bnot32 x = 2 ^ 32 - (x % 2 ^ 32 + 1) := by unfold bnot32; omega
  rw [e, Nat.testBit_two_pow_sub_succ h, Nat.testBit_mod_two_pow]
  cases decide (i < 32) <;> simp

theorem land_pow_eq_zero {m k : Nat} (h : m = 2 ^ k) (x : Nat) :
    x &&& m = 0 ↔ x.testBit k = false := by
  subst h
  rw [Nat.and_two_pow]
  have hp : 0 < 2 ^ k := Nat.pos_pow_of_pos k (by decide)
  cases hx : x.testBit k
  · simp
  · simp [Nat.pos_iff_ne_zero.mp hp]

theorem lor_eq_zero (a b : Nat) : a ||| b = 0 ↔ a = 0 ∧ b = 0 := by
  constructor
  · intro h
    have hb : ∀ i, (a ||| b).testBit i = false := by intro i; rw [h]; simp
    constructor
    · apply Nat.eq_of_testBit_eq
      intro i
      have := hb i
      rw [Nat.testBit_or] at this
      cases ha : a.testBit i <;> simp_all
    · apply Nat.eq_of_testBit_eq
      intro i
      have := hb i
      rw [Nat.testBit_or] at this
      cases ha : b.testBit i <;> simp_all
  · rintro ⟨rfl, rfl⟩
    rfl

@[simp] theorem land_lor_eq_zero (x a b : Nat) :
    x &&& (a ||| b) = 0 ↔ x &&& a = 0 ∧ x &&& b = 0 := by
  rw [Nat.and_or_distrib_left, lor_eq_zero]

@[simp] theorem land_FD_READ (x : Nat) : x &&& FD_READ = 0 ↔ x.testBit 0 = false :=
  land_pow_eq_zero (by decide) x

@[simp] theorem testBit_FD_READ (i : Nat) : FD_READ.testBit i = decide (0 = i) := by
  have h : FD_READ = 2 ^ 0 := by decide
  rw [h, Nat.testBit_two_pow]

@[simp] theorem land_FD_WRITE (x : Nat) : x &&& FD_WRITE = 0 ↔ x.testBit 1 = false :=
  land_pow_eq_zero (by decide) x

@[simp] theorem testBit_FD_WRITE (i : Nat) : FD_WRITE.testBit i = decide (1 = i) := by
  have h : FD_WRITE = 2 ^ 1 := by decide
  rw [h, Nat.testBit_two_pow]

@[simp] theorem land_FD_OOB (x : Nat) : x &&& FD_OOB = 0 ↔ x.testBit 2 = false :=
  land_pow_eq_zero (by decide) x

@[simp] theorem testBit_FD_OOB (i : Nat) : FD_OOB.testBit i = decide (2 = i) := by
  have h : FD_OOB = 2 ^ 2 := by decide
  rw [h, Nat.testBit_two_pow]

@[simp] theorem land_FD_ACCEPT (x : Nat) : x &&& FD_ACCEPT = 0 ↔ x.testBit 3 = false :=
  land_pow_eq_zero (by decide) x

@[simp] theorem testBit_FD_ACCEPT (i : Nat) : FD_ACCEPT.testBit i = decide (3 = i) := by
  have h : FD_ACCEPT = 2 ^ 3 := by decide
  rw [h, Nat.testBit_two_pow]

@[simp] theorem land_FD_CONNECT (x : Nat) : x &&& FD_CONNECT = 0 ↔ x.testBit 4 = false :=
  land_pow_eq_zero (by decide) x

@[simp] theorem testBit_FD_CONNECT (i : Nat) : FD_CONNECT.testBit i = decide (4 = i) := by
  have h : FD_CONNECT = 2 ^ 4 := by decide
  rw [h, Nat.testBit_two_pow]

@[simp] theorem land_FD_CLOSE (x : Nat) : x &&& FD_CLOSE = 0 ↔ x.testBit 5 = false :=
  land_pow_eq_zero (by decide) x

@[simp] theorem testBit_FD_CLOSE (i : Nat) : FD_CLOSE.testBit i = decide (5 = i) := by
  have h : FD_CLOSE = 2 ^ 5 := by decide
  rw [h, Nat.testBit_two_pow]

@[simp] theorem land_FD_WINE_SERVEVENT (x : Nat) : x &&& FD_WINE_SERVEVENT = 0 ↔ x.testBit 24 = false :=
  land_pow_eq_zero (by decide) x

@[simp] theorem testBit_FD_WINE_SERVEVENT (i : Nat) : FD_WINE_SERVEVENT.testBit i = decide (24 = i) := by
  have h : FD_WINE_SERVEVENT = 2 ^ 24 := by decide
  rw [h, Nat.testBit_two_pow]

@[simp] theorem land_FD_WINE_LISTENING (x : Nat) : x &&& FD_WINE_LISTENING = 0 ↔ x.testBit 28 = false :=
  land_pow_eq_zero (by decide) x

@[simp] theorem testBit_FD_WINE_LISTENING (i : Nat) : FD_WINE_LISTENING.testBit i = decide (28 = i) := by
  have h : FD_WINE_LISTENING = 2 ^ 28 := by decide
  rw [h, Nat.testBit_two_pow]

@[simp] theorem land_FD_WINE_NONBLOCKING (x : Nat) : x &&& FD_WINE_NONBLOCKING = 0 ↔ x.testBit 29 = false :=
  land_pow_eq_zero (by decide) x

@[simp] theorem testBit_FD_WINE_NONBLOCKING (i : Nat) : FD_WINE_NONBLOCKING.testBit i = decide (29 = i) := by
  have h : FD_WINE_NONBLOCKING = 2 ^ 29 := by decide
  rw [h, Nat.testBit_two_pow]

@[simp] theorem land_FD_WINE_CONNECTED (x : Nat) : x &&& FD_WINE_CONNECTED = 0 ↔ x.testBit 30 = false :=
  land_pow_eq_zero (by decide) x

@[simp] theorem testBit_FD_WINE_CONNECTED (i : Nat) : FD_WINE_CONNECTED.testBit i = decide (30 = i) := by
  have h : FD_WINE_CONNECTED = 2 ^ 30 := by decide
  rw [h, Nat.testBit_two_pow]

@[simp] theorem land_POLLIN (x : Nat) : x &&& POLLIN = 0 ↔ x.testBit 0 = false :=
  land_pow_eq_zero (by decide) x

@[simp] theorem testBit_POLLIN (i : Nat) : POLLIN.testBit i = decide (0 = i) := by
  have h : POLLIN = 2 ^ 0 := by decide
  rw [h, Nat.testBit_two_pow]

@[simp] theorem land_POLLPRI (x : Nat) : x &&& POLLPRI = 0 ↔ x.testBit 1 = false :=
  land_pow_eq_zero (by decide) x

@[simp] theorem testBit_POLLPRI (i : Nat) : POLLPRI.testBit i = decide (1 = i) := by
  have h : POLLPRI = 2 ^ 1 := by decide
  rw [h, Nat.testBit_two_pow]

@[simp] theorem land_POLLOUT (x : Nat) : x &&& POLLOUT = 0 ↔ x.testBit 2 = false :=
  land_pow_eq_zero (by decide) x

@[simp] theorem testBit_POLLOUT (i : Nat) : POLLOUT.testBit i = decide (2 = i) := by
  have h : POLLOUT = 2 ^ 2 := by decide
  rw [h, Nat.testBit_two_pow]

@[simp] theorem land_POLLERR (x : Nat) : x &&& POLLERR = 0 ↔ x.testBit 3 = false :=
  land_pow_eq_zero (by decide) x

@[simp] theorem testBit_POLLERR (i : Nat) : POLLERR.testBit i = decide (3 = i) := by
  have h : POLLERR = 2 ^ 3 := by decide
  rw [h, Nat.testBit_two_pow]

@[simp] theorem land_POLLHUP (x : Nat) : x &&& POLLHUP = 0 ↔ x.testBit 4 = false :=
  land_pow_eq_zero (by decide) x

@[simp] theorem testBit_POLLHUP (i : Nat) : POLLHUP.testBit i = decide (4 = i) := by
  have h : POLLHUP = 2 ^ 4 := by decide
  rw [h, Nat.testBit_two_pow]

theorem land_cleared_ne_zero (p a m : Nat) (h : (p &&& bnot32 a) &&& m ≠ 0) : p &&& m ≠ 0 := by
  intro h0
  apply h
  rw [Nat.and_assoc, Nat.and_comm (bnot32 a) m, ← Nat.and_assoc, h0, Nat.zero_and]

/-! ## Lemmas on the operations -/

theorem sock_reselect_body_quiet (poll_event : Sys → Sock → Nat → Option (Sys × Sock))
    (env : Env) (h : quiet env) (sys : Sys) (sock : Sock) :
    sock_reselect_body poll_event env sys sock = some (sock_reselect_idle env sys sock) := by
  unfold sock_reselect_body sock_reselect_idle
  by_cases h1 : sock.select = -1 ∧ ¬ (sock.state &&& bnot32 FD_WINE_NONBLOCKING ≠ 0)
  · rw [if_pos h1, if_pos h1]
  · rw [if_neg h1, if_neg h1]
    simp only [h _ _ _, ne_eq, not_true_eq_false, if_false]

/-- In a quiet environment `sock_reselect` returns with any fuel, without a nested call. -/
theorem sock_reselect_quiet (fuel : Nat) (env : Env) (h : quiet env) (sys : Sys) (sock : Sock) :
    sock_reselect fuel env sys sock = some (sock_reselect_idle env sys sock) :=
  sock_reselect_body_quiet _ env h sys sock

/-- In a quiet environment `sock_poll_event` returns with one unit of fuel. -/
theorem sock_poll_event_quiet (fuel : Nat) (env : Env) (h : quiet env) (sys : Sys)
    (sock : Sock) (event : Nat) :
    sock_poll_event (fuel + 1) env sys sock event
      = some (sock_poll_event_idle env sys sock event) := by
  simp only [sock_poll_event, sock_poll_event_idle]
  split_ifs
  · rfl
  · rw [sock_reselect_body_quiet _ env h]; rfl

/-- A reselection that finds nothing leaves the socket as it is, apart from `obj.select`,
and leaves the events and the last error as they are. -/
theorem sock_reselect_idle_frame (env : Env) (sys : Sys) (sock : Sock) :
    same_subscription (sock_reselect_idle env sys sock).2 sock
    ∧ same_event_state (sock_reselect_idle env sys sock).2 sock
    ∧ same_events (sock_reselect_idle env sys sock).1 sys := by
  simp only [sock_reselect_idle, add_select_user]
  split_ifs <;> exact ⟨⟨rfl, rfl, rfl, rfl⟩, ⟨rfl, rfl, rfl, rfl⟩, rfl, rfl⟩

theorem sock_poll_event_wake_signals (sys : Sys) (sock : Sock) (e : Nat)
    (he : sock.event = some e) (hm : sock.pmask &&& sock.mask ≠ 0) :
    e ∈ (sock_poll_event_wake sys sock).signaled := by
  unfold sock_poll_event_wake
  simp [he, hm, set_event, log]

theorem sock_poll_event_wake_keeps (sys : Sys) (sock : Sock) (e : Nat)
    (h : e ∈ sys.signaled) : e ∈ (sock_poll_event_wake sys sock).signaled := by
  simp only [sock_poll_event_wake]
  by_cases hc : sock.pmask &&& sock.mask ≠ 0 ∧ sock.event ≠ none
  · rw [if_pos hc]
    cases hev : sock.event with
    | none => simpa [set_event, log] using h
    | some x =>
      by_cases hx : e = x
      · simp [hx, set_event, log]
      · simp [hx, set_event, log, List.mem_erase_of_ne hx, h]
  · rw [if_neg hc]
    exact h

theorem sock_poll_event_wake_last_error (sys : Sys) (sock : Sock) :
    (sock_poll_event_wake sys sock).last_error = sys.last_error := by
  simp only [sock_poll_event_wake]
  split_ifs
  · cases sock.event <;> rfl
  · rfl

theorem sock_poll_event_connecting_frame (env : Env) (sys : Sys) (sock : Sock) (event : Nat) :
    same_subscription (sock_poll_event_connecting env sys sock event).2.1 sock
    ∧ (sock_poll_event_connecting env sys sock event).2.1.select = sock.select
    ∧ same_events (sock_poll_event_connecting env sys sock event).1 sys := by
  simp only [sock_poll_event_connecting]
  split_ifs <;> exact ⟨⟨rfl, rfl, rfl, rfl⟩, rfl, rfl, rfl⟩

theorem sock_poll_event_listening_frame (env : Env) (sys : Sys) (sock : Sock) (event : Nat) :
    same_subscription (sock_poll_event_listening env sys sock event).2.1 sock
    ∧ (sock_poll_event_listening env sys sock event).2.1.select = sock.select
    ∧ same_events (sock_poll_event_listening env sys sock event).1 sys := by
  simp only [sock_poll_event_listening]
  split_ifs <;> exact ⟨⟨rfl, rfl, rfl, rfl⟩, rfl, rfl, rfl⟩

theorem sock_poll_event_normal_frame (env : Env) (sys : Sys) (sock : Sock) (event : Nat) :
    same_subscription (sock_poll_event_normal env sys sock event).2.1 sock
    ∧ (sock_poll_event_normal env sys sock event).2.1.select = sock.select
    ∧ same_events (sock_poll_event_normal env sys sock event).1 sys := by
  simp only [sock_poll_event_normal, sock_poll_event_pollin, sock_poll_event_pollout,
    sock_poll_event_pollpri, sock_poll_event_close]
  split_ifs <;> exact ⟨⟨rfl, rfl, rfl, rfl⟩, rfl, rfl, rfl⟩

/-- The state update of `sock_poll_event` touches neither the subscription nor the
object header, and neither the events nor the last error. -/
theorem sock_poll_event_update_frame (env : Env) (sys : Sys) (sock : Sock) (event : Nat) :
    same_subscription (sock_poll_event_update env sys sock event).2.1 sock
    ∧ (sock_poll_event_update env sys sock event).2.1.select = sock.select
    ∧ same_events (sock_poll_event_update env sys sock event).1 sys := by
  unfold sock_poll_event_update
  split_ifs
  · exact sock_poll_event_connecting_frame env sys sock event
  · exact sock_poll_event_listening_frame env sys sock event
  · exact sock_poll_event_normal_frame env sys sock event

@[simp] theorem tick_clock (s : Sys) : (tick s).clock = s.clock + 1 := rfl
@[simp] theorem tick_signaled (s : Sys) : (tick s).signaled = s.signaled := rfl
@[simp] theorem tick_last_error (s : Sys) : (tick s).last_error = s.last_error := rfl
@[simp] theorem log_clock (s : Sys) (c : Call) : (log s c).clock = s.clock := rfl
@[simp] theorem log_signaled (s : Sys) (c : Call) : (log s c).signaled = s.signaled := rfl
@[simp] theorem log_last_error (s : Sys) (c : Call) : (log s c).last_error = s.last_error := rfl

/-- A successful `accept_socket` in a quiet environment: both reselections find nothing,
and the listener comes back with `FD_ACCEPT` cleared from its pending and held sets. -/
theorem accept_socket_quiet (fuel : Nat) (env : Env) (sys : Sys) (sock raw : Sock)
    (hq : quiet env) (hacc : env.accept sys.clock sock.fd ≠ -1)
    (halloc : env.alloc_object (sys.clock + 1) = some raw) :
    ∃ sys3 sys4 acceptsock,
      accept_socket fuel env sys (some sock)
        = some ((sock_reselect_idle env sys4 { sock with
              pmask := sock.pmask &&& bnot32 FD_ACCEPT
              hmask := sock.hmask &&& bnot32 FD_ACCEPT }).1,
            some (sock_reselect_idle env sys4 { sock with
              pmask := sock.pmask &&& bnot32 FD_ACCEPT
              hmask := sock.hmask &&& bnot32 FD_ACCEPT }).2,
            some (sock_reselect_idle env sys3 acceptsock).2) := by
  simp only [accept_socket, hacc, if_false, alloc_object, tick_clock, log_clock, halloc,
    Option.map_some', sock_reselect_quiet _ env hq, Option.some_bind]
  exact ⟨_, _, _, rfl⟩

/-- What `sock_poll_event` returns when its probe reports nothing is the state update,
apart from `obj.select`. -/
theorem sock_poll_event_idle_frame (env : Env) (sys : Sys) (sock : Sock) (event : Nat) :
    same_subscription (sock_poll_event_idle env sys sock event).2
        (sock_poll_event_update env sys sock event).2.1
    ∧ same_event_state (sock_poll_event_idle env sys sock event).2
        (sock_poll_event_update env sys sock event).2.1 := by
  simp only [sock_poll_event_idle]
  split_ifs
  · exact ⟨⟨rfl, rfl, rfl, rfl⟩, rfl, rfl, rfl, rfl⟩
  · exact ⟨(sock_reselect_idle_frame env _ _).1, (sock_reselect_idle_frame env _ _).2.1⟩

theorem sock_poll_event_update_listening_pollin (env : Env) (sys : Sys) (sock : Sock)
    (event : Nat) (hc : sock.state &&& FD_CONNECT = 0)
    (hl : sock.state &&& FD_WINE_LISTENING ≠ 0) (hin : event &&& POLLIN ≠ 0) :
    sock_poll_event_update env sys sock event
      = (sys, { sock with
          pmask := sock.pmask ||| FD_ACCEPT
          errors := sock.errors.set FD_ACCEPT_BIT 0
          hmask := sock.hmask ||| FD_ACCEPT }, event) := by
  unfold sock_poll_event_update sock_poll_event_listening
  rw [if_neg (by simpa using hc), if_pos hl, if_pos hin]

/-- The interest of a listening socket, from its state and held set alone. -/
theorem sock_get_poll_events_listening (a : Sock) (hc : a.state &&& FD_CONNECT = 0)
    (hl : a.state &&& FD_WINE_LISTENING ≠ 0) :
    sock_get_poll_events a = if a.hmask &&& FD_ACCEPT ≠ 0 then 0 else POLLIN := by
  unfold sock_get_poll_events
  rw [if_neg (by simpa using hc), if_pos hl]

theorem quiet_env_quiet : quiet quiet_env := fun _ _ _ => rfl

theorem sock_poll_event_update_connecting_pollout (env : Env) (sys : Sys) (sock : Sock)
    (event : Nat) (hc : sock.state &&& FD_CONNECT ≠ 0) (hout : event &&& POLLOUT ≠ 0) :
    sock_poll_event_update env sys sock event
      = (sys, { sock with
          state := (sock.state ||| (FD_WINE_CONNECTED ||| FD_READ ||| FD_WRITE))
            &&& bnot32 FD_CONNECT
          pmask := sock.pmask ||| FD_CONNECT
          errors := sock.errors.set FD_CONNECT_BIT 0 }, event) := by
  unfold sock_poll_event_update sock_poll_event_connecting
  rw [if_pos hc, if_pos hout]

theorem sock_poll_event_update_connecting_failed (env : Env) (sys : Sys) (sock : Sock)
    (event : Nat) (hc : sock.state &&& FD_CONNECT ≠ 0) (hno : event &&& POLLOUT = 0)
    (herr : event &&& (POLLERR ||| POLLHUP) ≠ 0) :
    sock_poll_event_update env sys sock event
      = ((sock_error env sys sock.fd).1, { sock with
          state := sock.state &&& bnot32 FD_CONNECT
          pmask := sock.pmask ||| FD_CONNECT
          errors := sock.errors.set FD_CONNECT_BIT (translated_so_error env sys.clock sock.fd) },
        event) := by
  unfold sock_poll_event_update sock_poll_event_connecting
  rw [if_pos hc, if_neg (by simpa using hno), if_pos herr]
  rfl

theorem sock_poll_event_update_normal_eof (env : Env) (sys : Sys) (sock : Sock)
    (event : Nat) (hc : sock.state &&& FD_CONNECT = 0)
    (hl : sock.state &&& FD_WINE_LISTENING = 0)
    (hrw : sock.state &&& (FD_READ ||| FD_WRITE) ≠ 0) (hin : event &&& POLLIN ≠ 0)
    (heof : env.recv_peek sys.clock sock.fd = 0) :
    sock_poll_event_update env sys sock event
      = ((sock_error env (tick (log sys (Call.recv_peek sock.fd 0))) sock.fd).1,
        { sock with
          errors := sock.errors.set FD_CLOSE_BIT
            (translated_so_error env (sys.clock + 1) sock.fd)
          state := sock.state &&& bnot32 (FD_WINE_CONNECTED ||| FD_READ ||| FD_WRITE)
          pmask := sock.pmask ||| FD_CLOSE },
        POLLHUP) := by
  have h1 : ¬ (POLLHUP &&& POLLOUT ≠ 0) := by decide
  have h2 : ¬ (POLLHUP &&& POLLPRI ≠ 0) := by decide
  have h3 : POLLHUP &&& POLLERR ≠ 0 ∨ POLLHUP &&& (POLLIN ||| POLLHUP) = POLLHUP := by decide
  simp only [sock_poll_event_update, sock_poll_event_normal, sock_poll_event_pollin,
    sock_poll_event_pollout, sock_poll_event_pollpri, sock_poll_event_close]
  rw [if_neg (by simpa using hc), if_neg (by simpa using hl)]
  simp only [if_pos hin, heof, if_true, if_neg h1, if_neg h2, if_pos (And.intro h3 hrw)]
  rfl

theorem sock_poll_event_wake_calls (sys : Sys) (sock : Sock) (e : Nat)
    (he : sock.event = some e) (hm : sock.pmask &&& sock.mask ≠ 0) :
    (sock_poll_event_wake sys sock).calls
      = sys.calls ++ [Call.set_event (some e), Call.wake_up sock.fd] := by
  simp only [sock_poll_event_wake]
  rw [if_pos ⟨hm, by rw [he]; simp⟩, he]
  simp [set_event, log]

/-- A reselection on a probe that reports nothing, whatever the other probes report. -/
theorem sock_reselect_body_of_probe (poll_event : Sys → Sock → Nat → Option (Sys × Sock))
    (env : Env) (sys : Sys) (sock : Sock)
    (h : env.poll sys.clock sock.fd (sock_get_poll_events sock) = 0) :
    sock_reselect_body poll_event env sys sock = some (sock_reselect_idle env sys sock) := by
  unfold sock_reselect_body sock_reselect_idle
  by_cases h1 : sock.select = -1 ∧ ¬ (sock.state &&& bnot32 FD_WINE_NONBLOCKING ≠ 0)
  · rw [if_pos h1, if_pos h1]
  · rw [if_neg h1, if_neg h1]
    by_cases h2 : sock.select = -1
    · simp only [h2, if_true, add_select_user, set_select_events, log_clock, h, ne_eq,
        not_true_eq_false, if_false]
    · simp only [h2, if_false, set_select_events, log_clock, h, ne_eq,
        not_true_eq_false]

/-- What `sock_reselect` returns: either the socket as it is apart from `obj.select`, or
what the nested call returns, made on the socket as it is apart from `obj.select`. -/
theorem sock_reselect_body_cases (poll_event : Sys → Sock → Nat → Option (Sys × Sock))
    (env : Env) (sys : Sys) (sock : Sock) (p : Sys × Sock)
    (h : sock_reselect_body poll_event env sys sock = some p) :
    (same_subscription p.2 sock ∧ same_event_state p.2 sock ∧ same_events p.1 sys)
    ∨ ∃ sys3 sock3 revents, same_subscription sock3 sock ∧ same_event_state sock3 sock
        ∧ same_events sys3 sys ∧ poll_event sys3 sock3 revents = some p := by
  simp only [sock_reselect_body] at h
  split_ifs at h
  all_goals first
    | (cases h; exact Or.inl ⟨⟨rfl, rfl, rfl, rfl⟩, ⟨rfl, rfl, rfl, rfl⟩, rfl, rfl⟩)
    | (refine Or.inr ⟨_, _, _, ?_, ?_, ?_, h⟩ <;>
        first | exact ⟨rfl, rfl, rfl, rfl⟩ | exact ⟨rfl, rfl⟩)

theorem same_subscription_trans {a b c : Sock} (h1 : same_subscription a b)
    (h2 : same_subscription b c) : same_subscription a c :=
  ⟨h1.1.trans h2.1, h1.2.1.trans h2.2.1, h1.2.2.1.trans h2.2.2.1, h1.2.2.2.trans h2.2.2.2⟩

/-- Whatever the probes report, `sock_poll_event` keeps the subscription and the object
header apart from `obj.select`, keeps every signaled event signaled, keeps the last
error, and returns with the wakeup delivered. -/
theorem sock_poll_event_keeps (env : Env) (fuel : Nat) :
    ∀ (sys : Sys) (sock : Sock) (event : Nat) (p : Sys × Sock),
      sock_poll_event fuel env sys sock event = some p →
      same_subscription p.2 sock
      ∧ (∀ e, e ∈ sys.signaled → e ∈ p.1.signaled)
      ∧ p.1.last_error = sys.last_error
      ∧ wakeup_delivered p.1 p.2 := by
  induction fuel with
  | zero => intro sys sock event p h; simp [sock_poll_event] at h
  | succ n ih =>
    intro sys sock event p h
    simp only [sock_poll_event] at h
    obtain ⟨hsub, -, hsig, herr⟩ := sock_poll_event_update_frame env sys sock event
    have key : ∀ q : Sys × Sock,
        (if (sock_poll_event_update env sys sock event).2.2 &&& (POLLERR ||| POLLHUP) ≠ 0 then
          some (set_select_events (sock_poll_event_update env sys sock event).1
            (sock_poll_event_update env sys sock event).2.1 (-1),
            (sock_poll_event_update env sys sock event).2.1)
        else sock_reselect_body (sock_poll_event n env) env
          (sock_poll_event_update env sys sock event).1
          (sock_poll_event_update env sys sock event).2.1) = some q →
        same_subscription q.2 sock ∧ (∀ e, e ∈ sys.signaled → e ∈ q.1.signaled)
          ∧ q.1.last_error = sys.last_error := by
      intro q hq
      split_ifs at hq with hc
      · cases hq
        exact ⟨hsub, fun e he => by rw [← hsig] at he; exact he, herr⟩
      · rcases sock_reselect_body_cases _ env _ _ q hq with ⟨a, -, b, c⟩ | ⟨s3, k3, rv, a, -, ⟨b, c⟩, d⟩
        · exact ⟨same_subscription_trans a hsub, fun e he => by rw [b, hsig]; exact he,
            c.trans herr⟩
        · obtain ⟨i1, i2, i3, -⟩ := ih s3 k3 rv q d
          exact ⟨same_subscription_trans i1 (same_subscription_trans a hsub),
            fun e he => i2 e (by rw [b, hsig]; exact he), i3.trans (c.trans herr)⟩
    cases hr : (if (sock_poll_event_update env sys sock event).2.2 &&& (POLLERR ||| POLLHUP) ≠ 0 then
          some (set_select_events (sock_poll_event_update env sys sock event).1
            (sock_poll_event_update env sys sock event).2.1 (-1),
            (sock_poll_event_update env sys sock event).2.1)
        else sock_reselect_body (sock_poll_event n env) env
          (sock_poll_event_update env sys sock event).1
          (sock_poll_event_update env sys sock event).2.1) with
    | none => rw [hr] at h; simp at h
    | some q =>
      rw [hr] at h
      simp only [Option.map_some', Option.some.injEq] at h
      obtain ⟨k1, k2, k3⟩ := key q hr
      subst h
      refine ⟨k1, fun e he => sock_poll_event_wake_keeps _ _ _ (k2 e he), ?_, ?_⟩
      · show (sock_poll_event_wake q.1 q.2).last_error = _
        rw [sock_poll_event_wake_last_error]; exact k3
      · intro e he hm
        exact sock_poll_event_wake_signals _ _ e he hm

/-- Whatever the probes report, `sock_reselect` keeps the subscription, keeps every
signaled event signaled, keeps the last error, and keeps the wakeup delivered. -/
theorem sock_reselect_keeps (fuel : Nat) (env : Env) (sys : Sys) (sock : Sock)
    (p : Sys × Sock) (h : sock_reselect fuel env sys sock = some p) :
    same_subscription p.2 sock
    ∧ (∀ e, e ∈ sys.signaled → e ∈ p.1.signaled)
    ∧ p.1.last_error = sys.last_error
    ∧ (wakeup_delivered sys sock → wakeup_delivered p.1 p.2) := by
  rcases sock_reselect_body_cases _ env _ _ p h with ⟨a, ⟨-, -, b, -⟩, c, d⟩ | ⟨s3, k3, rv, a, -, ⟨b, c⟩, d⟩
  · refine ⟨a, fun e he => by rw [c]; exact he, d, ?_⟩
    intro hw e he hm
    rw [c]
    exact hw e (by rw [← a.2.1]; exact he) (by rw [← b, ← a.1]; exact hm)
  · obtain ⟨i1, i2, i3, i4⟩ := sock_poll_event_keeps env fuel s3 k3 rv p d
    exact ⟨same_subscription_trans i1 a, fun e he => i2 e (by rw [b]; exact he),
      i3.trans c, fun _ => i4⟩

theorem set_event_mem (s : Sys) (e : Nat) : e ∈ (set_event s (some e)).signaled := by
  simp [set_event, log]

theorem set_event_keeps (s : Sys) (x : Option Nat) (e : Nat) (h : e ∈ s.signaled) :
    e ∈ (set_event s x).signaled := by
  cases x with
  | none => simpa [set_event, log] using h
  | some y =>
    by_cases hy : e = y
    · simp [hy, set_event, log]
    · simp [hy, set_event, log, List.mem_erase_of_ne hy, h]

theorem wakeup_delivered_of {s s1 : Sys} {sock sock1 : Sock}
    (hs : ∀ e, e ∈ s.signaled → e ∈ s1.signaled) (he : sock1.event = sock.event)
    (hp : sock1.pmask &&& sock1.mask ≠ 0 → sock.pmask &&& sock.mask ≠ 0)
    (h : wakeup_delivered s sock) : wakeup_delivered s1 sock1 :=
  fun e h1 h2 => hs e (h e (by rw [← he]; exact h1) (hp h2))

theorem sock_poll_event_ends_with_wake (fuel : Nat) (env : Env) (sys : Sys) (sock : Sock)
    (event : Nat) (p : Sys × Sock) (h : sock_poll_event fuel env sys sock event = some p) :
    ∃ s, p.1 = sock_poll_event_wake s p.2 := by
  cases fuel with
  | zero => simp [sock_poll_event] at h
  | succ n =>
    simp only [sock_poll_event, Option.map_eq_some'] at h
    obtain ⟨q, -, hq⟩ := h
    exact ⟨q.1, by rw [← hq]⟩

theorem set_socket_event_tail (s0 : Sys) (sock2 : Sock) (oevent : Option Nat) (omask e : Nat)
    (he : sock2.event = some e) (hm : sock2.pmask &&& sock2.mask ≠ 0) :
    e ∈ (if oevent ≠ none then
          log (if oevent ≠ sock2.event ∧ omask &&& FD_WINE_SERVEVENT ≠ 0 then
              set_event (if sock2.pmask &&& sock2.mask ≠ 0 then set_event s0 sock2.event else s0)
                oevent
            else (if sock2.pmask &&& sock2.mask ≠ 0 then set_event s0 sock2.event else s0))
            (Call.release_object oevent)
        else (if sock2.pmask &&& sock2.mask ≠ 0 then set_event s0 sock2.event else s0)).signaled := by
  split_ifs
  · rw [log_signaled]; exact set_event_keeps _ _ _ (by rw [he]; exact set_event_mem s0 e)
  · rw [log_signaled, he]; exact set_event_mem s0 e
  · rw [he]; exact set_event_mem s0 e

/-- What a query returns: the socket as it is with the signaled events as they are, or
the result of the reselection after `pmask` has been cleared. -/
theorem get_socket_event_cases (fuel : Nat) (env : Env) (sys : Sys) (sock : Sock)
    (req : get_socket_event_request) (sys1 : Sys) (sock1 : Sock)
    (reply : get_socket_event_reply)
    (h : get_socket_event fuel env sys (some sock) req = some (sys1, some sock1, reply)) :
    (sock1 = sock ∧ sys1.signaled = sys.signaled)
    ∨ ∃ sys2, sock_reselect fuel env sys2 { sock with pmask := 0 } = some (sys1, sock1) := by
  simp only [get_socket_event] at h
  split_ifs at h
  all_goals first
    | (simp only [Option.some.injEq, Prod.mk.injEq] at h
       obtain ⟨h1, h2, -⟩ := h
       subst h1
       subst h2
       exact Or.inl ⟨rfl, rfl⟩)
    | (simp only [Option.map_eq_some', Prod.mk.injEq, Option.some.injEq] at h
       obtain ⟨q, hq, h1, h2, -⟩ := h
       subst h1
       subst h2
       exact Or.inr ⟨_, hq⟩)

theorem wakeup_delivered_cleared (sys : Sys) (sock : Sock) :
    wakeup_delivered sys { sock with pmask := 0 } := by
  intro e _ hm
  exact absurd (Nat.zero_and _) hm

/-- What `accept_socket` returns: on a failure the listener as it is and no socket; on a
success the results of the two reselections, the first on a new socket with nothing
pending, the second on the listener with `FD_ACCEPT` cleared. -/
theorem accept_socket_cases (fuel : Nat) (env : Env) (sys : Sys) (sock : Sock)
    (sys1 : Sys) (sock1 : Sock) (acceptsock : Option Sock)
    (h : accept_socket fuel env sys (some sock) = some (sys1, some sock1, acceptsock)) :
    (sock1 = sock ∧ sys1.signaled = sys.signaled ∧ acceptsock = none)
    ∨ ∃ sys3 sock0 a l, sys3.signaled = sys.signaled ∧ sock0.pmask = 0
        ∧ sock_reselect fuel env sys3 sock0 = some a
        ∧ sock_reselect fuel env (clear_error a.1) { sock with
            pmask := sock.pmask &&& bnot32 FD_ACCEPT
            hmask := sock.hmask &&& bnot32 FD_ACCEPT } = some l
        ∧ sys1 = l.1 ∧ sock1 = l.2 ∧ acceptsock = some a.2 := by
  simp only [accept_socket] at h
  by_cases h1 : env.accept sys.clock sock.fd = -1
  · rw [if_pos h1] at h
    simp only [Option.some.injEq, Prod.mk.injEq] at h
    obtain ⟨a, b, c⟩ := h
    subst a
    subst b
    subst c
    exact Or.inl ⟨rfl, rfl, rfl⟩
  · rw [if_neg h1] at h
    split at h
    · simp only [Option.some.injEq, Prod.mk.injEq] at h
      obtain ⟨a, b, c⟩ := h
      subst a
      subst b
      subst c
      exact Or.inl ⟨rfl, rfl, rfl⟩
    · simp only [Option.bind_eq_some, Option.map_eq_some', Prod.mk.injEq,
        Option.some.injEq] at h
      obtain ⟨a, ha, l, hl, e1, e2, e3⟩ := h
      refine Or.inr ⟨_, _, a, l, ?_, ?_, ha, hl, e1.symm, e2.symm, e3.symm⟩
      · split_ifs <;> rfl
      · rfl

theorem reset_event_not_mem (s : Sys) (e : Nat) : e ∉ (reset_event s (some e)).signaled := by
  simp [reset_event, log]

theorem reset_event_last_error (s : Sys) (x : Option Nat) :
    (reset_event s x).last_error = s.last_error := by
  cases x <;> rfl

theorem sock_poll_event_update_normal_data (env : Env) (sys : Sys) (sock : Sock)
    (hc : sock.state &&& FD_CONNECT = 0) (hl : sock.state &&& FD_WINE_LISTENING = 0)
    (hdata : env.recv_peek sys.clock sock.fd ≠ 0) :
    sock_poll_event_update env sys sock POLLIN
      = (tick (log sys (Call.recv_peek sock.fd (env.recv_peek sys.clock sock.fd))),
        { sock with
          pmask := sock.pmask ||| FD_READ
          hmask := sock.hmask ||| FD_READ
          errors := sock.errors.set FD_READ_BIT 0 },
        POLLIN) := by
  have h0 : POLLIN &&& POLLIN ≠ 0 := by decide
  have h1 : ¬ (POLLIN &&& POLLOUT ≠ 0) := by decide
  have h2 : ¬ (POLLIN &&& POLLPRI ≠ 0) := by decide
  have h3 : ¬ (POLLIN &&& POLLERR ≠ 0 ∨ POLLIN &&& (POLLIN ||| POLLHUP) = POLLHUP) := by decide
  simp only [sock_poll_event_update, sock_poll_event_normal, sock_poll_event_pollin,
    sock_poll_event_pollout, sock_poll_event_pollpri, sock_poll_event_close]
  rw [if_neg (by simpa using hc), if_neg (by simpa using hl)]
  simp only [if_pos h0, if_neg hdata, if_neg h1, if_neg h2, h3, false_and, if_false]

/-- A service-mode query without companion events in a quiet environment: the reply
carries the fields as they were, `pmask` is cleared and nothing else changes but
`obj.select`. -/
theorem get_socket_event_clear_quiet (fuel : Nat) (env : Env) (sys : Sys) (sock : Sock)
    (q : get_socket_event_request) (hq : quiet env) (hs : q.service ≠ 0)
    (hse : q.s_event = 0) (hce : q.c_event = 0) :
    ∃ sys1 sock1 reply, get_socket_event fuel env sys (some sock) q
        = some (sys1, some sock1, reply)
      ∧ reply.pmask = sock.pmask ∧ reply.mask = sock.mask ∧ reply.state = sock.state
      ∧ sock1.pmask = 0 ∧ sock1.mask = sock.mask ∧ sock1.state = sock.state := by
  obtain ⟨⟨f1, -, -, -⟩, ⟨g1, -, g3, -⟩, -⟩ := sock_reselect_idle_frame env sys { sock with pmask := 0 }
  simp only [get_socket_event, if_pos hs, hse, hce, ne_eq, not_true_eq_false, if_false, if_true,
    sock_reselect_quiet _ env hq, Option.map_some']
  exact ⟨_, _, _, rfl, rfl, rfl, rfl, g3, f1, g1⟩

/-! ## The poll-interest calculator -/

/-- C1. `sock_get_poll_events` is the three-rule policy in strict priority order, for
every state, mask and hmask; its result has no bit other than `POLLIN`, `POLLPRI` and
`POLLOUT`, and while `FD_CONNECT` is in the state it is exactly `POLLOUT`, without
`POLLIN` and without `POLLPRI`. -/
theorem sock_get_poll_events_policy (sock : Sock) :
    sock_get_poll_events sock = poll_interest_policy sock.state sock.mask sock.hmask
    ∧ sock_get_poll_events sock &&& bnot32 (POLLIN ||| POLLPRI ||| POLLOUT) = 0
    ∧ (if sock.state &&& FD_CONNECT ≠ 0 then
        sock_get_poll_events sock = POLLOUT
        ∧ sock_get_poll_events sock &&& POLLIN = 0
        ∧ sock_get_poll_events sock &&& POLLPRI = 0
      else True) := by
  unfold sock_get_poll_events poll_interest_policy
  simp only [ne_eq, land_FD_CONNECT, land_FD_WINE_LISTENING, land_FD_ACCEPT, land_FD_READ,
    land_FD_WRITE, Nat.testBit_and, testBit_bnot32]
  cases sock.state.testBit 4 <;> cases sock.state.testBit 28 <;> cases sock.hmask.testBit 3
    <;> cases sock.mask.testBit 0 <;> cases sock.state.testBit 0 <;> cases sock.hmask.testBit 0
    <;> cases sock.mask.testBit 1 <;> cases sock.state.testBit 1 <;> cases sock.hmask.testBit 1
    <;> decide

/-! ## Held kinds and the interest -/

/-- C2, as stated, fails on sockets the code can hold: in the connecting phase the
interest is `POLLOUT` although `FD_WRITE` is held; in the listening phase it is `POLLIN`
although `FD_READ` is held; in the normal phase it has `POLLIN` although `FD_ACCEPT` is
held. -/
theorem held_kind_still_polled :
    (connecting_holding_write.hmask &&& FD_WRITE ≠ 0
      ∧ sock_get_poll_events connecting_holding_write &&& POLLOUT ≠ 0)
    ∧ (listening_holding_read.hmask &&& FD_READ ≠ 0
      ∧ sock_get_poll_events listening_holding_read &&& POLLIN ≠ 0)
    ∧ (normal_holding_accept.hmask &&& FD_ACCEPT ≠ 0
      ∧ sock_get_poll_events normal_holding_accept &&& POLLIN ≠ 0) := by
  decide

/-- C2, amended. Within the phase that polls for it, a held kind is not asked for: in
the normal phase `FD_READ` in `hmask` excludes `POLLIN` and `FD_WRITE` in `hmask` excludes
`POLLOUT`; in the listening phase `FD_ACCEPT` in `hmask` excludes `POLLIN`. This holds in
every state that has the kind in `hmask`, so until the kind leaves `hmask`. In the
connecting phase the interest is `POLLOUT` whatever `hmask` holds. -/
theorem held_kind_excluded_in_phase (sock : Sock) :
    (sock.state &&& FD_CONNECT = 0 → sock.state &&& FD_WINE_LISTENING = 0 →
      sock.hmask &&& FD_READ ≠ 0 → sock_get_poll_events sock &&& POLLIN = 0)
    ∧ (sock.state &&& FD_CONNECT = 0 → sock.state &&& FD_WINE_LISTENING = 0 →
      sock.hmask &&& FD_WRITE ≠ 0 → sock_get_poll_events sock &&& POLLOUT = 0)
    ∧ (sock.state &&& FD_CONNECT = 0 → sock.state &&& FD_WINE_LISTENING ≠ 0 →
      sock.hmask &&& FD_ACCEPT ≠ 0 → sock_get_poll_events sock &&& POLLIN = 0)
    ∧ (sock.state &&& FD_CONNECT ≠ 0 → sock_get_poll_events sock = POLLOUT) := by
  unfold sock_get_poll_events
  simp only [ne_eq, land_FD_CONNECT, land_FD_WINE_LISTENING, land_FD_ACCEPT, land_FD_READ,
    land_FD_WRITE, Nat.testBit_and, testBit_bnot32]
  cases sock.state.testBit 4 <;> cases sock.state.testBit 28 <;> cases sock.hmask.testBit 3
    <;> cases sock.mask.testBit 0 <;> cases sock.state.testBit 0 <;> cases sock.hmask.testBit 0
    <;> cases sock.mask.testBit 1 <;> cases sock.state.testBit 1 <;> cases sock.hmask.testBit 1
    <;> decide

/-- C2, amended, at a normal-phase socket that holds `FD_READ`. -/
theorem held_kind_excluded_in_phase_witness :
    sock_get_poll_events normal_holding_read &&& POLLIN = 0 :=
  (held_kind_excluded_in_phase normal_holding_read).1 (by decide) (by decide) (by decide)

/-! ## The accept cycle of a listening socket -/

/-- C3, amended. For a listening socket, when the probes of the reselection report
nothing: `sock_poll_event` with `POLLIN` leaves `FD_ACCEPT` pending and held with error 0
and the interest becomes 0; a successful `accept_socket`, and an `enable_socket_event`
that acknowledges `FD_ACCEPT` and leaves the phase flags alone, make the interest
`POLLIN` again. -/
theorem listening_accept_cycle (fuel : Nat) (env : Env) (sys : Sys) (sock : Sock)
    (hq : quiet env) (hl : sock.state &&& FD_WINE_LISTENING ≠ 0)
    (hc : sock.state &&& FD_CONNECT = 0) (hlen : sock.errors.length = FD_MAX_EVENTS) :
    (∀ event, event &&& POLLIN ≠ 0 →
      ∃ sys1 sock1, sock_poll_event (fuel + 1) env sys sock event = some (sys1, sock1)
        ∧ sock1.pmask &&& FD_ACCEPT ≠ 0 ∧ sock1.hmask &&& FD_ACCEPT ≠ 0
        ∧ sock1.errors[FD_ACCEPT_BIT]? = some 0
        ∧ sock_get_poll_events sock1 = 0)
    ∧ (∀ raw, env.accept sys.clock sock.fd ≠ -1 → env.alloc_object (sys.clock + 1) = some raw →
      ∃ sys1 sock1 acceptsock,
        accept_socket fuel env sys (some sock) = some (sys1, some sock1, some acceptsock)
        ∧ sock1.pmask = sock.pmask &&& bnot32 FD_ACCEPT
        ∧ sock1.hmask = sock.hmask &&& bnot32 FD_ACCEPT
        ∧ sock_get_poll_events sock1 = POLLIN)
    ∧ (∀ req : enable_socket_event_request, req.mask &&& FD_ACCEPT ≠ 0 →
      req.sstate &&& FD_CONNECT = 0 → req.cstate &&& FD_WINE_LISTENING = 0 →
      ∃ sys1 sock1, enable_socket_event fuel env sys (some sock) req = some (sys1, some sock1)
        ∧ sock1.hmask = sock.hmask &&& bnot32 req.mask
        ∧ sock_get_poll_events sock1 = POLLIN) := by
  refine ⟨?_, ?_, ?_⟩
  · intro event hin
    refine ⟨(sock_poll_event_idle env sys sock event).1,
      (sock_poll_event_idle env sys sock event).2,
      sock_poll_event_quiet fuel env hq sys sock event, ?_⟩
    obtain ⟨-, h1, h2, h3, h4⟩ := sock_poll_event_idle_frame env sys sock event
    rw [sock_poll_event_update_listening_pollin env sys sock event hc hl hin] at h1 h2 h3 h4
    simp only at h1 h2 h3 h4
    have hh : (sock_poll_event_idle env sys sock event).2.hmask &&& FD_ACCEPT ≠ 0 := by
      rw [h2]; simp
    refine ⟨?_, hh, ?_, ?_⟩
    · rw [h3]; simp
    · rw [h4]; exact List.getElem?_set_self (by rw [hlen]; decide)
    · rw [sock_get_poll_events_listening _ (by rw [h1]; exact hc) (by rw [h1]; exact hl),
        if_pos hh]
  · intro raw hacc halloc
    obtain ⟨sys3, sys4, acceptsock, he⟩ := accept_socket_quiet fuel env sys sock raw hq hacc halloc
    obtain ⟨-, ⟨h1, h2, h3, -⟩, -⟩ := sock_reselect_idle_frame env sys4 { sock with
      pmask := sock.pmask &&& bnot32 FD_ACCEPT
      hmask := sock.hmask &&& bnot32 FD_ACCEPT }
    simp only at h1 h2 h3
    refine ⟨_, _, _, he, h3, h2, ?_⟩
    rw [sock_get_poll_events_listening _ (by rw [h1]; exact hc) (by rw [h1]; exact hl),
      if_neg (by rw [h2]; simp [testBit_bnot32])]
  · intro req hm hs hcs
    obtain ⟨-, ⟨h1, h2, -, -⟩, -⟩ := sock_reselect_idle_frame env sys { sock with
      pmask := sock.pmask &&& bnot32 req.mask
      hmask := sock.hmask &&& bnot32 req.mask
      state := (sock.state ||| req.sstate) &&& bnot32 req.cstate }
    simp only at h1 h2
    simp only [ne_eq, land_FD_ACCEPT, land_FD_CONNECT, land_FD_WINE_LISTENING] at hm hs hcs hl hc
    have e : ∃ sys1 sock1, enable_socket_event fuel env sys (some sock) req
          = some (sys1, some sock1)
        ∧ sock1.state = (sock.state ||| req.sstate) &&& bnot32 req.cstate
        ∧ sock1.hmask = sock.hmask &&& bnot32 req.mask := by
      simp only [enable_socket_event, sock_reselect_quiet _ env hq, Option.map_some']
      split_ifs <;> exact ⟨_, _, rfl, h1, h2⟩
    obtain ⟨sys1, sock1, e1, e2, e3⟩ := e
    refine ⟨sys1, sock1, e1, e3, ?_⟩
    rw [sock_get_poll_events_listening _ (by rw [e2]; simp [hc, hs, testBit_bnot32])
      (by rw [e2]; simp [hl, hcs, testBit_bnot32]), if_neg (by rw [e3]; simp [hm, testBit_bnot32])]

/-- C3, as stated, fails when the probe of the reselection reports readiness. With a
second connection queued, a successful `accept_socket` holds `FD_ACCEPT` again at once and
leaves the interest at 0, not `POLLIN`. With an error reported by the probe,
`sock_poll_event` with `POLLIN` leaves the translated `SO_ERROR` in
`errors[FD_ACCEPT_BIT]`, not 0. And an `enable_socket_event` that acknowledges
`FD_ACCEPT` and clears `FD_WINE_LISTENING` leaves the interest at 0. -/
theorem accept_relatches_on_second_connection :
    (accept_socket 1 second_connection_env idle_sys (some held_listener)).map
        (fun r => (r.2.1.map sock_get_poll_events, r.2.2.isSome)) = some (some 0, true)
    ∧ (sock_poll_event 2 failing_env idle_sys listening_sock POLLIN).map
        (fun r => r.2.errors[FD_ACCEPT_BIT]?) = some (some WSAECONNRESET)
    ∧ (enable_socket_event 0 quiet_env idle_sys (some held_listener) accept_ack_unlisten).map
        (fun r => r.2.map sock_get_poll_events) = some (some 0) := by
  decide

/-- C3, amended, at a listening socket in the quiet environment. -/
theorem listening_accept_cycle_witness :
    ∃ sys1 sock1, sock_poll_event 1 quiet_env idle_sys listening_sock POLLIN = some (sys1, sock1)
      ∧ sock1.pmask &&& FD_ACCEPT ≠ 0 ∧ sock1.hmask &&& FD_ACCEPT ≠ 0
      ∧ sock1.errors[FD_ACCEPT_BIT]? = some 0
      ∧ sock_get_poll_events sock1 = 0 :=
  (listening_accept_cycle 0 quiet_env idle_sys listening_sock quiet_env_quiet
    (by decide) (by decide) (by decide)).1 POLLIN (by decide)

/-! ## A connect that succeeds -/

/-- The failure path of the connecting phase, where the code reaches it. For a socket with
`FD_CONNECT` in its state and a readiness that has `POLLERR` or `POLLHUP` and does not
have `POLLOUT`, `sock_poll_event` returns with the connect failed: `FD_CONNECT` cleared,
`FD_WINE_CONNECTED` as it was, `FD_CONNECT` added to `pmask` and the translated `SO_ERROR`
(0 when it reads 0) in `errors[FD_CONNECT_BIT]`. -/
theorem connect_failure (fuel : Nat) (env : Env) (sys : Sys) (sock : Sock) (event : Nat)
    (hc : sock.state &&& FD_CONNECT ≠ 0) (hno : event &&& POLLOUT = 0)
    (herr : event &&& (POLLERR ||| POLLHUP) ≠ 0)
    (hlen : sock.errors.length = FD_MAX_EVENTS) :
    ∃ sys1 sock1, sock_poll_event (fuel + 1) env sys sock event = some (sys1, sock1)
      ∧ sock1.state = sock.state &&& bnot32 FD_CONNECT
      ∧ sock1.state &&& FD_CONNECT = 0
      ∧ (sock1.state &&& FD_WINE_CONNECTED ≠ 0 ↔ sock.state &&& FD_WINE_CONNECTED ≠ 0)
      ∧ sock1.pmask = sock.pmask ||| FD_CONNECT
      ∧ sock1.pmask &&& FD_CONNECT ≠ 0
      ∧ sock1.errors[FD_CONNECT_BIT]? = some (translated_so_error env sys.clock sock.fd)
      ∧ (env.so_error sys.clock sock.fd = 0 → sock1.errors[FD_CONNECT_BIT]? = some 0) := by
  have hs := sock_poll_event_update_connecting_failed env sys sock event hc hno herr
  have hget : (sock.errors.set FD_CONNECT_BIT (translated_so_error env sys.clock sock.fd))[
      FD_CONNECT_BIT]? = some (translated_so_error env sys.clock sock.fd) :=
    List.getElem?_set_self (by rw [hlen]; decide)
  obtain ⟨sys1, he⟩ : ∃ sys1, sock_poll_event (fuel + 1) env sys sock event
      = some (sys1, { sock with
        state := sock.state &&& bnot32 FD_CONNECT
        pmask := sock.pmask ||| FD_CONNECT
        errors := sock.errors.set FD_CONNECT_BIT
          (translated_so_error env sys.clock sock.fd) }) :=
    ⟨_, by simp only [sock_poll_event, hs, if_pos herr, Option.map_some']; rfl⟩
  refine ⟨sys1, _, he, rfl, ?_, ?_, rfl, ?_, hget, ?_⟩
  · simp [-Nat.testBit_zero]
  · simp [-Nat.testBit_zero]
  · simp [-Nat.testBit_zero]
  · intro h0
    rw [hget]
    simp [translated_so_error, h0]

/-- C5, at an input on which the code takes a failed connect for a success. On a
connecting socket whose `SO_ERROR` reads `ECONNREFUSED`, a readiness of
`POLLOUT|POLLERR|POLLHUP` is in the readiness sets of the claim; `sock_poll_event`
returns with `FD_CONNECT` cleared and pending, but with `FD_WINE_CONNECTED` set and 0 in
`errors[FD_CONNECT_BIT]`, without a call that reads `SO_ERROR`, and with the registration
disabled as for a failure. The same holds for `POLLOUT|POLLERR`. -/
theorem connect_error_with_pollout_succeeds :
    connecting_sock.state &&& FD_CONNECT ≠ 0
    ∧ (POLLOUT ||| POLLERR ||| POLLHUP) &&& (POLLERR ||| POLLHUP) ≠ 0
    ∧ translated_so_error refused_env 0 3 = WSAECONNREFUSED
    ∧ (sock_poll_event 1 refused_env idle_sys connecting_sock
          (POLLOUT ||| POLLERR ||| POLLHUP)).map
        (fun r => (decide (r.2.state &&& FD_WINE_CONNECTED ≠ 0), r.2.errors[FD_CONNECT_BIT]?))
      = some (true, some 0)
    ∧ (sock_poll_event 1 refused_env idle_sys connecting_sock
          (POLLOUT ||| POLLERR ||| POLLHUP)).map
        (fun r => (r.2.state &&& FD_CONNECT, r.2.pmask))
      = some (0, FD_CONNECT)
    ∧ (sock_poll_event 1 refused_env idle_sys connecting_sock
          (POLLOUT ||| POLLERR ||| POLLHUP)).map (fun r => r.1.calls)
      = some [Call.set_select_events 3 (-1), Call.wake_up 3]
    ∧ (POLLOUT ||| POLLERR) &&& (POLLERR ||| POLLHUP) ≠ 0
    ∧ (sock_poll_event 1 refused_env idle_sys connecting_sock (POLLOUT ||| POLLERR)).map
        (fun r => (decide (r.2.state &&& FD_WINE_CONNECTED ≠ 0), r.2.errors[FD_CONNECT_BIT]?))
      = some (true, some 0) := by
  decide

/-- The failure path at a connecting socket that is told of an error alone while
`SO_ERROR` reads `ECONNREFUSED`. -/
theorem connect_failure_witness :
    ∃ sys1 sock1, sock_poll_event (0 + 1) refused_env idle_sys connecting_sock POLLERR
        = some (sys1, sock1)
      ∧ sock1.state = connecting_sock.state &&& bnot32 FD_CONNECT
      ∧ sock1.state &&& FD_CONNECT = 0
      ∧ (sock1.state &&& FD_WINE_CONNECTED ≠ 0 ↔ connecting_sock.state &&& FD_WINE_CONNECTED ≠ 0)
      ∧ sock1.pmask = connecting_sock.pmask ||| FD_CONNECT
      ∧ sock1.pmask &&& FD_CONNECT ≠ 0
      ∧ sock1.errors[FD_CONNECT_BIT]?
        = some (translated_so_error refused_env idle_sys.clock connecting_sock.fd)
      ∧ (refused_env.so_error idle_sys.clock connecting_sock.fd = 0 →
        sock1.errors[FD_CONNECT_BIT]? = some 0) :=
  connect_failure 0 refused_env idle_sys connecting_sock POLLERR
    (by decide) (by decide) (by decide) (by decide)

/-! ## End of stream on a peek -/

/-- C6. For a normal-phase socket whose state has `FD_READ` or `FD_WRITE`, a readiness
with `POLLIN` and a peek that finds the end of the stream: `sock_poll_event` returns, the
close rule has fired and the readable rule has not. `FD_CLOSE` is added to `pmask` and
nothing else is, `hmask` is as it was, `FD_WINE_CONNECTED`, `FD_READ` and `FD_WRITE` are
cleared from the state, and `errors[FD_CLOSE_BIT]` is the translated `SO_ERROR`. -/
theorem eof_peek_fires_close (fuel : Nat) (env : Env) (sys : Sys) (sock : Sock) (event : Nat)
    (hc : sock.state &&& FD_CONNECT = 0) (hl : sock.state &&& FD_WINE_LISTENING = 0)
    (hrw : sock.state &&& (FD_READ ||| FD_WRITE) ≠ 0) (hin : event &&& POLLIN ≠ 0)
    (heof : env.recv_peek sys.clock sock.fd = 0)
    (hlen : sock.errors.length = FD_MAX_EVENTS) :
    ∃ sys1 sock1, sock_poll_event (fuel + 1) env sys sock event = some (sys1, sock1)
      ∧ sock1.pmask = sock.pmask ||| FD_CLOSE
      ∧ sock1.pmask &&& FD_CLOSE ≠ 0
      ∧ (sock1.pmask &&& FD_READ ≠ 0 ↔ sock.pmask &&& FD_READ ≠ 0)
      ∧ sock1.hmask = sock.hmask
      ∧ sock1.state = sock.state &&& bnot32 (FD_WINE_CONNECTED ||| FD_READ ||| FD_WRITE)
      ∧ sock1.state &&& FD_WINE_CONNECTED = 0
      ∧ sock1.state &&& FD_READ = 0
      ∧ sock1.state &&& FD_WRITE = 0
      ∧ sock1.errors = sock.errors.set FD_CLOSE_BIT
          (translated_so_error env (sys.clock + 1) sock.fd)
      ∧ sock1.errors[FD_CLOSE_BIT]? = some (translated_so_error env (sys.clock + 1) sock.fd) := by
  have hs := sock_poll_event_update_normal_eof env sys sock event hc hl hrw hin heof
  have hhup : POLLHUP &&& (POLLERR ||| POLLHUP) ≠ 0 := by decide
  obtain ⟨sys1, he⟩ : ∃ sys1, sock_poll_event (fuel + 1) env sys sock event
      = some (sys1, { sock with
        errors := sock.errors.set FD_CLOSE_BIT
          (translated_so_error env (sys.clock + 1) sock.fd)
        state := sock.state &&& bnot32 (FD_WINE_CONNECTED ||| FD_READ ||| FD_WRITE)
        pmask := sock.pmask ||| FD_CLOSE }) :=
    ⟨_, by simp only [sock_poll_event, hs, if_pos hhup, Option.map_some']; rfl⟩
  refine ⟨sys1, _, he, rfl, ?_, ?_, rfl, rfl, ?_, ?_, ?_, rfl, ?_⟩
  · simp [-Nat.testBit_zero]
  · simp [-Nat.testBit_zero]
  · simp [-Nat.testBit_zero]
  · simp [-Nat.testBit_zero]
  · simp [-Nat.testBit_zero]
  · exact List.getElem?_set_self (by rw [hlen]; decide)

/-- C6, at a connected socket whose peer has closed its write side. -/
theorem eof_peek_fires_close_witness :
    ∃ sys1 sock1, sock_poll_event (0 + 1) eof_env idle_sys connected_sock POLLIN
        = some (sys1, sock1)
      ∧ sock1.pmask = connected_sock.pmask ||| FD_CLOSE
      ∧ sock1.pmask &&& FD_CLOSE ≠ 0
      ∧ (sock1.pmask &&& FD_READ ≠ 0 ↔ connected_sock.pmask &&& FD_READ ≠ 0)
      ∧ sock1.hmask = connected_sock.hmask
      ∧ sock1.state
        = connected_sock.state &&& bnot32 (FD_WINE_CONNECTED ||| FD_READ ||| FD_WRITE)
      ∧ sock1.state &&& FD_WINE_CONNECTED = 0
      ∧ sock1.state &&& FD_READ = 0
      ∧ sock1.state &&& FD_WRITE = 0
      ∧ sock1.errors = connected_sock.errors.set FD_CLOSE_BIT
          (translated_so_error eof_env (idle_sys.clock + 1) connected_sock.fd)
      ∧ sock1.errors[FD_CLOSE_BIT]?
        = some (translated_so_error eof_env (idle_sys.clock + 1) connected_sock.fd) :=
  eof_peek_fires_close 0 eof_env idle_sys connected_sock POLLIN
    (by decide) (by decide) (by decide) (by decide) (by decide) (by decide)

/-! ## Wakeups owed to the subscriber -/

/-- C7, amended. `sock_poll_event` and `set_socket_event` return with the wakeup
delivered, whatever the state before: when `pmask & mask` is non-empty and a subscriber
event is registered, the event is signaled, and `sock_poll_event` ends with `set_event`
on the registered event followed by `wake_up`. `create_socket` returns a socket with the
wakeup delivered. `get_socket_event`, `enable_socket_event` and `accept_socket` keep the
wakeup delivered when it was delivered before. -/
theorem wakeup_delivered_transitions (fuel : Nat) (env : Env) (sys : Sys) (sock : Sock) :
    (∀ event p, sock_poll_event fuel env sys sock event = some p →
      wakeup_delivered p.1 p.2
      ∧ ∀ e, p.2.event = some e → p.2.pmask &&& p.2.mask ≠ 0 →
        ∃ pre, p.1.calls = pre ++ [Call.set_event (some e), Call.wake_up p.2.fd])
    ∧ (∀ req sys1 sock1, set_socket_event fuel env sys (some sock) req = some (sys1, some sock1) →
      wakeup_delivered sys1 sock1)
    ∧ (∀ family type protocol flags sys1 sock1,
      create_socket fuel env sys family type protocol flags = some (sys1, some sock1) →
      wakeup_delivered sys1 sock1)
    ∧ (∀ req sys1 sock1 reply,
      get_socket_event fuel env sys (some sock) req = some (sys1, some sock1, reply) →
      wakeup_delivered sys sock → wakeup_delivered sys1 sock1)
    ∧ (∀ req sys1 sock1,
      enable_socket_event fuel env sys (some sock) req = some (sys1, some sock1) →
      wakeup_delivered sys sock → wakeup_delivered sys1 sock1)
    ∧ (∀ sys1 sock1 acceptsock,
      accept_socket fuel env sys (some sock) = some (sys1, some sock1, acceptsock) →
      wakeup_delivered sys sock →
      wakeup_delivered sys1 sock1 ∧ ∀ a, acceptsock = some a → wakeup_delivered sys1 a) := by
  refine ⟨?_, ?_, ?_, ?_, ?_, ?_⟩
  · intro event p h
    refine ⟨(sock_poll_event_keeps env fuel sys sock event p h).2.2.2, ?_⟩
    intro e he hm
    obtain ⟨s, hs⟩ := sock_poll_event_ends_with_wake fuel env sys sock event p h
    exact ⟨s.calls, by rw [hs, sock_poll_event_wake_calls s p.2 e he hm]⟩
  · intro req sys1 sock1 h
    simp only [set_socket_event, Option.map_eq_some'] at h
    obtain ⟨q, -, hq⟩ := h
    simp only [Prod.mk.injEq, Option.some.injEq] at hq
    obtain ⟨h1, h2⟩ := hq
    intro e he hm
    subst h2
    subst h1
    exact set_socket_event_tail _ _ _ _ e he hm
  · intro family type protocol flags sys1 sock1 h
    simp only [create_socket] at h
    by_cases h1 : env.socket sys.clock family type protocol = -1
    · simp [h1] at h
    · rw [if_neg h1] at h
      split at h
      · simp at h
      · simp only [Option.map_eq_some', Prod.mk.injEq, Option.some.injEq] at h
        obtain ⟨q, hq, -, h2⟩ := h
        obtain ⟨⟨-, k, -, -⟩, -, -, -⟩ := sock_reselect_keeps fuel env _ _ q hq
        intro e he
        rw [← h2, k] at he
        simp at he
  · intro req sys1 sock1 reply h hw
    rcases get_socket_event_cases fuel env sys sock req sys1 sock1 reply h with
      ⟨h1, h2⟩ | ⟨sys2, h2⟩
    · subst h1
      exact wakeup_delivered_of (fun e he => by rw [h2]; exact he) rfl id hw
    · exact (sock_reselect_keeps fuel env sys2 _ (sys1, sock1) h2).2.2.2
        (wakeup_delivered_cleared sys2 sock)
  · intro req sys1 sock1 h hw
    simp only [enable_socket_event, Option.map_eq_some'] at h
    obtain ⟨q, hq, h1⟩ := h
    obtain ⟨-, -, -, k⟩ := sock_reselect_keeps fuel env _ _ q hq
    have hq2 : wakeup_delivered q.1 q.2 :=
      k (@wakeup_delivered_of sys sys sock _ (fun e he => he) rfl (land_cleared_ne_zero _ _ _) hw)
    split_ifs at h1 with c1 c2
    · simp only [Prod.mk.injEq, Option.some.injEq] at h1
      obtain ⟨a, b⟩ := h1
      subst a
      subst b
      intro e he _
      simp only at he
      rw [he]
      exact set_event_mem q.1 e
    · simp only [Prod.mk.injEq, Option.some.injEq] at h1
      obtain ⟨a, b⟩ := h1
      subst a
      subst b
      intro e he _
      simp only at he c2
      rw [he] at c2
      simp at c2
    · simp only [Prod.mk.injEq, Option.some.injEq] at h1
      obtain ⟨a, b⟩ := h1
      subst a
      subst b
      exact hq2
  · intro sys1 sock1 acceptsock h hw
    rcases accept_socket_cases fuel env sys sock sys1 sock1 acceptsock h with
      ⟨h1, h2, h3⟩ | ⟨sys3, sock0, a, l, g1, g2, ha, hl, e1, e2, e3⟩
    · subst h1
      refine ⟨wakeup_delivered_of (fun e he => by rw [h2]; exact he) rfl id hw, ?_⟩
      intro x hx
      rw [h3] at hx
      simp at hx
    · obtain ⟨-, a2, -, a4⟩ := sock_reselect_keeps fuel env sys3 sock0 a ha
      obtain ⟨-, l2, -, l4⟩ := sock_reselect_keeps fuel env _ _ l hl
      subst e1
      subst e2
      refine ⟨l4 ?_, ?_⟩
      · exact @wakeup_delivered_of sys (clear_error a.1) sock _
          (fun e he => a2 e (by rw [g1]; exact he)) rfl (land_cleared_ne_zero _ _ _) hw
      · intro x hx
        rw [e3] at hx
        simp only [Option.some.injEq] at hx
        subst hx
        have hn : wakeup_delivered sys3 sock0 := by
          intro e _ hm
          rw [g2] at hm
          exact absurd (Nat.zero_and _) hm
        exact wakeup_delivered_of l2 rfl id (a4 hn)

/-- C7, as stated, fails after `enable_socket_event`. A listener with event 107 accepts a
connection, so that the new socket shares the event; data arrives on the new socket and
the event is signaled; a service-mode query on the listener resets the event; an
acknowledge of `FD_WRITE` on the new socket then returns with `FD_READ` in `pmask & mask`,
the event registered and the event not signaled. -/
theorem acknowledge_leaves_wakeup_undelivered :
    ((accept_socket 0 quiet_env idle_sys (some sharing_listener)).bind (fun a =>
      (a.2.2.bind (fun s => sock_poll_event 1 quiet_env a.1 s POLLIN)).bind (fun b =>
        (get_socket_event 0 quiet_env b.1 a.2.1 service_query_resetting).bind (fun c =>
          (enable_socket_event 0 quiet_env c.1 (some b.2) write_ack).map (fun d =>
            (d.2.map (fun s => (s.pmask &&& s.mask, s.event)),
              decide (107 ∈ b.1.signaled), decide (107 ∈ d.1.signaled)))))))
      = some (some (FD_READ, some 107), true, false) := by
  decide

/-- C7, amended, at a `sock_poll_event` with `POLLIN` on a subscribed socket. -/
theorem wakeup_delivered_transitions_witness :
    wakeup_delivered (sock_poll_event_idle quiet_env idle_sys readable_sock POLLIN).1
      (sock_poll_event_idle quiet_env idle_sys readable_sock POLLIN).2 :=
  ((wakeup_delivered_transitions 1 quiet_env idle_sys readable_sock).1 POLLIN _
    (sock_poll_event_quiet 0 quiet_env quiet_env_quiet idle_sys readable_sock POLLIN)).1

/-! ## The guard of a service-mode query -/

/-- C8, amended. For a service-mode query: when no companion signalling event is supplied
or the supplied one is the registered subscriber event, the companion event `c_event`, if
supplied, is reset, `pmask` is cleared and the socket is reselected, and no error is
reported by the handler; in a quiet environment the socket comes back with `pmask` empty
and every other field but `obj.select` as it was. When a companion signalling event is
supplied and is not the registered subscriber event, nothing is cleared, `WSAEINVAL` is
reported and the socket is returned as it was. -/
theorem get_socket_event_service (fuel : Nat) (env : Env) (sys : Sys) (sock : Sock)
    (req : get_socket_event_request) (hs : req.service ≠ 0) :
    (req.s_event = 0 ∨ env.get_event_obj req.s_event = sock.event →
      ∃ sys2 reply, get_socket_event fuel env sys (some sock) req
          = (sock_reselect fuel env sys2 { sock with pmask := 0 }).map
              (fun p => (p.1, some p.2, reply))
        ∧ reply.mask = sock.mask ∧ reply.pmask = sock.pmask ∧ reply.state = sock.state
        ∧ sys2.last_error = sys.last_error
        ∧ (req.c_event ≠ 0 → ∀ e, env.get_event_obj req.c_event = some e → e ∉ sys2.signaled)
        ∧ (quiet env → ∃ sys1 sock1,
            get_socket_event fuel env sys (some sock) req = some (sys1, some sock1, reply)
            ∧ sock1.pmask = 0 ∧ sock1.state = sock.state ∧ sock1.hmask = sock.hmask
            ∧ sock1.errors = sock.errors ∧ same_subscription sock1 sock
            ∧ sys1.last_error = sys.last_error))
    ∧ (req.s_event ≠ 0 → env.get_event_obj req.s_event ≠ sock.event →
      ∃ sys1 reply, get_socket_event fuel env sys (some sock) req = some (sys1, some sock, reply)
        ∧ reply.mask = sock.mask ∧ reply.pmask = sock.pmask ∧ reply.state = sock.state
        ∧ sys1.last_error = WSAEINVAL ∧ sys1.signaled = sys.signaled) := by
  constructor
  · intro hcl
    have hflag : (if req.s_event ≠ 0 then
          (if env.get_event_obj req.s_event = sock.event then 0 else req.s_event,
            log sys (Call.release_object (env.get_event_obj req.s_event)))
        else (req.s_event, sys)).1 = 0 := by
      rcases hcl with h0 | h1
      · simp [h0]
      · split_ifs <;> simp_all
    have main : ∃ sys2 reply, get_socket_event fuel env sys (some sock) req
          = (sock_reselect fuel env sys2 { sock with pmask := 0 }).map
              (fun p => (p.1, some p.2, reply))
        ∧ reply.mask = sock.mask ∧ reply.pmask = sock.pmask ∧ reply.state = sock.state
        ∧ sys2.last_error = sys.last_error
        ∧ (req.c_event ≠ 0 → ∀ e, env.get_event_obj req.c_event = some e →
            e ∉ sys2.signaled) := by
      simp only [get_socket_event, if_pos hs, if_pos hflag]
      refine ⟨_, _, rfl, rfl, rfl, rfl, ?_, ?_⟩
      · split_ifs <;> simp [reset_event_last_error]
      · intro hc e he
        rw [if_pos hc, log_signaled, he]
        exact reset_event_not_mem _ e
    obtain ⟨sys2, reply, m1, m2, m3, m4, m5, m6⟩ := main
    refine ⟨sys2, reply, m1, m2, m3, m4, m5, m6, ?_⟩
    intro hq
    rw [m1, sock_reselect_quiet fuel env hq]
    obtain ⟨f1, ⟨f2, f3, f4, f5⟩, -, f6⟩ := sock_reselect_idle_frame env sys2 { sock with pmask := 0 }
    exact ⟨_, _, rfl, f4, f2, f3, f5, f1, f6.trans m5⟩
  · intro h0 hne
    simp only [get_socket_event, if_pos hs, if_pos h0, if_neg hne, if_neg h0]
    exact ⟨_, _, rfl, rfl, rfl, rfl, rfl, rfl⟩

/-- C8, as stated, fails both ways. The query that supplies the registered subscriber
event as companion signalling event has `pmask` cleared and no error reported; the query
that supplies another event has `WSAEINVAL` reported and `pmask` kept. -/
theorem service_query_guard_is_inverted :
    quiet_env.get_event_obj service_query_registered.s_event = readable_sock.event
    ∧ (get_socket_event 0 quiet_env idle_sys (some readable_sock) service_query_registered).map
        (fun r => (r.1.last_error, r.2.1.map (fun s => s.pmask))) = some (0, some 0)
    ∧ quiet_env.get_event_obj service_query_other.s_event ≠ readable_sock.event
    ∧ (get_socket_event 0 quiet_env idle_sys (some readable_sock) service_query_other).map
        (fun r => (r.1.last_error, r.2.1.map (fun s => s.pmask)))
      = some (WSAEINVAL, some FD_READ) := by
  decide

/-- C8, amended, at a query that supplies an event other than the registered one. -/
theorem get_socket_event_service_witness :
    ∃ sys1 reply, get_socket_event 0 quiet_env idle_sys (some readable_sock)
        service_query_other = some (sys1, some readable_sock, reply)
      ∧ reply.mask = readable_sock.mask ∧ reply.pmask = readable_sock.pmask
      ∧ reply.state = readable_sock.state
      ∧ sys1.last_error = WSAEINVAL ∧ sys1.signaled = idle_sys.signaled :=
  (get_socket_event_service 0 quiet_env idle_sys readable_sock service_query_other
    (by decide)).2 (by decide) (by decide)

/-! ## Querying a readable event -/

/-- C9, amended. For a normal-phase socket with nothing pending, in an environment whose
probes report nothing and whose peek finds data: after a subscription with
`mask = FD_READ` and a `sock_poll_event` with `POLLIN`, a service-mode query without
companion events replies with `pmask = FD_READ`, the pending set as it was before the
query, with the current mask and state, and clears `pmask`; a second such query replies
with `pmask = 0`. A query that is not in service mode replies with the same fields and
changes nothing. -/
theorem read_event_query_scenario (fuel : Nat) (env : Env) (sys : Sys) (sock : Sock)
    (sub : set_socket_event_request) (q q0 : get_socket_event_request)
    (hq : quiet env) (hdata : ∀ t fd, env.recv_peek t fd ≠ 0)
    (hc : sock.state &&& FD_CONNECT = 0) (hl : sock.state &&& FD_WINE_LISTENING = 0)
    (hp : sock.pmask = 0) (hsub : sub.mask = FD_READ)
    (hs : q.service ≠ 0) (hse : q.s_event = 0) (hce : q.c_event = 0)
    (h0 : q0.service = 0) :
    ∃ sysA sockA sysB sockB sysC sockC reply1 sysD sockD reply2 reply0,
      set_socket_event fuel env sys (some sock) sub = some (sysA, some sockA)
      ∧ sock_poll_event (fuel + 1) env sysA sockA POLLIN = some (sysB, sockB)
      ∧ get_socket_event fuel env sysB (some sockB) q = some (sysC, some sockC, reply1)
      ∧ reply1.pmask = FD_READ ∧ reply1.pmask = sockB.pmask
      ∧ reply1.mask = FD_READ ∧ reply1.mask = sockB.mask ∧ reply1.state = sockB.state
      ∧ sockC.pmask = 0
      ∧ get_socket_event fuel env sysC (some sockC) q = some (sysD, some sockD, reply2)
      ∧ reply2.pmask = 0
      ∧ get_socket_event fuel env sysB (some sockB) q0 = some (sysB, some sockB, reply0)
      ∧ reply0.pmask = FD_READ ∧ reply0.mask = sockB.mask ∧ reply0.state = sockB.state := by
  -- the subscription
  obtain ⟨sysA, sockA, eA, a1, a2, a3, a4⟩ : ∃ sysA sockA,
      set_socket_event fuel env sys (some sock) sub = some (sysA, some sockA)
      ∧ sockA.pmask = 0 ∧ sockA.mask = FD_READ
      ∧ sockA.state &&& FD_CONNECT = 0 ∧ sockA.state &&& FD_WINE_LISTENING = 0 := by
    obtain ⟨⟨g0, -, -, -⟩, ⟨g1, -, g3, -⟩, -⟩ := sock_reselect_idle_frame env sys { sock with
      mask := sub.mask, event := env.get_event_obj sub.event }
    simp only at g0 g1 g3
    simp only [set_socket_event, sock_reselect_quiet _ env hq, Option.map_some']
    refine ⟨_, _, rfl, ?_, ?_, ?_, ?_⟩
    · split_ifs <;> exact g3.trans hp
    · split_ifs <;> exact g0.trans hsub
    · split_ifs
      · simp only [g1]; simpa [-Nat.testBit_zero] using hc
      · rw [g1]; exact hc
    · split_ifs
      · simp only [g1]; simpa [-Nat.testBit_zero] using hl
      · rw [g1]; exact hl
  -- the readiness
  obtain ⟨⟨b0, -, -, -⟩, -, -, b3, -⟩ := sock_poll_event_idle_frame env sysA sockA POLLIN
  rw [sock_poll_event_update_normal_data env sysA sockA a3 a4 (hdata _ _)] at b0 b3
  simp only [a1, a2, Nat.zero_or] at b0 b3
  have eB := sock_poll_event_quiet fuel env hq sysA sockA POLLIN
  generalize sock_poll_event_idle env sysA sockA POLLIN = pB at b0 b3 eB
  -- the queries
  obtain ⟨sysC, sockC, reply1, eC, c1, c2, c3, c4, -, -⟩ := get_socket_event_clear_quiet fuel env
    pB.1 pB.2 q hq hs hse hce
  obtain ⟨sysD, sockD, reply2, eD, d1, -, -, -, -, -⟩ := get_socket_event_clear_quiet fuel env
    sysC sockC q hq hs hse hce
  refine ⟨sysA, sockA, pB.1, pB.2, sysC, sockC, reply1, sysD, sockD, reply2,
    { mask := pB.2.mask, pmask := pB.2.pmask, state := pB.2.state, data := pB.2.errors,
      data_size := min q0.reply_max_size (4 * FD_MAX_EVENTS) },
    eA, eB, eC, c1.trans b3, c1, c2.trans b0, c2, c3, c4, eD, d1.trans c4, ?_, b3, rfl, rfl⟩
  simp only [get_socket_event, h0, ne_eq, not_true_eq_false, if_false]

/-- C9, as stated, fails on a socket that has something pending already: on a socket that
has just connected the query replies with `FD_CONNECT` and `FD_READ`, not with `FD_READ`
alone. -/
theorem query_reports_earlier_pending :
    ((set_socket_event 0 quiet_env idle_sys (some just_connected_sock) read_subscription).bind
      (fun a => (a.2.bind (fun s => sock_poll_event 1 quiet_env a.1 s POLLIN)).bind
        (fun b => (get_socket_event 0 quiet_env b.1 (some b.2) service_query).map
          (fun c => c.2.2.pmask)))) = some (FD_CONNECT ||| FD_READ)
    ∧ FD_CONNECT ||| FD_READ ≠ FD_READ := by
  decide

/-- C9, amended, at a connected socket with nothing pending. -/
theorem read_event_query_scenario_witness :
    ∃ sysA sockA sysB sockB sysC sockC reply1 sysD sockD reply2 reply0,
      set_socket_event 0 quiet_env idle_sys (some connected_sock) read_subscription
        = some (sysA, some sockA)
      ∧ sock_poll_event (0 + 1) quiet_env sysA sockA POLLIN = some (sysB, sockB)
      ∧ get_socket_event 0 quiet_env sysB (some sockB) service_query
        = some (sysC, some sockC, reply1)
      ∧ reply1.pmask = FD_READ ∧ reply1.pmask = sockB.pmask
      ∧ reply1.mask = FD_READ ∧ reply1.mask = sockB.mask ∧ reply1.state = sockB.state
      ∧ sockC.pmask = 0
      ∧ get_socket_event 0 quiet_env sysC (some sockC) service_query
        = some (sysD, some sockD, reply2)
      ∧ reply2.pmask = 0
      ∧ get_socket_event 0 quiet_env sysB (some sockB) plain_query
        = some (sysB, some sockB, reply0)
      ∧ reply0.pmask = FD_READ ∧ reply0.mask = sockB.mask ∧ reply0.state = sockB.state :=
  read_event_query_scenario 0 quiet_env idle_sys connected_sock read_subscription
    service_query plain_query quiet_env_quiet (fun _ _ => (by decide : (1 : Int) ≠ 0)) (by decide) (by decide)
    (by decide) (by decide) (by decide) (by decide) (by decide) (by decide)

/-! ## Acknowledging events -/

/-- C10. For every socket and every `enable_socket_event` request, when the probe of the
reselection reports no readiness: the handler returns; `hmask` loses the acknowledged
kinds; the state gets the bits to set and then loses the bits to clear, so that a bit in
both ends cleared; `mask`, `errors` and the event are as they were; `pmask` loses the
acknowledged kinds and, when `FD_WINE_SERVEVENT` is acknowledged, gets
`FD_WINE_SERVEVENT`, in which case the registered event, if any, is signaled. -/
theorem enable_socket_event_effect (fuel : Nat) (env : Env) (sys : Sys) (sock : Sock)
    (req : enable_socket_event_request)
    (hp : env.poll sys.clock sock.fd (sock_get_poll_events { sock with
        pmask := sock.pmask &&& bnot32 req.mask
        hmask := sock.hmask &&& bnot32 req.mask
        state := (sock.state ||| req.sstate) &&& bnot32 req.cstate }) = 0) :
    ∃ sys1 sock1, enable_socket_event fuel env sys (some sock) req = some (sys1, some sock1)
      ∧ sock1.hmask = sock.hmask &&& bnot32 req.mask
      ∧ sock1.state = (sock.state ||| req.sstate) &&& bnot32 req.cstate
      ∧ (∀ k, req.cstate.testBit k = true → sock1.state.testBit k = false)
      ∧ sock1.mask = sock.mask ∧ sock1.errors = sock.errors ∧ sock1.event = sock.event
      ∧ sock1.pmask = (if req.mask &&& FD_WINE_SERVEVENT ≠ 0
          then (sock.pmask &&& bnot32 req.mask) ||| FD_WINE_SERVEVENT
          else sock.pmask &&& bnot32 req.mask)
      ∧ (req.mask &&& FD_WINE_SERVEVENT ≠ 0 → ∀ e, sock.event = some e → e ∈ sys1.signaled) := by
  obtain ⟨⟨f1, f2, -, -⟩, ⟨g1, g2, g3, g4⟩, -⟩ := sock_reselect_idle_frame env sys { sock with
    pmask := sock.pmask &&& bnot32 req.mask
    hmask := sock.hmask &&& bnot32 req.mask
    state := (sock.state ||| req.sstate) &&& bnot32 req.cstate }
  simp only at f1 f2 g1 g2 g3 g4
  have hbit : ∀ k, req.cstate.testBit k = true →
      ((sock.state ||| req.sstate) &&& bnot32 req.cstate).testBit k = false := by
    intro k hk
    simp [-Nat.testBit_zero, hk]
  have hr := sock_reselect_body_of_probe (sock_poll_event fuel env) env sys { sock with
    pmask := sock.pmask &&& bnot32 req.mask
    hmask := sock.hmask &&& bnot32 req.mask
    state := (sock.state ||| req.sstate) &&& bnot32 req.cstate } hp
  simp only [enable_socket_event, sock_reselect, hr, Option.map_some']
  by_cases hsv : req.mask &&& FD_WINE_SERVEVENT ≠ 0
  · simp only [if_pos hsv]
    refine ⟨_, _, rfl, g2, g1, ?_, f1, g4, f2, ?_, ?_⟩
    · intro k hk; show (sock_reselect_idle env sys _).2.state.testBit k = false
      rw [g1]; exact hbit k hk
    · show (sock_reselect_idle env sys _).2.pmask ||| FD_WINE_SERVEVENT = _
      rw [g3]
    · intro _ e he
      have hev : (sock_reselect_idle env sys { sock with
          pmask := sock.pmask &&& bnot32 req.mask
          hmask := sock.hmask &&& bnot32 req.mask
          state := (sock.state ||| req.sstate) &&& bnot32 req.cstate }).2.event = some e :=
        f2.trans he
      show e ∈ (if (sock_reselect_idle env sys _).2.event ≠ none then
        set_event _ (sock_reselect_idle env sys _).2.event else _).signaled
      rw [if_pos (by rw [hev]; simp), hev]
      exact set_event_mem _ e
  · simp only [if_neg hsv]
    refine ⟨_, _, rfl, g2, g1, ?_, f1, g4, f2, g3, ?_⟩
    · intro k hk; rw [g1]; exact hbit k hk
    · intro h; exact absurd h hsv

/-- C10, at a service acknowledge on a socket with a registered event. -/
theorem enable_socket_event_effect_witness :
    ∃ sys1 sock1, enable_socket_event 0 quiet_env idle_sys (some readable_sock) service_ack
        = some (sys1, some sock1)
      ∧ sock1.hmask = readable_sock.hmask &&& bnot32 service_ack.mask
      ∧ sock1.state = (readable_sock.state ||| service_ack.sstate) &&& bnot32 service_ack.cstate
      ∧ (∀ k, service_ack.cstate.testBit k = true → sock1.state.testBit k = false)
      ∧ sock1.mask = readable_sock.mask ∧ sock1.errors = readable_sock.errors
      ∧ sock1.event = readable_sock.event
      ∧ sock1.pmask = (if service_ack.mask &&& FD_WINE_SERVEVENT ≠ 0
          then (readable_sock.pmask &&& bnot32 service_ack.mask) ||| FD_WINE_SERVEVENT
          else readable_sock.pmask &&& bnot32 service_ack.mask)
      ∧ (service_ack.mask &&& FD_WINE_SERVEVENT ≠ 0 →
          ∀ e, readable_sock.event = some e → e ∈ sys1.signaled) :=
  enable_socket_event_effect 0 quiet_env idle_sys readable_sock service_ack rfl

/-! ## What the operations only add to -/

theorem grows_from_refl (a : Sock) : grows_from a a :=
  ⟨fun _ h => h, fun _ h => h, Iff.rfl, Iff.rfl, fun h => h, rfl, fun _ _ h => h⟩

theorem grows_from_trans {a b c : Sock} (h1 : grows_from a b) (h2 : grows_from b c) :
    grows_from a c :=
  ⟨fun k h => h2.1 k (h1.1 k h), fun k h => h2.2.1 k (h1.2.1 k h),
    h2.2.2.1.trans h1.2.2.1, h2.2.2.2.1.trans h1.2.2.2.1,
    fun h => h1.2.2.2.2.1 (h2.2.2.2.2.1 h), h2.2.2.2.2.2.1.trans h1.2.2.2.2.2.1,
    fun i hi h => h2.2.2.2.2.2.2 i hi (h1.2.2.2.2.2.2 i hi h)⟩

theorem grows_from_of_same {a b : Sock} (h : same_event_state b a) : grows_from a b := by
  obtain ⟨h1, h2, h3, h4⟩ := h
  unfold grows_from
  rw [h1, h2, h3, h4]
  exact grows_from_refl a

theorem errors_set_keeps (l : List Int) (j : Nat) (v : Int) (i : Nat) (h : j ≠ i ∨ v = 0)
    (hi : l[i]? = some 0) : (l.set j v)[i]? = some 0 := by
  rw [List.getElem?_set]
  by_cases hj : j = i
  · subst hj
    rcases h with h | h
    · exact absurd rfl h
    · have hlt : j < l.length := by
        by_contra hc
        rw [List.getElem?_eq_none (by omega)] at hi
        cases hi
      simp [hlt, h]
  · simp [hj, hi]

theorem sock_poll_event_connecting_grows (env : Env) (sys : Sys) (sock : Sock) (event : Nat) :
    grows_from sock (sock_poll_event_connecting env sys sock event).2.1 := by
  simp only [sock_poll_event_connecting]
  split_ifs
  all_goals
    refine ⟨?_, ?_, ?_, ?_, ?_, ?_, ?_⟩
    all_goals first
      | exact Iff.rfl
      | exact fun _ h => h
      | exact fun h => h
      | (intro i hi h; exact errors_set_keeps _ _ _ _ (Or.inl (by simp only [FD_CONNECT_BIT]; omega)) h)
      | (simp [-Nat.testBit_zero]; done)
      | (intro k h; simp [-Nat.testBit_zero, h])

theorem sock_poll_event_listening_grows (env : Env) (sys : Sys) (sock : Sock) (event : Nat) :
    grows_from sock (sock_poll_event_listening env sys sock event).2.1 := by
  simp only [sock_poll_event_listening]
  split_ifs
  all_goals
    refine ⟨?_, ?_, ?_, ?_, ?_, ?_, ?_⟩
    all_goals first
      | exact Iff.rfl
      | exact fun _ h => h
      | exact fun h => h
      | (intro i hi h; exact errors_set_keeps _ _ _ _ (Or.inl (by simp only [FD_ACCEPT_BIT]; omega)) h)
      | (simp [-Nat.testBit_zero]; done)
      | (intro k h; simp [-Nat.testBit_zero, h])

theorem sock_poll_event_pollin_grows (env : Env) (sys : Sys) (sock : Sock) (event : Nat) :
    grows_from sock (sock_poll_event_pollin env sys sock event).2.1 := by
  simp only [sock_poll_event_pollin]
  split_ifs
  all_goals
    refine ⟨?_, ?_, ?_, ?_, ?_, ?_, ?_⟩
    all_goals first
      | exact Iff.rfl
      | exact fun _ h => h
      | exact fun h => h
      | (intro i hi h; exact errors_set_keeps _ _ _ _ (Or.inr rfl) h)
      | (simp [-Nat.testBit_zero]; done)
      | (intro k h; simp [-Nat.testBit_zero, h])

theorem sock_poll_event_pollout_grows (sock : Sock) (event : Nat) :
    grows_from sock (sock_poll_event_pollout sock event) := by
  simp only [sock_poll_event_pollout]
  split_ifs
  all_goals
    refine ⟨?_, ?_, ?_, ?_, ?_, ?_, ?_⟩
    all_goals first
      | exact Iff.rfl
      | exact fun _ h => h
      | exact fun h => h
      | (intro i hi h; exact errors_set_keeps _ _ _ _ (Or.inr rfl) h)
      | (simp [-Nat.testBit_zero]; done)
      | (intro k h; simp [-Nat.testBit_zero, h])

theorem sock_poll_event_pollpri_grows (sock : Sock) (event : Nat) :
    grows_from sock (sock_poll_event_pollpri sock event) := by
  simp only [sock_poll_event_pollpri]
  split_ifs
  all_goals
    refine ⟨?_, ?_, ?_, ?_, ?_, ?_, ?_⟩
    all_goals first
      | exact Iff.rfl
      | exact fun _ h => h
      | exact fun h => h
      | (intro i hi h; exact errors_set_keeps _ _ _ _ (Or.inr rfl) h)
      | (simp [-Nat.testBit_zero]; done)
      | (intro k h; simp [-Nat.testBit_zero, h])

theorem sock_poll_event_close_grows (env : Env) (sys : Sys) (sock : Sock) (event : Nat) :
    grows_from sock (sock_poll_event_close env sys sock event).2 := by
  simp only [sock_poll_event_close]
  split_ifs
  all_goals
    refine ⟨?_, ?_, ?_, ?_, ?_, ?_, ?_⟩
    all_goals first
      | exact Iff.rfl
      | exact fun _ h => h
      | exact fun h => h
      | (intro i hi h; exact errors_set_keeps _ _ _ _ (Or.inl (by simp only [FD_CLOSE_BIT]; omega)) h)
      | (simp [-Nat.testBit_zero]; done)
      | (intro k h; simp [-Nat.testBit_zero, h])

/-- The state update of `sock_poll_event` only adds pending and held kinds, never holds
`FD_CLOSE`, leaves `FD_WINE_LISTENING` as it is and never sets `FD_CONNECT`. -/
theorem sock_poll_event_update_grows (env : Env) (sys : Sys) (sock : Sock) (event : Nat) :
    grows_from sock (sock_poll_event_update env sys sock event).2.1 := by
  unfold sock_poll_event_update
  split_ifs
  · exact sock_poll_event_connecting_grows env sys sock event
  · exact sock_poll_event_listening_grows env sys sock event
  · simp only [sock_poll_event_normal]
    exact grows_from_trans (sock_poll_event_pollin_grows env sys sock event)
      (grows_from_trans (sock_poll_event_pollout_grows _ _)
        (grows_from_trans (sock_poll_event_pollpri_grows _ _)
          (sock_poll_event_close_grows env _ _ _)))

/-- Whatever the probes report, what `sock_poll_event` returns comes after the socket it
was called on. -/
theorem sock_poll_event_grows (env : Env) (fuel : Nat) :
    ∀ (sys : Sys) (sock : Sock) (event : Nat) (p : Sys × Sock),
      sock_poll_event fuel env sys sock event = some p → grows_from sock p.2 := by
  induction fuel with
  | zero => intro sys sock event p h; simp [sock_poll_event] at h
  | succ n ih =>
    intro sys sock event p h
    simp only [sock_poll_event, Option.map_eq_some'] at h
    obtain ⟨q, hq, hp⟩ := h
    subst hp
    have hu := sock_poll_event_update_grows env sys sock event
    split_ifs at hq with hc
    · cases hq
      exact hu
    · rcases sock_reselect_body_cases _ env _ _ q hq with ⟨-, b, -⟩ | ⟨s3, k3, rv, -, b, -, d⟩
      · exact grows_from_trans hu (grows_from_of_same b)
      · exact grows_from_trans hu (grows_from_trans (grows_from_of_same b) (ih s3 k3 rv q d))

/-! ## The rules of the normal phase -/

/-- Whatever the probes report, what `sock_reselect` returns comes after the socket it
was called on. -/
theorem sock_reselect_grows (fuel : Nat) (env : Env) (sys : Sys) (sock : Sock)
    (p : Sys × Sock) (h : sock_reselect fuel env sys sock = some p) : grows_from sock p.2 := by
  rcases sock_reselect_body_cases _ env _ _ p h with ⟨-, b, -⟩ | ⟨s3, k3, rv, -, b, -, d⟩
  · exact grows_from_of_same b
  · exact grows_from_trans (grows_from_of_same b) (sock_poll_event_grows env fuel s3 k3 rv p d)

theorem land_ne_zero_mono {a b : Nat} (m : Nat)
    (h : ∀ k, a.testBit k = true → b.testBit k = true) (ha : a &&& m ≠ 0) : b &&& m ≠ 0 := by
  obtain ⟨k, hk⟩ := Nat.ne_zero_implies_bit_true ha
  rw [Nat.testBit_and, Bool.and_eq_true] at hk
  intro hb
  have : (b &&& m).testBit k = true := by rw [Nat.testBit_and, h k hk.1, hk.2]; rfl
  rw [hb, Nat.zero_testBit] at this
  cases this

/-- What `sock_poll_event` returns comes after the result of its state update. -/
theorem sock_poll_event_after_update (fuel : Nat) (env : Env) (sys : Sys) (sock : Sock)
    (event : Nat) (p : Sys × Sock) (h : sock_poll_event fuel env sys sock event = some p) :
    grows_from (sock_poll_event_update env sys sock event).2.1 p.2 := by
  cases fuel with
  | zero => simp [sock_poll_event] at h
  | succ n =>
    simp only [sock_poll_event, Option.map_eq_some'] at h
    obtain ⟨q, hq, hp⟩ := h
    subst hp
    split_ifs at hq with hc
    · cases hq
      exact grows_from_refl _
    · exact sock_reselect_grows n env _ _ q hq

theorem sock_poll_event_update_normal_eq (env : Env) (sys : Sys) (sock : Sock) (event : Nat)
    (hc : sock.state &&& FD_CONNECT = 0) (hl : sock.state &&& FD_WINE_LISTENING = 0) :
    sock_poll_event_update env sys sock event = sock_poll_event_normal env sys sock event := by
  unfold sock_poll_event_update
  rw [if_neg (by simpa using hc), if_neg (by simpa using hl)]

/-- The readable rule leaves the readiness as it is unless the peek finds the end of the
stream; it leaves the state as it is. -/
theorem sock_poll_event_pollin_event (env : Env) (sys : Sys) (sock : Sock) (event : Nat) :
    (sock_poll_event_pollin env sys sock event).2.2
      = (if event &&& POLLIN ≠ 0 ∧ env.recv_peek sys.clock sock.fd = 0 then POLLHUP else event)
    ∧ (sock_poll_event_pollin env sys sock event).2.1.state = sock.state := by
  simp only [sock_poll_event_pollin]
  split_ifs <;> simp_all

theorem sock_poll_event_pollin_data (env : Env) (sys : Sys) (sock : Sock) (event : Nat)
    (hin : event &&& POLLIN ≠ 0) (hdata : env.recv_peek sys.clock sock.fd ≠ 0) :
    (sock_poll_event_pollin env sys sock event).2.1.pmask &&& FD_READ ≠ 0
    ∧ (sock_poll_event_pollin env sys sock event).2.1.hmask &&& FD_READ ≠ 0 := by
  simp only [sock_poll_event_pollin, if_pos hin, if_neg hdata]
  simp [-Nat.testBit_zero]

theorem sock_poll_event_pollout_fires (sock : Sock) (event : Nat)
    (hout : event &&& POLLOUT ≠ 0) :
    (sock_poll_event_pollout sock event).pmask &&& FD_WRITE ≠ 0
    ∧ (sock_poll_event_pollout sock event).hmask &&& FD_WRITE ≠ 0
    ∧ (FD_WRITE_BIT < sock.errors.length →
        (sock_poll_event_pollout sock event).errors[FD_WRITE_BIT]? = some 0) := by
  simp only [sock_poll_event_pollout, if_pos hout]
  refine ⟨by simp [-Nat.testBit_zero], by simp [-Nat.testBit_zero], fun hlen => ?_⟩
  simp [List.getElem?_set, hlen]

theorem sock_poll_event_pollpri_fires (sock : Sock) (event : Nat)
    (hpri : event &&& POLLPRI ≠ 0) :
    (sock_poll_event_pollpri sock event).pmask &&& FD_OOB ≠ 0
    ∧ (sock_poll_event_pollpri sock event).hmask &&& FD_OOB ≠ 0
    ∧ (FD_OOB_BIT < sock.errors.length →
        (sock_poll_event_pollpri sock event).errors[FD_OOB_BIT]? = some 0) := by
  simp only [sock_poll_event_pollpri, if_pos hpri]
  refine ⟨by simp [-Nat.testBit_zero], by simp [-Nat.testBit_zero], fun hlen => ?_⟩
  simp [List.getElem?_set, hlen]

theorem sock_poll_event_pollout_state (sock : Sock) (event : Nat) :
    (sock_poll_event_pollout sock event).state = sock.state
    ∧ (sock_poll_event_pollout sock event).fd = sock.fd := by
  simp only [sock_poll_event_pollout]
  split_ifs <;> exact ⟨rfl, rfl⟩

theorem sock_poll_event_pollpri_state (sock : Sock) (event : Nat) :
    (sock_poll_event_pollpri sock event).state = sock.state
    ∧ (sock_poll_event_pollpri sock event).fd = sock.fd := by
  simp only [sock_poll_event_pollpri]
  split_ifs <;> exact ⟨rfl, rfl⟩

theorem grows_from_keeps {a b : Sock} (h : grows_from a b) (K i : Nat) (hi : i < 3) :
    (a.pmask &&& K ≠ 0 → b.pmask &&& K ≠ 0) ∧ (a.hmask &&& K ≠ 0 → b.hmask &&& K ≠ 0)
    ∧ (a.errors[i]? = some 0 → b.errors[i]? = some 0) :=
  ⟨land_ne_zero_mono K h.1, land_ne_zero_mono K h.2.1, h.2.2.2.2.2.2 i hi⟩

/-- In the normal phase, when the readiness is not rewritten by the peek, the rules for
`POLLIN`, `POLLOUT` and `POLLPRI` each leave their kind pending and held with error 0 in
what `sock_poll_event` returns, whatever the probes report. -/
theorem sock_poll_event_normal_rules (fuel : Nat) (env : Env) (sys : Sys) (sock : Sock)
    (event : Nat) (p : Sys × Sock) (hc : sock.state &&& FD_CONNECT = 0)
    (hl : sock.state &&& FD_WINE_LISTENING = 0)
    (hpeek : ¬ (event &&& POLLIN ≠ 0 ∧ env.recv_peek sys.clock sock.fd = 0))
    (h : sock_poll_event fuel env sys sock event = some p) :
    (event &&& POLLIN ≠ 0 → p.2.pmask &&& FD_READ ≠ 0 ∧ p.2.hmask &&& FD_READ ≠ 0)
    ∧ (event &&& POLLOUT ≠ 0 → p.2.pmask &&& FD_WRITE ≠ 0 ∧ p.2.hmask &&& FD_WRITE ≠ 0
        ∧ (sock.errors.length = FD_MAX_EVENTS → p.2.errors[FD_WRITE_BIT]? = some 0))
    ∧ (event &&& POLLPRI ≠ 0 → p.2.pmask &&& FD_OOB ≠ 0 ∧ p.2.hmask &&& FD_OOB ≠ 0
        ∧ (sock.errors.length = FD_MAX_EVENTS → p.2.errors[FD_OOB_BIT]? = some 0)) := by
  have hg := sock_poll_event_after_update fuel env sys sock event p h
  rw [sock_poll_event_update_normal_eq env sys sock event hc hl] at hg
  simp only [sock_poll_event_normal] at hg
  have he := (sock_poll_event_pollin_event env sys sock event).1
  rw [if_neg hpeek] at he
  rw [he] at hg
  have g1 := sock_poll_event_pollin_grows env sys sock event
  have g2 := sock_poll_event_pollout_grows (sock_poll_event_pollin env sys sock event).2.1 event
  have g3 := sock_poll_event_pollpri_grows
    (sock_poll_event_pollout (sock_poll_event_pollin env sys sock event).2.1 event) event
  have g4 := sock_poll_event_close_grows env (sock_poll_event_pollin env sys sock event).1
    (sock_poll_event_pollpri
      (sock_poll_event_pollout (sock_poll_event_pollin env sys sock event).2.1 event) event) event
  have l1 : (sock_poll_event_pollin env sys sock event).2.1.errors.length
      = sock.errors.length := g1.2.2.2.2.2.1
  have l2 : (sock_poll_event_pollout (sock_poll_event_pollin env sys sock event).2.1
      event).errors.length = sock.errors.length := g2.2.2.2.2.2.1.trans l1
  refine ⟨fun hin => ?_, fun hout => ?_, fun hpri => ?_⟩
  · have hd : env.recv_peek sys.clock sock.fd ≠ 0 := fun e => hpeek ⟨hin, e⟩
    obtain ⟨a, b⟩ := sock_poll_event_pollin_data env sys sock event hin hd
    have t := grows_from_keeps
      (grows_from_trans g2 (grows_from_trans g3 (grows_from_trans g4 hg))) FD_READ 0 (by omega)
    exact ⟨t.1 a, t.2.1 b⟩
  · obtain ⟨a, b, c⟩ := sock_poll_event_pollout_fires
      (sock_poll_event_pollin env sys sock event).2.1 event hout
    have t := grows_from_keeps (grows_from_trans g3 (grows_from_trans g4 hg)) FD_WRITE
      FD_WRITE_BIT (by decide)
    exact ⟨t.1 a, t.2.1 b, fun hlen => t.2.2 (c (by rw [l1, hlen]; decide))⟩
  · obtain ⟨a, b, c⟩ := sock_poll_event_pollpri_fires
      (sock_poll_event_pollout (sock_poll_event_pollin env sys sock event).2.1 event) event
      hpri
    have t := grows_from_keeps (grows_from_trans g4 hg) FD_OOB FD_OOB_BIT (by decide)
    exact ⟨t.1 a, t.2.1 b, fun hlen => t.2.2 (c (by rw [l2, hlen]; decide))⟩

theorem land_pollin_pollhup (e : Nat) :
    e &&& (POLLIN ||| POLLHUP) = POLLHUP ↔ (e &&& POLLHUP ≠ 0 ∧ e &&& POLLIN = 0) := by
  constructor
  · intro h
    have h4 := congrArg (fun x => x.testBit 4) h
    have h0 := congrArg (fun x => x.testBit 0) h
    simp [-Nat.testBit_zero] at h4 h0
    simp [-Nat.testBit_zero, h4, h0]
  · intro h
    simp [-Nat.testBit_zero] at h
    apply Nat.eq_of_testBit_eq
    intro i
    simp only [Nat.testBit_and, Nat.testBit_or, testBit_POLLIN, testBit_POLLHUP]
    by_cases h0 : 0 = i
    · subst h0; simp [-Nat.testBit_zero, h.2]
    · by_cases h4 : 4 = i
      · subst h4; simp [-Nat.testBit_zero, h.1]
      · simp [h0, h4]

/-- The rules before the close rule leave the state, the descriptor, the `FD_CLOSE` bit of
`pmask` and the error of `FD_CLOSE` as they are. -/
theorem sock_poll_event_before_close (env : Env) (sys : Sys) (sock : Sock) (event e : Nat) :
    (sock_poll_event_pollpri (sock_poll_event_pollout
        (sock_poll_event_pollin env sys sock event).2.1 e) e).state = sock.state
    ∧ (sock_poll_event_pollpri (sock_poll_event_pollout
        (sock_poll_event_pollin env sys sock event).2.1 e) e).fd = sock.fd
    ∧ ((sock_poll_event_pollpri (sock_poll_event_pollout
        (sock_poll_event_pollin env sys sock event).2.1 e) e).pmask &&& FD_CLOSE ≠ 0
          ↔ sock.pmask &&& FD_CLOSE ≠ 0)
    ∧ (sock_poll_event_pollpri (sock_poll_event_pollout
        (sock_poll_event_pollin env sys sock event).2.1 e) e).errors[FD_CLOSE_BIT]?
          = sock.errors[FD_CLOSE_BIT]? := by
  simp only [sock_poll_event_pollin, sock_poll_event_pollout, sock_poll_event_pollpri]
  split_ifs <;> refine ⟨rfl, rfl, ?_, ?_⟩ <;>
    simp [-Nat.testBit_zero, List.getElem?_set, FD_CLOSE_BIT, FD_READ_BIT, FD_WRITE_BIT,
      FD_OOB_BIT]

theorem sock_poll_event_pollin_clock (env : Env) (sys : Sys) (sock : Sock) (event : Nat) :
    (sock_poll_event_pollin env sys sock event).1.clock
      = if event &&& POLLIN ≠ 0 then sys.clock + 1 else sys.clock := by
  simp only [sock_poll_event_pollin]
  split_ifs <;> rfl

/-- The close rule in the normal phase, on the result of the state update. -/
theorem sock_poll_event_update_close (env : Env) (sys : Sys) (sock : Sock) (event : Nat)
    (hc : sock.state &&& FD_CONNECT = 0) (hl : sock.state &&& FD_WINE_LISTENING = 0) :
    (sock_poll_event_update env sys sock event).2.2 = readiness_after_peek env sys sock event
    ∧ (close_rule_applies sock.state (readiness_after_peek env sys sock event) →
        (sock_poll_event_update env sys sock event).2.1.pmask &&& FD_CLOSE ≠ 0
        ∧ (sock_poll_event_update env sys sock event).2.1.state
            = sock.state &&& bnot32 (FD_WINE_CONNECTED ||| FD_READ ||| FD_WRITE)
        ∧ (sock.errors.length = FD_MAX_EVENTS →
            (sock_poll_event_update env sys sock event).2.1.errors[FD_CLOSE_BIT]?
              = some (translated_so_error env
                  (if event &&& POLLIN ≠ 0 then sys.clock + 1 else sys.clock) sock.fd)))
    ∧ (¬ close_rule_applies sock.state (readiness_after_peek env sys sock event) →
        ((sock_poll_event_update env sys sock event).2.1.pmask &&& FD_CLOSE ≠ 0
          ↔ sock.pmask &&& FD_CLOSE ≠ 0)
        ∧ (sock_poll_event_update env sys sock event).2.1.state = sock.state
        ∧ (sock_poll_event_update env sys sock event).2.1.errors[FD_CLOSE_BIT]?
            = sock.errors[FD_CLOSE_BIT]?) := by
  rw [sock_poll_event_update_normal_eq env sys sock event hc hl]
  simp only [sock_poll_event_normal]
  have he := (sock_poll_event_pollin_event env sys sock event).1
  have hck := sock_poll_event_pollin_clock env sys sock event
  obtain ⟨b1, b2, b3, b4⟩ := sock_poll_event_before_close env sys sock event
    (sock_poll_event_pollin env sys sock event).2.2
  have g1 := (sock_poll_event_pollin_grows env sys sock event).2.2.2.2.2.1
  have g2 := (sock_poll_event_pollout_grows (sock_poll_event_pollin env sys sock event).2.1
    (sock_poll_event_pollin env sys sock event).2.2).2.2.2.2.2.1
  have g3 := (sock_poll_event_pollpri_grows
    (sock_poll_event_pollout (sock_poll_event_pollin env sys sock event).2.1
      (sock_poll_event_pollin env sys sock event).2.2)
    (sock_poll_event_pollin env sys sock event).2.2).2.2.2.2.2.1
  have hl3 := g3.trans (g2.trans g1)
  generalize sock_poll_event_pollpri (sock_poll_event_pollout
    (sock_poll_event_pollin env sys sock event).2.1
    (sock_poll_event_pollin env sys sock event).2.2)
    (sock_poll_event_pollin env sys sock event).2.2 = a3 at b1 b2 b3 b4 hl3 ⊢
  have hre : readiness_after_peek env sys sock event
      = (sock_poll_event_pollin env sys sock event).2.2 := he.symm
  rw [hre]
  generalize (sock_poll_event_pollin env sys sock event).2.2 = re
  generalize (sock_poll_event_pollin env sys sock event).1 = s1 at hck ⊢
  have hcond : ((re &&& POLLERR ≠ 0 ∨ re &&& (POLLIN ||| POLLHUP) = POLLHUP)
      ∧ a3.state &&& (FD_READ ||| FD_WRITE) ≠ 0) ↔ close_rule_applies sock.state re := by
    unfold close_rule_applies
    rw [land_pollin_pollhup, b1]
    exact and_comm
  refine ⟨rfl, fun h => ?_, fun h => ?_⟩
  · simp only [sock_poll_event_close, if_pos (hcond.mpr h)]
    refine ⟨by simp [-Nat.testBit_zero], by rw [b1], fun hlen => ?_⟩
    have : FD_CLOSE_BIT < a3.errors.length := by rw [hl3, hlen]; decide
    simp only [List.getElem?_set, if_true, this, sock_error, translated_so_error, hck, b2]
  · simp only [sock_poll_event_close, if_neg (fun x => h (hcond.mp x))]
    exact ⟨b3, b1, b4⟩



/-! ## The calls of an invocation -/

/-- The readiness the rest of `sock_poll_event` sees after the state update: in the normal
phase the readiness after the peek, in the other phases the readiness as it was given. -/
theorem sock_poll_event_update_event (env : Env) (sys : Sys) (sock : Sock) (event : Nat) :
    (sock_poll_event_update env sys sock event).2.2
      = if sock.state &&& FD_CONNECT = 0 ∧ sock.state &&& FD_WINE_LISTENING = 0
          then readiness_after_peek env sys sock event else event := by
  by_cases hc : sock.state &&& FD_CONNECT = 0
  · by_cases hl : sock.state &&& FD_WINE_LISTENING = 0
    · rw [if_pos ⟨hc, hl⟩, sock_poll_event_update_normal_eq env sys sock event hc hl]
      exact (sock_poll_event_pollin_event env sys sock event).1
    · rw [if_neg (fun h => hl h.2)]
      simp only [sock_poll_event_update, sock_poll_event_listening]
      rw [if_neg (by simpa using hc), if_pos hl]
      split_ifs <;> rfl
  · rw [if_neg (fun h => hc h.1)]
    simp only [sock_poll_event_update, sock_poll_event_connecting]
    rw [if_pos hc]
    split_ifs <;> rfl

/-- The calls the last part of `sock_poll_event` makes: at most a `set_event` on the
subscriber event, then the wakeup. -/
theorem sock_poll_event_wake_trace (sys : Sys) (sock : Sock) :
    ∃ tail, (sock_poll_event_wake sys sock).calls = sys.calls ++ tail
      ∧ ∀ c ∈ tail, c = Call.set_event sock.event ∨ c = Call.wake_up sock.fd := by
  simp only [sock_poll_event_wake]
  split_ifs
  · refine ⟨[Call.set_event sock.event, Call.wake_up sock.fd], ?_, ?_⟩
    · cases sock.event <;> simp [set_event, log]
    · intro c hc; simpa using hc
  · exact ⟨[Call.wake_up sock.fd], rfl, by intro c hc; right; simpa using hc⟩

/-- The calls a reselection makes when its probe reports nothing. -/
theorem sock_reselect_idle_trace (env : Env) (sys : Sys) (sock : Sock) :
    ∃ added, (sock_reselect_idle env sys sock).1.calls = sys.calls ++ added
      ∧ ∀ c ∈ added, c = Call.add_select_user sock.fd
        ∨ c = Call.set_select_events sock.fd (sock_get_poll_events sock)
        ∨ c = Call.poll sock.fd (sock_get_poll_events sock) 0 := by
  simp only [sock_reselect_idle]
  split_ifs
  · exact ⟨[], by simp, by simp⟩
  · refine ⟨[Call.add_select_user sock.fd,
      Call.set_select_events sock.fd (sock_get_poll_events sock),
      Call.poll sock.fd (sock_get_poll_events sock) 0], ?_, ?_⟩
    · simp [add_select_user, set_select_events, log, tick]
    · intro c hc; simpa using hc
  · refine ⟨[Call.set_select_events sock.fd (sock_get_poll_events sock),
      Call.poll sock.fd (sock_get_poll_events sock) 0], ?_, ?_⟩
    · simp [set_select_events, log, tick]
    · intro c hc; right; simpa using hc

theorem sock_poll_event_update_disables (env : Env) (sys : Sys) (sock : Sock) (event : Nat) :
    (sock_poll_event_update env sys sock event).2.2 &&& (POLLERR ||| POLLHUP) ≠ 0
      ↔ disables_registration env sys sock event := by
  rw [sock_poll_event_update_event]
  unfold disables_registration readiness_after_peek
  by_cases hn : sock.state &&& FD_CONNECT = 0 ∧ sock.state &&& FD_WINE_LISTENING = 0
  · rw [if_pos hn]
    by_cases he : event &&& POLLIN ≠ 0 ∧ env.recv_peek sys.clock sock.fd = 0
    · rw [if_pos he]
      exact ⟨fun _ => Or.inr ⟨hn.1, hn.2, he.1, he.2⟩, fun _ => by decide⟩
    · rw [if_neg he]
      exact ⟨Or.inl, fun h => h.elim id (fun h => absurd ⟨h.2.2.1, h.2.2.2⟩ he)⟩
  · rw [if_neg hn]
    exact ⟨Or.inl, fun h => h.elim id (fun h => absurd ⟨h.1, h.2.1⟩ hn)⟩

/-! ## The acknowledge and the lifecycle operations -/

/-- An acknowledge in a quiet environment: the handler returns, the acknowledged kinds
leave `hmask` and `pmask`, and the state bits of the request are applied. -/
theorem enable_socket_event_quiet (fuel : Nat) (env : Env) (sys : Sys) (sock : Sock)
    (req : enable_socket_event_request) (hq : quiet env) :
    ∃ sys1 sock1, enable_socket_event fuel env sys (some sock) req = some (sys1, some sock1)
      ∧ sock1.hmask = sock.hmask &&& bnot32 req.mask
      ∧ sock1.state = (sock.state ||| req.sstate) &&& bnot32 req.cstate
      ∧ sock1.pmask = (if req.mask &&& FD_WINE_SERVEVENT ≠ 0
          then (sock.pmask &&& bnot32 req.mask) ||| FD_WINE_SERVEVENT
          else sock.pmask &&& bnot32 req.mask) := by
  obtain ⟨-, ⟨g1, g2, g3, -⟩, -⟩ := sock_reselect_idle_frame env sys { sock with
    pmask := sock.pmask &&& bnot32 req.mask
    hmask := sock.hmask &&& bnot32 req.mask
    state := (sock.state ||| req.sstate) &&& bnot32 req.cstate }
  simp only at g1 g2 g3
  simp only [enable_socket_event, sock_reselect_quiet _ env hq, Option.map_some']
  by_cases hsv : req.mask &&& FD_WINE_SERVEVENT ≠ 0
  · simp only [if_pos hsv]
    refine ⟨_, _, rfl, g2, g1, ?_⟩
    show (sock_reselect_idle env sys _).2.pmask ||| FD_WINE_SERVEVENT = _
    rw [g3]
  · simp only [if_neg hsv]
    exact ⟨_, _, rfl, g2, g1, g3⟩

/-- A successful `accept_socket`: the new socket as it is before its reselection, and the
two reselections that follow. -/
theorem accept_socket_success (fuel : Nat) (env : Env) (sys : Sys) (sock raw : Sock)
    (hacc : env.accept sys.clock sock.fd ≠ -1)
    (halloc : env.alloc_object (sys.clock + 1) = some raw) :
    ∃ sys3 sock0,
      sock0.state = (if sock.state &&& FD_WINE_NONBLOCKING ≠ 0
          then FD_WINE_CONNECTED ||| FD_READ ||| FD_WRITE ||| FD_WINE_NONBLOCKING
          else FD_WINE_CONNECTED ||| FD_READ ||| FD_WRITE)
      ∧ sock0.mask = sock.mask ∧ sock0.flags = sock.flags ∧ sock0.hmask = 0 ∧ sock0.pmask = 0
      ∧ sock0.event = (if sock.event ≠ none ∧ sock.mask &&& FD_WINE_SERVEVENT = 0
          then sock.event else none)
      ∧ sock0.fd = env.accept sys.clock sock.fd ∧ sock0.select = -1
      ∧ accept_socket fuel env sys (some sock)
        = (sock_reselect fuel env sys3 sock0).bind (fun a =>
            (sock_reselect fuel env (clear_error a.1) { sock with
              pmask := sock.pmask &&& bnot32 FD_ACCEPT
              hmask := sock.hmask &&& bnot32 FD_ACCEPT }).map
              (fun l => (l.1, some l.2, some a.2))) := by
  simp only [accept_socket, hacc, if_false, alloc_object, tick_clock, log_clock, halloc,
    Option.map_some']
  refine ⟨_,
    { fd := env.accept sys.clock sock.fd
      select := -1
      state := if sock.state &&& FD_WINE_NONBLOCKING ≠ 0
        then FD_WINE_CONNECTED ||| FD_READ ||| FD_WRITE ||| FD_WINE_NONBLOCKING
        else FD_WINE_CONNECTED ||| FD_READ ||| FD_WRITE
      mask := sock.mask
      hmask := 0
      pmask := 0
      flags := sock.flags
      event := if sock.event ≠ none ∧ ¬ (sock.mask &&& FD_WINE_SERVEVENT ≠ 0)
        then sock.event else none
      errors := raw.errors }, rfl, rfl, rfl, rfl, rfl, ?_, rfl, rfl, rfl⟩
  simp only [ne_eq, not_not]

/-! ## The phase flags -/

/-- A reselection of a socket that was never registered and whose state has no bit other
than `FD_WINE_NONBLOCKING` returns at once: nothing is registered, nothing is probed and
no field changes. -/
theorem sock_reselect_inert (fuel : Nat) (env : Env) (sys : Sys) (sock : Sock)
    (hsel : sock.select = -1) (hst : sock.state &&& bnot32 FD_WINE_NONBLOCKING = 0) :
    sock_reselect fuel env sys sock = some (sys, sock) := by
  unfold sock_reselect sock_reselect_body
  rw [if_pos ⟨hsel, by simpa using hst⟩]

theorem phase_kept_of {a b : Sock}
    (hL : b.state &&& FD_WINE_LISTENING ≠ 0 ↔ a.state &&& FD_WINE_LISTENING ≠ 0)
    (hC : b.state &&& FD_CONNECT ≠ 0 → a.state &&& FD_CONNECT ≠ 0) :
    (phase_invariant a → phase_invariant b)
    ∧ (a.state &&& FD_WINE_LISTENING ≠ 0 → b.state &&& FD_WINE_LISTENING ≠ 0) :=
  ⟨fun h hb => h ⟨hC hb.1, hL.mp hb.2⟩, hL.mpr⟩

/-- A subscription leaves the phase flags as the reselection returns them. -/
theorem set_socket_event_phase (fuel : Nat) (env : Env) (sys sys1 : Sys) (sock sock1 : Sock)
    (req : set_socket_event_request)
    (h : set_socket_event fuel env sys (some sock) req = some (sys1, some sock1)) :
    (sock1.state &&& FD_WINE_LISTENING ≠ 0 ↔ sock.state &&& FD_WINE_LISTENING ≠ 0)
    ∧ (sock1.state &&& FD_CONNECT ≠ 0 → sock.state &&& FD_CONNECT ≠ 0) := by
  simp only [set_socket_event, Option.map_eq_some', Prod.mk.injEq, Option.some.injEq] at h
  obtain ⟨p, hp, -, h2⟩ := h
  have hg := sock_reselect_grows fuel env sys _ p hp
  have hL := hg.2.2.2.1
  have hC := hg.2.2.2.2.1
  simp only at hL hC
  subst h2
  split_ifs
  · refine ⟨Iff.trans ?_ hL, fun h => hC ?_⟩
    · simp [-Nat.testBit_zero]
    · simpa [-Nat.testBit_zero] using h
  · exact ⟨hL, hC⟩

/-- An acknowledge leaves the phase flags as its request and the reselection make
them. -/
theorem enable_socket_event_phase (fuel : Nat) (env : Env) (sys sys1 : Sys)
    (sock sock1 : Sock) (req : enable_socket_event_request)
    (h : enable_socket_event fuel env sys (some sock) req = some (sys1, some sock1)) :
    (sock1.state &&& FD_WINE_LISTENING ≠ 0
      ↔ ((sock.state ||| req.sstate) &&& bnot32 req.cstate) &&& FD_WINE_LISTENING ≠ 0)
    ∧ (sock1.state &&& FD_CONNECT ≠ 0
      → ((sock.state ||| req.sstate) &&& bnot32 req.cstate) &&& FD_CONNECT ≠ 0) := by
  simp only [enable_socket_event, Option.map_eq_some'] at h
  obtain ⟨p, hp, h2⟩ := h
  have hg := sock_reselect_grows fuel env sys _ p hp
  have hL := hg.2.2.2.1
  have hC := hg.2.2.2.2.1
  simp only at hL hC
  split_ifs at h2
  all_goals
    simp only [Prod.mk.injEq, Option.some.injEq] at h2
    obtain ⟨-, h3⟩ := h2
    subst h3
    exact ⟨hL, hC⟩

/-- The state of a socket that `create_socket` returns has no phase flag. -/
theorem create_socket_phase (fuel : Nat) (env : Env) (sys sys1 : Sys)
    (family type protocol : Int) (flags : Nat) (sock : Sock)
    (h : create_socket fuel env sys family type protocol flags = some (sys1, some sock)) :
    sock.state &&& FD_WINE_LISTENING = 0 ∧ sock.state &&& FD_CONNECT = 0 := by
  simp only [create_socket] at h
  by_cases h1 : env.socket sys.clock family type protocol = -1
  · rw [if_pos h1] at h
    simp at h
  · rw [if_neg h1] at h
    split at h
    · simp at h
    · simp only [Option.map_eq_some', Prod.mk.injEq, Option.some.injEq] at h
      obtain ⟨p, hp, -, h2⟩ := h
      subst h2
      have hg := sock_reselect_grows fuel env _ _ p hp
      have hL := hg.2.2.2.1
      have hC := hg.2.2.2.2.1
      simp only at hL hC
      constructor
      · by_contra hc
        have := hL.mp hc
        split_ifs at this <;> exact this (by decide)
      · by_contra hc
        have := hC hc
        split_ifs at this <;> exact this (by decide)

/-- The state of a socket that `accept_socket` produces has no phase flag. -/
theorem accept_socket_phase (fuel : Nat) (env : Env) (sys sys1 : Sys)
    (listener listener1 sock : Sock)
    (h : accept_socket fuel env sys (some listener) = some (sys1, some listener1, some sock)) :
    sock.state &&& FD_WINE_LISTENING = 0 ∧ sock.state &&& FD_CONNECT = 0 := by
  simp only [accept_socket] at h
  by_cases h1 : env.accept sys.clock listener.fd = -1
  · rw [if_pos h1] at h
    simp at h
  · rw [if_neg h1] at h
    split at h
    · simp at h
    · simp only [Option.bind_eq_some, Option.map_eq_some', Prod.mk.injEq,
        Option.some.injEq] at h
      obtain ⟨a, ha, l, -, -, -, e3⟩ := h
      subst e3
      have hg := sock_reselect_grows fuel env _ _ a ha
      have hL := hg.2.2.2.1
      have hC := hg.2.2.2.2.1
      simp only at hL hC
      constructor
      · by_contra hc
        have := hL.mp hc
        split_ifs at this <;> exact this (by decide)
      · by_contra hc
        have := hC hc
        split_ifs at this <;> exact this (by decide)

/-! ## The interest the poll loop stores -/

/-- A call of `sock_step` leaves `FD_WINE_LISTENING` as it is and does not set
`FD_CONNECT`, apart from what the request of an acknowledge asks for. -/
theorem sock_step_phase {a b : Sock} (h : sock_step a b) :
    (phase_invariant a → phase_invariant b)
    ∧ (a.state &&& FD_WINE_LISTENING ≠ 0 → b.state &&& FD_WINE_LISTENING ≠ 0) := by
  cases h with
  | notify h =>
    have hg := sock_poll_event_grows _ _ _ _ _ _ h
    exact phase_kept_of hg.2.2.2.1 hg.2.2.2.2.1
  | subscribe h =>
    obtain ⟨hL, hC⟩ := set_socket_event_phase _ _ _ _ _ _ _ h
    exact phase_kept_of hL hC
  | query h =>
    rcases get_socket_event_cases _ _ _ _ _ _ _ _ h with ⟨e, -⟩ | ⟨sys2, hr⟩
    · rw [e]; exact ⟨id, id⟩
    · have hg := sock_reselect_grows _ _ _ _ _ hr
      exact phase_kept_of hg.2.2.2.1 hg.2.2.2.2.1
  | acknowledge hk h =>
    obtain ⟨hL, hC⟩ := enable_socket_event_phase _ _ _ _ _ _ _ h
    exact ⟨fun _ hb => hk.1 ⟨hC hb.1, hL.mp hb.2⟩, fun ha => hL.mpr (hk.2 ha)⟩
  | listen_accept h =>
    rcases accept_socket_cases _ _ _ _ _ _ _ h with ⟨e, -, -⟩ | ⟨s3, k0, x, l, -, -, -, hl, -, e, -⟩
    · rw [e]; exact ⟨id, id⟩
    · have hg := sock_reselect_grows _ _ _ _ _ hl
      rw [e]
      exact phase_kept_of hg.2.2.2.1 hg.2.2.2.2.1

theorem registered_interest_log (sys : Sys) (c : Call) (fd : Int) :
    registered_interest (log sys c).calls fd
      = interest_step fd (registered_interest sys.calls fd) c := by
  simp [registered_interest, log, List.foldl_append]

theorem registered_interest_append (calls tail : List Call) (fd : Int)
    (h : ∀ c ∈ tail, ∀ f e, c ≠ Call.set_select_events f e) :
    registered_interest (calls ++ tail) fd = registered_interest calls fd := by
  unfold registered_interest
  rw [List.foldl_append]
  generalize List.foldl (interest_step fd) none calls = acc
  induction tail generalizing acc with
  | nil => rfl
  | cons c t ih =>
    rw [List.foldl_cons]
    have hc : interest_step fd acc c = acc := by
      cases c <;> first | rfl | exact absurd rfl (h _ (List.mem_cons_self _ _) _ _)
    rw [hc]
    exact ih (fun c hc => h c (List.mem_cons_of_mem _ hc)) acc

theorem registered_interest_wake (sys : Sys) (sock : Sock) (fd : Int) :
    registered_interest (sock_poll_event_wake sys sock).calls fd
      = registered_interest sys.calls fd := by
  obtain ⟨tail, h1, h2⟩ := sock_poll_event_wake_trace sys sock
  rw [h1]
  apply registered_interest_append
  intro c hc f e he
  rcases h2 c hc with h | h <;> rw [h] at he <;> cases he

/-- The state update of `sock_poll_event` makes no `set_select_events`. -/
theorem registered_interest_update (env : Env) (sys : Sys) (sock : Sock) (event : Nat)
    (fd : Int) :
    registered_interest (sock_poll_event_update env sys sock event).1.calls fd
      = registered_interest sys.calls fd := by
  simp only [sock_poll_event_update, sock_poll_event_connecting, sock_poll_event_listening,
    sock_poll_event_normal, sock_poll_event_pollin, sock_poll_event_close, sock_error]
  split_ifs <;> simp [registered_interest, log, tick, List.foldl_append, interest_step]

theorem interest_step_store (fd : Int) (acc : Option Int) (events : Int) :
    interest_step fd acc (Call.set_select_events fd events) = some (-1)
    ∨ interest_step fd acc (Call.set_select_events fd events) = some events := by
  simp only [interest_step]
  by_cases h : acc = some (-1)
  · left; simp [h]
  · right; simp [h]

theorem interest_step_settled (fd : Int) (acc : Option Int) (events : Int)
    (h : acc = some (-1) ∨ acc = some events) :
    interest_step fd acc (Call.set_select_events fd events) = acc := by
  simp only [interest_step]
  rcases h with h | h
  · simp [h]
  · by_cases h2 : acc = some (-1)
    · simp [h2]
    · simp [h2, h]

/-- A reselection of a registered socket leaves the interest settled, when the function
it calls on a satisfied condition does. -/
theorem sock_reselect_body_settles (poll_event : Sys → Sock → Nat → Option (Sys × Sock))
    (env : Env)
    (hpe : ∀ sys sock event p, sock.select ≠ -1 → poll_event sys sock event = some p →
      interest_settled p.1 p.2 ∧ p.2.select = sock.select)
    (sys : Sys) (sock : Sock) (q : Sys × Sock) (hsel : sock.select ≠ -1)
    (h : sock_reselect_body poll_event env sys sock = some q) :
    interest_settled q.1 q.2 ∧ q.2.select = sock.select := by
  simp only [sock_reselect_body] at h
  rw [if_neg (fun hc => hsel hc.1)] at h
  simp only [if_neg hsel] at h
  split_ifs at h with hr
  · exact hpe _ _ _ q hsel h
  · cases h
    refine ⟨?_, rfl⟩
    unfold interest_settled
    show registered_interest (tick (log (set_select_events sys sock _) _)).calls sock.fd = _ ∨ _
    have e : (tick (log (set_select_events sys sock (sock_get_poll_events sock))
        (Call.poll sock.fd (sock_get_poll_events sock)
          (env.poll (set_select_events sys sock (sock_get_poll_events sock)).clock sock.fd
            (sock_get_poll_events sock))))).calls
        = (log (log sys (Call.set_select_events sock.fd (sock_get_poll_events sock)))
            (Call.poll sock.fd (sock_get_poll_events sock)
              (env.poll (set_select_events sys sock (sock_get_poll_events sock)).clock sock.fd
                (sock_get_poll_events sock)))).calls := rfl
    rw [e, registered_interest_log, registered_interest_log]
    exact interest_step_store _ _ _

/-- Whatever the probes report, `sock_poll_event` on a registered socket returns with the
interest settled. -/
theorem sock_poll_event_settles (env : Env) (fuel : Nat) :
    ∀ (sys : Sys) (sock : Sock) (event : Nat) (p : Sys × Sock), sock.select ≠ -1 →
      sock_poll_event fuel env sys sock event = some p →
      interest_settled p.1 p.2 ∧ p.2.select = sock.select := by
  induction fuel with
  | zero => intro sys sock event p _ h; simp [sock_poll_event] at h
  | succ n ih =>
    intro sys sock event p hsel h
    simp only [sock_poll_event, Option.map_eq_some'] at h
    obtain ⟨q, hq, hp⟩ := h
    subst hp
    obtain ⟨-, hus, -⟩ := sock_poll_event_update_frame env sys sock event
    have key : interest_settled q.1 q.2 ∧ q.2.select = sock.select := by
      split_ifs at hq with hc
      · cases hq
        refine ⟨Or.inl ?_, hus⟩
        show registered_interest (log _ (Call.set_select_events _ (-1))).calls _ = _
        rw [registered_interest_log]
        rcases interest_step_store (sock_poll_event_update env sys sock event).2.1.fd
          (registered_interest (sock_poll_event_update env sys sock event).1.calls
            (sock_poll_event_update env sys sock event).2.1.fd) (-1) with h | h <;> exact h
      · obtain ⟨a, b⟩ := sock_reselect_body_settles (sock_poll_event n env) env ih _ _ q
          (by rw [hus]; exact hsel) hq
        exact ⟨a, b.trans hus⟩
    refine ⟨?_, key.2⟩
    unfold interest_settled
    show registered_interest (sock_poll_event_wake q.1 q.2).calls q.2.fd = _ ∨ _
    rw [registered_interest_wake]
    exact key.1

/-- A reselection that has to register the socket goes on as a reselection of the
registered socket. -/
theorem sock_reselect_body_register (poll_event : Sys → Sock → Nat → Option (Sys × Sock))
    (env : Env) (sys : Sys) (sock : Sock) (hsel : sock.select = -1)
    (hst : sock.state &&& bnot32 FD_WINE_NONBLOCKING ≠ 0) :
    sock_reselect_body poll_event env sys sock
      = sock_reselect_body poll_event env (add_select_user env sys sock).1
          (add_select_user env sys sock).2 := by
  have h2 : (add_select_user env sys sock).2.select ≠ -1 := by
    simp only [add_select_user]
    omega
  have h4 : sock_get_poll_events (add_select_user env sys sock).2 = sock_get_poll_events sock :=
    rfl
  have e1 : ¬ (sock.select = -1 ∧ ¬ (sock.state &&& bnot32 FD_WINE_NONBLOCKING ≠ 0)) :=
    fun hc => hc.2 hst
  have e2 : ¬ ((add_select_user env sys sock).2.select = -1
      ∧ ¬ ((add_select_user env sys sock).2.state &&& bnot32 FD_WINE_NONBLOCKING ≠ 0)) :=
    fun hc => h2 hc.1
  simp only [sock_reselect_body, if_neg e1, if_neg e2, if_pos hsel, if_neg h2, h4]

/-- Whatever the probes report, `sock_reselect` returns at once on a socket that is
neither registered nor in need of it, and otherwise returns a registered socket with the
interest settled. -/
theorem sock_reselect_settles (fuel : Nat) (env : Env) (sys : Sys) (sock : Sock)
    (p : Sys × Sock) (h : sock_reselect fuel env sys sock = some p) :
    (sock.select = -1 ∧ sock.state &&& bnot32 FD_WINE_NONBLOCKING = 0 ∧ p = (sys, sock))
    ∨ (interest_settled p.1 p.2 ∧ p.2.select ≠ -1) := by
  unfold sock_reselect at h
  by_cases hsel : sock.select = -1
  · by_cases hst : sock.state &&& bnot32 FD_WINE_NONBLOCKING = 0
    · left
      rw [← sock_reselect, sock_reselect_inert fuel env sys sock hsel hst] at h
      exact ⟨hsel, hst, (Option.some.inj h).symm⟩
    · right
      rw [sock_reselect_body_register _ env sys sock hsel hst] at h
      have h2 : (add_select_user env sys sock).2.select ≠ -1 := by
        simp only [add_select_user]
        omega
      obtain ⟨a, b⟩ := sock_reselect_body_settles (sock_poll_event fuel env) env
        (sock_poll_event_settles env fuel) _ _ p h2 h
      exact ⟨a, by rw [b]; exact h2⟩
  · right
    obtain ⟨a, b⟩ := sock_reselect_body_settles (sock_poll_event fuel env) env
      (sock_poll_event_settles env fuel) _ _ p hsel h
    exact ⟨a, by rw [b]; exact hsel⟩

/-! ## Urgent data -/

/-- A reselection of a registered socket whose interest is settled and whose probe
reports nothing changes neither the socket nor the registered interest. -/
theorem sock_reselect_settled_again (fuel : Nat) (env : Env) (sys : Sys) (sock : Sock)
    (hsel : sock.select ≠ -1) (hs : interest_settled sys sock)
    (hp : env.poll sys.clock sock.fd (sock_get_poll_events sock) = 0) :
    ∃ sys2, sock_reselect fuel env sys sock = some (sys2, sock)
      ∧ registered_interest sys2.calls sock.fd = registered_interest sys.calls sock.fd := by
  have h := sock_reselect_body_of_probe (sock_poll_event fuel env) env sys sock hp
  simp only [sock_reselect_idle] at h
  rw [if_neg (fun hc => hsel hc.1)] at h
  simp only [if_neg hsel] at h
  refine ⟨_, h, ?_⟩
  show registered_interest (log (log sys (Call.set_select_events sock.fd _)) _).calls _ = _
  rw [registered_interest_log, registered_interest_log]
  exact interest_step_settled _ _ _ hs

theorem sock_get_poll_events_polls_for_read (sock : Sock) (h : polls_for_read sock) :
    sock_get_poll_events sock &&& POLLPRI = POLLPRI
    ∧ sock.state &&& bnot32 FD_WINE_NONBLOCKING ≠ 0 := by
  obtain ⟨hc, hl, hm⟩ := h
  constructor
  · simp only [sock_get_poll_events]
    rw [if_neg (by simpa using hc), if_neg (by simpa using hl), if_pos hm]
    split_ifs <;> decide
  · simp [-Nat.testBit_zero] at hm ⊢
    intro h0
    have h1 := congrArg (fun x => x.testBit 0) h0
    simp [-Nat.testBit_zero, hm.2.1] at h1

/-- The state update for `POLLPRI` alone keeps a socket polling for readable data. -/
theorem sock_poll_event_update_pollpri (env : Env) (sys : Sys) (sock : Sock)
    (h : polls_for_read sock) :
    polls_for_read (sock_poll_event_update env sys sock POLLPRI).2.1
    ∧ (sock_poll_event_update env sys sock POLLPRI).2.2 = POLLPRI := by
  obtain ⟨hc, hl, hm⟩ := h
  have h0 : ¬ (POLLPRI &&& POLLIN ≠ 0) := by decide
  have h1 : ¬ (POLLPRI &&& POLLOUT ≠ 0) := by decide
  have h2 : POLLPRI &&& POLLPRI ≠ 0 := by decide
  have h3 : ¬ (POLLPRI &&& POLLERR ≠ 0 ∨ POLLPRI &&& (POLLIN ||| POLLHUP) = POLLHUP) := by
    decide
  rw [sock_poll_event_update_normal_eq env sys sock POLLPRI hc hl]
  simp only [sock_poll_event_normal, sock_poll_event_pollin, sock_poll_event_pollout,
    sock_poll_event_pollpri, sock_poll_event_close, if_neg h0, if_neg h1, if_pos h2, h3,
    false_and, if_false]
  refine ⟨⟨hc, hl, ?_⟩, trivial⟩
  simp [-Nat.testBit_zero] at hm ⊢
  exact hm

theorem sock_reselect_body_urgent (poll_event : Sys → Sock → Nat → Option (Sys × Sock))
    (hpe : ∀ sys sock, polls_for_read sock → poll_event sys sock POLLPRI = none)
    (sys : Sys) (sock : Sock) (h : polls_for_read sock) :
    sock_reselect_body poll_event urgent_env sys sock = none := by
  obtain ⟨he, hst⟩ := sock_get_poll_events_polls_for_read sock h
  have e1 : ¬ (sock.select = -1 ∧ ¬ (sock.state &&& bnot32 FD_WINE_NONBLOCKING ≠ 0)) :=
    fun hc => hc.2 hst
  have hp : ∀ t fd, urgent_env.poll t fd (sock_get_poll_events sock) = POLLPRI :=
    fun _ _ => he
  have h2 : POLLPRI ≠ 0 := by decide
  simp only [sock_reselect_body, if_neg e1, hp, if_pos h2]
  apply hpe
  split_ifs
  · exact h
  · exact h

/-- With urgent data waiting, `sock_poll_event` for `POLLPRI` on a socket that polls for
readable data does not return, whatever the fuel. -/
theorem sock_poll_event_urgent (fuel : Nat) :
    ∀ (sys : Sys) (sock : Sock), polls_for_read sock →
      sock_poll_event fuel urgent_env sys sock POLLPRI = none := by
  induction fuel with
  | zero => intro sys sock _; rfl
  | succ n ih =>
    intro sys sock h
    obtain ⟨hu, he⟩ := sock_poll_event_update_pollpri urgent_env sys sock h
    have h3 : ¬ (POLLPRI &&& (POLLERR ||| POLLHUP) ≠ 0) := by decide
    simp only [sock_poll_event, he, if_neg h3, sock_reselect_body_urgent _ ih _ _ hu,
      Option.map_none']

/-! ## The round trip of an edge-triggered event -/

/-- C11, as stated, fails for `FD_CLOSE` and outside the phase of a kind. A hangup on a
connected socket makes `FD_CLOSE` pending and clears `FD_READ` and `FD_WRITE` from the
state; after the acknowledge of `FD_CLOSE`, a readiness with `POLLERR` and `POLLHUP` does
not make it pending again. And on a socket with `FD_WRITE` pending, after an acknowledge
of `FD_WRITE` that also sets `FD_CONNECT`, a readiness with `POLLOUT` makes `FD_CONNECT`
pending, not `FD_WRITE`. -/
theorem close_does_not_round_trip :
    ((sock_poll_event 1 quiet_env idle_sys connected_sock POLLHUP).bind (fun a =>
      (enable_socket_event 0 quiet_env a.1 (some a.2) close_ack).bind (fun b =>
        (b.2.bind (fun k => sock_poll_event 1 quiet_env b.1 k (POLLERR ||| POLLHUP))).map
          (fun c => (a.2.pmask &&& FD_CLOSE,
            b.2.map (fun k => (k.pmask &&& FD_CLOSE, k.hmask &&& FD_CLOSE)),
            c.2.pmask &&& FD_CLOSE)))))
      = some (FD_CLOSE, some (0, 0), 0)
    ∧ ((enable_socket_event 0 quiet_env idle_sys (some write_pending_sock) connect_ack).bind
        (fun b => (b.2.bind (fun k => sock_poll_event 1 quiet_env b.1 k POLLOUT)).map
          (fun c => (b.2.map (fun k => (k.pmask &&& FD_WRITE, k.hmask &&& FD_WRITE)),
            c.2.pmask)))) = some (some (0, 0), FD_CONNECT) := by
  decide

/-- C11, amended. After an acknowledge, which in a quiet environment returns with the
acknowledged kinds removed from `pmask` and `hmask`, a `sock_poll_event` on the socket
the acknowledge returned puts a kind back into `pmask` when the rule of the kind applies:
in the normal phase, unless the readiness has `POLLIN` and the peek finds the end of the
stream, `POLLIN` for `FD_READ`, `POLLOUT` for `FD_WRITE` and `POLLPRI` for `FD_OOB`; on a
listening socket that is not connecting `POLLIN` for `FD_ACCEPT`; on a connecting socket
`POLLOUT` for `FD_CONNECT`; in the normal phase the condition of the close rule, which
asks for `FD_READ` or `FD_WRITE` in the state, for `FD_CLOSE`. This holds for whatever
`sock_poll_event` returns, and it returns when the probes report nothing. -/
theorem edge_trigger_round_trip (fuel : Nat) (env : Env) (sys : Sys) (sock : Sock)
    (req : enable_socket_event_request) :
    (quiet env →
      ∃ sys1 sock1, enable_socket_event fuel env sys (some sock) req = some (sys1, some sock1)
        ∧ (∀ K ∈ [FD_READ, FD_WRITE, FD_OOB, FD_ACCEPT, FD_CONNECT, FD_CLOSE],
            req.mask &&& K ≠ 0 → sock1.pmask &&& K = 0 ∧ sock1.hmask &&& K = 0)
        ∧ ∀ event, ∃ p, sock_poll_event (fuel + 1) env sys1 sock1 event = some p)
    ∧ (∀ sys1 sock1 fuel2 event p,
        enable_socket_event fuel env sys (some sock) req = some (sys1, some sock1) →
        sock_poll_event fuel2 env sys1 sock1 event = some p →
        (sock1.state &&& FD_CONNECT = 0 → sock1.state &&& FD_WINE_LISTENING = 0 →
          ¬ (event &&& POLLIN ≠ 0 ∧ env.recv_peek sys1.clock sock1.fd = 0) →
            (event &&& POLLIN ≠ 0 → p.2.pmask &&& FD_READ ≠ 0)
            ∧ (event &&& POLLOUT ≠ 0 → p.2.pmask &&& FD_WRITE ≠ 0)
            ∧ (event &&& POLLPRI ≠ 0 → p.2.pmask &&& FD_OOB ≠ 0))
        ∧ (sock1.state &&& FD_CONNECT = 0 → sock1.state &&& FD_WINE_LISTENING ≠ 0 →
            event &&& POLLIN ≠ 0 → p.2.pmask &&& FD_ACCEPT ≠ 0)
        ∧ (sock1.state &&& FD_CONNECT ≠ 0 → event &&& POLLOUT ≠ 0 →
            p.2.pmask &&& FD_CONNECT ≠ 0)
        ∧ (sock1.state &&& FD_CONNECT = 0 → sock1.state &&& FD_WINE_LISTENING = 0 →
            close_rule_applies sock1.state (readiness_after_peek env sys1 sock1 event) →
            p.2.pmask &&& FD_CLOSE ≠ 0)) := by
  refine ⟨fun hq => ?_, fun sys1 sock1 fuel2 event p _ h => ?_⟩
  · obtain ⟨sys1, sock1, h1, h2, -, h4⟩ := enable_socket_event_quiet fuel env sys sock req hq
    refine ⟨sys1, sock1, h1, ?_, fun event => ⟨_, sock_poll_event_quiet fuel env hq _ _ _⟩⟩
    intro K hK hm
    rw [h2, h4]
    simp only [List.mem_cons, List.mem_singleton, List.not_mem_nil, or_false] at hK
    rcases hK with rfl | rfl | rfl | rfl | rfl | rfl
    all_goals
      simp only [ne_eq, land_FD_READ, land_FD_WRITE, land_FD_OOB, land_FD_ACCEPT,
        land_FD_CONNECT, land_FD_CLOSE, Bool.not_eq_false] at hm
      split_ifs <;> simp [-Nat.testBit_zero, hm]
  · have hg := sock_poll_event_after_update fuel2 env sys1 sock1 event p h
    refine ⟨fun hc hl hpeek => ?_, fun hc hl hin => ?_, fun hc hout => ?_, fun hc hl ha => ?_⟩
    · obtain ⟨a, b, c⟩ := sock_poll_event_normal_rules fuel2 env sys1 sock1 event p hc hl hpeek h
      exact ⟨fun x => (a x).1, fun x => (b x).1, fun x => (c x).1⟩
    · rw [sock_poll_event_update_listening_pollin env sys1 sock1 event hc hl hin] at hg
      exact land_ne_zero_mono FD_ACCEPT hg.1 (by simp [-Nat.testBit_zero])
    · rw [sock_poll_event_update_connecting_pollout env sys1 sock1 event hc hout] at hg
      exact land_ne_zero_mono FD_CONNECT hg.1 (by simp [-Nat.testBit_zero])
    · exact land_ne_zero_mono FD_CLOSE hg.1
        ((sock_poll_event_update_close env sys1 sock1 event hc hl).2.1 ha).1

/-- C11, amended, at a listening socket on which an accept event is pending and held: the
acknowledge removes `FD_ACCEPT`, and the next `POLLIN` puts it back. -/
theorem edge_trigger_round_trip_witness :
    ∃ sys1 sock1 p,
      enable_socket_event 0 quiet_env idle_sys (some held_listener) accept_ack
        = some (sys1, some sock1)
      ∧ sock1.pmask &&& FD_ACCEPT = 0 ∧ sock1.hmask &&& FD_ACCEPT = 0
      ∧ sock_poll_event 1 quiet_env sys1 sock1 POLLIN = some p
      ∧ p.2.pmask &&& FD_ACCEPT ≠ 0 := by
  obtain ⟨sys1, sock1, h1, hrem, hret⟩ :=
    (edge_trigger_round_trip 0 quiet_env idle_sys held_listener accept_ack).1 quiet_env_quiet
  obtain ⟨p, hp⟩ := hret POLLIN
  have hst : sock1.state = FD_WINE_LISTENING := by
    have e : (enable_socket_event 0 quiet_env idle_sys (some held_listener) accept_ack).map
        (fun r => r.2.map (fun k => k.state)) = some (some FD_WINE_LISTENING) := by decide
    rw [h1] at e
    simpa using e
  have hk := hrem FD_ACCEPT (by simp) (by decide)
  refine ⟨sys1, sock1, p, h1, hk.1, hk.2, hp, ?_⟩
  exact ((edge_trigger_round_trip 0 quiet_env idle_sys held_listener accept_ack).2
    sys1 sock1 1 POLLIN p h1 hp).2.1 (by rw [hst]; decide) (by rw [hst]; decide) (by decide)

/-! ## Accepting a connection -/

/-- C12, as stated, fails in two ways. With a second connection queued, the reselection
of the listener at the end of `accept_socket` holds `FD_ACCEPT` again, so the listener
comes back with `FD_ACCEPT` in `pmask` and `hmask`. And when the allocation of the object
fails after the native accept has succeeded, no socket is produced. -/
theorem accept_leaves_accept_pending :
    (accept_socket 1 second_connection_env idle_sys (some held_listener)).map
        (fun r => (r.2.1.map (fun l => (l.pmask &&& FD_ACCEPT, l.hmask &&& FD_ACCEPT)),
          r.2.2.isSome)) = some (some (FD_ACCEPT, FD_ACCEPT), true)
    ∧ (accept_socket 0 no_memory_env idle_sys (some held_listener)).map
        (fun r => (r.1.calls, r.2.2.isSome)) = some ([Call.accept 3 5], false) := by
  decide

/-- C12, amended. When the native accept succeeds and the object is allocated,
`accept_socket` builds a new socket that, before its reselection, has the state
`FD_WINE_CONNECTED|FD_READ|FD_WRITE`, with `FD_WINE_NONBLOCKING` exactly when the listener
has it, the mask and the flags of the listener, nothing held or pending, and the event of
the listener exactly when the listener has one and its mask lacks `FD_WINE_SERVEVENT`;
it then reselects the new socket and the listener with `FD_ACCEPT` cleared. When the
probes report nothing, it returns the new socket with these fields, and the listener
with `FD_ACCEPT` removed from `pmask` and `hmask` and every other bit of `pmask`,
`hmask`, `mask` and `state` as it was. When the native accept fails, it returns the
listener as it was and no socket, and reports the translated error. -/
theorem accept_socket_result (fuel : Nat) (env : Env) (sys : Sys) (sock : Sock) :
    (∀ raw, env.accept sys.clock sock.fd ≠ -1 → env.alloc_object (sys.clock + 1) = some raw →
      ∃ sys3 sock0,
        sock0.state = (if sock.state &&& FD_WINE_NONBLOCKING ≠ 0
            then FD_WINE_CONNECTED ||| FD_READ ||| FD_WRITE ||| FD_WINE_NONBLOCKING
            else FD_WINE_CONNECTED ||| FD_READ ||| FD_WRITE)
        ∧ sock0.mask = sock.mask ∧ sock0.flags = sock.flags
        ∧ sock0.hmask = 0 ∧ sock0.pmask = 0
        ∧ sock0.event = (if sock.event ≠ none ∧ sock.mask &&& FD_WINE_SERVEVENT = 0
            then sock.event else none)
        ∧ accept_socket fuel env sys (some sock)
          = (sock_reselect fuel env sys3 sock0).bind (fun a =>
              (sock_reselect fuel env (clear_error a.1) { sock with
                pmask := sock.pmask &&& bnot32 FD_ACCEPT
                hmask := sock.hmask &&& bnot32 FD_ACCEPT }).map
                (fun l => (l.1, some l.2, some a.2)))
        ∧ (quiet env →
          ∃ sys1 l a, accept_socket fuel env sys (some sock) = some (sys1, some l, some a)
            ∧ same_subscription a sock0 ∧ same_event_state a sock0
            ∧ l.pmask &&& FD_ACCEPT = 0 ∧ l.hmask &&& FD_ACCEPT = 0
            ∧ (∀ k, k < 32 → k ≠ FD_ACCEPT_BIT →
                l.pmask.testBit k = sock.pmask.testBit k
                ∧ l.hmask.testBit k = sock.hmask.testBit k)
            ∧ l.mask = sock.mask ∧ l.state = sock.state))
    ∧ (env.accept sys.clock sock.fd = -1 →
      ∃ sys1, accept_socket fuel env sys (some sock) = some (sys1, some sock, none)
        ∧ sys1.last_error = sock_get_error (env.errno (sys.clock + 1))) := by
  refine ⟨fun raw hacc halloc => ?_, fun hacc => ?_⟩
  · obtain ⟨sys3, sock0, h1, h2, h3, h4, h5, h6, -, -, h9⟩ :=
      accept_socket_success fuel env sys sock raw hacc halloc
    refine ⟨sys3, sock0, h1, h2, h3, h4, h5, h6, h9, fun hq => ?_⟩
    obtain ⟨f1, g1, -⟩ := sock_reselect_idle_frame env sys3 sock0
    obtain ⟨⟨f2, -, -, -⟩, ⟨g2, g3, g4, -⟩, -⟩ := sock_reselect_idle_frame env
      (clear_error (sock_reselect_idle env sys3 sock0).1) { sock with
        pmask := sock.pmask &&& bnot32 FD_ACCEPT
        hmask := sock.hmask &&& bnot32 FD_ACCEPT }
    simp only at f2 g2 g3 g4
    rw [h9]
    simp only [sock_reselect_quiet _ env hq, Option.some_bind, Option.map_some']
    refine ⟨_, _, _, rfl, f1, g1, ?_, ?_, ?_, f2, g2⟩
    · rw [g4]; simp [-Nat.testBit_zero]
    · rw [g3]; simp [-Nat.testBit_zero]
    · intro k hk hne
      rw [g4, g3]
      have hne2 : ¬ (3 = k) := fun e => hne (by rw [← e]; rfl)
      simp [-Nat.testBit_zero, hk, hne2]
  · refine ⟨sock_set_error env (tick (log sys (Call.accept sock.fd (-1)))),
      by simp only [accept_socket, hacc, if_true], ?_⟩
    simp [sock_set_error, set_error]

/-- C12, amended, at a listener with an accept event pending and held. -/
theorem accept_socket_result_witness :
    ∃ sys1 l a, accept_socket 0 quiet_env idle_sys (some held_listener)
        = some (sys1, some l, some a)
      ∧ a.pmask = 0 ∧ a.hmask = 0 ∧ a.mask = held_listener.mask
      ∧ l.pmask &&& FD_ACCEPT = 0 ∧ l.hmask &&& FD_ACCEPT = 0
      ∧ l.state = held_listener.state := by
  obtain ⟨sys3, sock0, -, h2, -, h4, h5, -, -, h⟩ :=
    (accept_socket_result 0 quiet_env idle_sys held_listener).1 blank_sock (by decide) rfl
  obtain ⟨sys1, l, a, e, f, g, k1, k2, -, -, k5⟩ := h quiet_env_quiet
  exact ⟨sys1, l, a, e, g.2.2.1.trans h5, g.2.1.trans h4, f.1.trans h2, k1, k2, k5⟩

/-! ## Creating a socket -/

/-- C13, as stated, fails for a socket that is not a stream socket when the probe of its
first reselection reports a hangup: the close rule is applied before `create_socket`
returns, so the new socket has `FD_CLOSE` pending and neither `FD_READ` nor `FD_WRITE` in
its state. -/
theorem created_socket_with_close_pending :
    (create_socket 1 hangup_env idle_sys 2 SOCK_SEQPACKET 0 0).map
      (fun r => r.2.map (fun k => (k.pmask, k.state))) = some (some (FD_CLOSE, 0)) := by
  decide

/-- C13, amended. A `create_socket` whose native call succeeds and whose object is
allocated returns a socket with the descriptor and the flags given, no event, and
`mask = hmask = pmask = 0`: for `SOCK_STREAM` always, with state 0, not registered, and
with no call made but `socket`, `clear_error` and the initialisation of the queues; for
any other type when the probes report nothing, with state `FD_READ|FD_WRITE`. A
reselection of a socket that was never registered and whose state has no bit other than
`FD_WINE_NONBLOCKING` returns the collaborators and the socket as they were. When the
native call fails, no socket is produced and the translated error is reported. -/
theorem create_socket_result (fuel : Nat) (env : Env) (sys : Sys) (family type protocol : Int)
    (flags : Nat) :
    (∀ raw, env.socket sys.clock family type protocol ≠ -1 →
      env.alloc_object (sys.clock + 1) = some raw → type = SOCK_STREAM →
      ∃ sys1 sock1, create_socket fuel env sys family type protocol flags
          = some (sys1, some sock1)
        ∧ sock1.mask = 0 ∧ sock1.hmask = 0 ∧ sock1.pmask = 0 ∧ sock1.event = none
        ∧ sock1.state = 0 ∧ sock1.fd = env.socket sys.clock family type protocol
        ∧ sock1.flags = flags ∧ sock1.select = -1
        ∧ sys1.calls = sys.calls ++ Call.socket (env.socket sys.clock family type protocol)
            :: Call.clear_error :: (if flags &&& WSA_FLAG_OVERLAPPED ≠ 0
              then [Call.init_async_queue (env.socket sys.clock family type protocol),
                Call.init_async_queue (env.socket sys.clock family type protocol)]
              else []))
    ∧ (∀ raw, env.socket sys.clock family type protocol ≠ -1 →
      env.alloc_object (sys.clock + 1) = some raw → type ≠ SOCK_STREAM → quiet env →
      ∃ sys1 sock1, create_socket fuel env sys family type protocol flags
          = some (sys1, some sock1)
        ∧ sock1.mask = 0 ∧ sock1.hmask = 0 ∧ sock1.pmask = 0 ∧ sock1.event = none
        ∧ sock1.state = FD_READ ||| FD_WRITE
        ∧ sock1.fd = env.socket sys.clock family type protocol ∧ sock1.flags = flags)
    ∧ (∀ (sys0 : Sys) (sock : Sock), sock.select = -1 →
      sock.state &&& bnot32 FD_WINE_NONBLOCKING = 0 →
      sock_reselect fuel env sys0 sock = some (sys0, sock))
    ∧ (env.socket sys.clock family type protocol = -1 →
      ∃ sys1, create_socket fuel env sys family type protocol flags = some (sys1, none)
        ∧ sys1.last_error = sock_get_error (env.errno (sys.clock + 1))) := by
  refine ⟨fun raw hs ha ht => ?_, fun raw hs ha ht hq => ?_,
    fun sys0 sock h1 h2 => sock_reselect_inert fuel env sys0 sock h1 h2, fun hs => ?_⟩
  · subst ht
    have hin := sock_reselect_inert fuel env
      (tick (log sys (Call.socket (env.socket sys.clock family SOCK_STREAM protocol))))
      { fd := env.socket sys.clock family SOCK_STREAM protocol
        select := -1
        state := 0
        mask := 0
        hmask := 0
        pmask := 0
        flags := flags
        event := none
        errors := raw.errors } rfl (Nat.zero_and _)
    simp only [create_socket, hs, if_false, alloc_object, tick_clock, log_clock, ha,
      Option.map_some', ne_eq, not_true_eq_false, hin]
    refine ⟨_, _, rfl, rfl, rfl, rfl, rfl, rfl, rfl, rfl, rfl, ?_⟩
    split_ifs <;> simp [clear_error, log, tick]
  · obtain ⟨⟨f1, f2, f3, f4⟩, ⟨g1, g2, g3, -⟩, -⟩ := sock_reselect_idle_frame env
      (tick (log sys (Call.socket (env.socket sys.clock family type protocol))))
      { fd := env.socket sys.clock family type protocol
        select := -1
        state := FD_READ ||| FD_WRITE
        mask := 0
        hmask := 0
        pmask := 0
        flags := flags
        event := none
        errors := raw.errors }
    simp only [create_socket, hs, if_false, alloc_object, tick_clock, log_clock, ha,
      Option.map_some', ht, ne_eq, not_false_eq_true, if_true, sock_reselect_quiet _ env hq]
    exact ⟨_, _, rfl, f1, g2, g3, f2, g1, f3, f4⟩
  · refine ⟨sock_set_error env
      (tick (log sys (Call.socket (env.socket sys.clock family type protocol)))),
      by simp only [create_socket, hs, if_true], ?_⟩
    simp [sock_set_error, set_error]

/-- C13, amended, at a stream socket and at a datagram socket. -/
theorem create_socket_result_witness :
    (∃ sys1 sock1, create_socket 0 quiet_env idle_sys 2 SOCK_STREAM 0 0 = some (sys1, some sock1)
      ∧ sock1.pmask = 0 ∧ sock1.state = 0 ∧ sock1.select = -1)
    ∧ (∃ sys1 sock1, create_socket 0 quiet_env idle_sys 2 2 0 0 = some (sys1, some sock1)
      ∧ sock1.pmask = 0 ∧ sock1.state = FD_READ ||| FD_WRITE) := by
  obtain ⟨s, k, e, -, -, h3, -, h5, -, -, h8, -⟩ :=
    (create_socket_result 0 quiet_env idle_sys 2 SOCK_STREAM 0 0).1 blank_sock (by decide)
      rfl rfl
  obtain ⟨s2, k2, e2, -, -, j3, -, j5, -⟩ :=
    (create_socket_result 0 quiet_env idle_sys 2 2 0 0).2.1 blank_sock (by decide)
      rfl (by decide) quiet_env_quiet
  exact ⟨⟨s, k, e, h3, h5, h8⟩, ⟨s2, k2, e2, j3, j5⟩⟩

/-! ## The translation of OS errors -/

/-- C14. The function `sock_get_error` is a total function of the OS error number alone
(it takes no socket and returns no socket, so it changes no socket state): every code of
its table maps to the network error listed with it, which is never `ERROR_UNKNOWN`, and
every code that is not in the table maps to `ERROR_UNKNOWN`. -/
theorem sock_get_error_table :
    (∀ p ∈ errno_table, sock_get_error p.1 = p.2 ∧ sock_get_error p.1 ≠ ERROR_UNKNOWN)
    ∧ (∀ err : Int, (∀ p ∈ errno_table, p.1 ≠ err) → sock_get_error err = ERROR_UNKNOWN) := by
  refine ⟨by decide, ?_⟩
  intro err h
  simp only [errno_table, List.mem_cons, List.mem_singleton, forall_eq_or_imp, forall_eq,
    List.not_mem_nil, IsEmpty.forall_iff, forall_const, and_true] at h
  unfold sock_get_error
  simp only [ne_comm] at h
  simp [h]

/-- C14, at `ECONNREFUSED`, which is in the table, and at 0, which is not. -/
theorem sock_get_error_table_witness :
    sock_get_error ECONNREFUSED = WSAECONNREFUSED ∧ sock_get_error 0 = ERROR_UNKNOWN :=
  ⟨(sock_get_error_table.1 (ECONNREFUSED, WSAECONNREFUSED) (by decide)).1,
    sock_get_error_table.2 0 (by decide)⟩

/-! ## The phase invariant -/

/-- C15, as stated, fails through `enable_socket_event`, which applies the state bits of
its request: on a socket that `create_socket` returned, an acknowledge that sets both
flags leaves `FD_CONNECT` and `FD_WINE_LISTENING` both set; and after the acknowledge that
starts listening, the acknowledge that starts a connect clears `FD_WINE_LISTENING`. -/
theorem acknowledge_breaks_phase_invariant :
    ((create_socket 0 quiet_env idle_sys 2 SOCK_STREAM 0 0).bind (fun a =>
      (enable_socket_event 0 quiet_env a.1 a.2 both_phases_ack).map (fun b =>
        b.2.map (fun k => (k.state &&& FD_CONNECT, k.state &&& FD_WINE_LISTENING)))))
      = some (some (FD_CONNECT, FD_WINE_LISTENING))
    ∧ ((create_socket 0 quiet_env idle_sys 2 SOCK_STREAM 0 0).bind (fun a =>
      (enable_socket_event 0 quiet_env a.1 a.2 listen_ack).bind (fun b =>
        (enable_socket_event 0 quiet_env b.1 b.2 connect_ack).map (fun c =>
          (b.2.map (fun k => k.state &&& FD_WINE_LISTENING),
            c.2.map (fun k => k.state &&& FD_WINE_LISTENING))))))
      = some (some FD_WINE_LISTENING, some 0) := by
  decide

/-- C15, amended. In every socket record that comes from `create_socket` or
`accept_socket` by any sequence of `sock_poll_event`, `set_socket_event`,
`get_socket_event` and `accept_socket` calls with any arguments and of
`enable_socket_event` calls whose request keeps the phases, `FD_CONNECT` and
`FD_WINE_LISTENING` are not both set; each of these calls leaves `FD_WINE_LISTENING` set
when it was set. An `enable_socket_event` with any request returns the socket with
`FD_WINE_LISTENING` as the state bits of the request make it, and with `FD_CONNECT` only
if these bits have it. -/
theorem phase_invariant_of_reachable :
    (∀ sock, reachable sock → phase_invariant sock)
    ∧ (∀ a b, sock_step a b →
        a.state &&& FD_WINE_LISTENING ≠ 0 → b.state &&& FD_WINE_LISTENING ≠ 0)
    ∧ (∀ fuel env sys sys1 sock sock1 req,
        enable_socket_event fuel env sys (some sock) req = some (sys1, some sock1) →
        (sock1.state &&& FD_WINE_LISTENING ≠ 0
          ↔ ((sock.state ||| req.sstate) &&& bnot32 req.cstate) &&& FD_WINE_LISTENING ≠ 0)
        ∧ (sock1.state &&& FD_CONNECT ≠ 0
          → ((sock.state ||| req.sstate) &&& bnot32 req.cstate) &&& FD_CONNECT ≠ 0)) := by
  refine ⟨fun sock h => ?_, fun a b h => (sock_step_phase h).2,
    fun fuel env sys sys1 sock sock1 req h =>
      enable_socket_event_phase fuel env sys sys1 sock sock1 req h⟩
  induction h with
  | created h => exact fun hb => hb.1 (create_socket_phase _ _ _ _ _ _ _ _ _ h).2
  | accepted h => exact fun hb => hb.1 (accept_socket_phase _ _ _ _ _ _ _ h).2
  | step _ hs ih => exact (sock_step_phase hs).1 ih

/-- C15, amended, at a socket that `create_socket` returned and that has started to
listen. -/
theorem phase_invariant_of_reachable_witness :
    ∃ sys1 sock1 sys2 sock2,
      create_socket 0 quiet_env idle_sys 2 SOCK_STREAM 0 0 = some (sys1, some sock1)
      ∧ enable_socket_event 0 quiet_env sys1 (some sock1) listen_ack = some (sys2, some sock2)
      ∧ sock2.state &&& FD_WINE_LISTENING ≠ 0 ∧ phase_invariant sock2 := by
  obtain ⟨sys1, sock1, e1⟩ : ∃ s k,
      create_socket 0 quiet_env idle_sys 2 SOCK_STREAM 0 0 = some (s, some k) := ⟨_, _, rfl⟩
  obtain ⟨sys2, sock2, e2, -, hst, -⟩ :=
    enable_socket_event_quiet 0 quiet_env sys1 sock1 listen_ack quiet_env_quiet
  have hk : keeps_phase sock1 listen_ack := by
    unfold keeps_phase
    simp [-Nat.testBit_zero, listen_ack]
  have hl : sock2.state &&& FD_WINE_LISTENING ≠ 0 := by
    rw [hst]
    simp [-Nat.testBit_zero, listen_ack]
  exact ⟨sys1, sock1, sys2, sock2, e1, e2, hl,
    phase_invariant_of_reachable.1 sock2
      (reachable.step (reachable.created e1) (sock_step.acknowledge hk e2))⟩

/-! ## The registered interest after a reselection -/

/-- C16, as stated, fails when the probe of the reselection reports an error: the nested
`sock_poll_event` disables the registration after the interest has been stored, so
`sock_reselect` returns with -1 registered, while `sock_get_poll_events` gives 0 on the
socket it returns. -/
theorem nested_error_disables_registration :
    (sock_reselect 1 failing_env idle_sys connected_sock).map
      (fun p => (registered_interest p.1.calls p.2.fd, sock_get_poll_events p.2))
      = some (some (-1), 0) := by
  decide

/-- C16, amended. When `sock_reselect` returns, whatever the probes report: either the
socket was neither registered nor in need of it, and nothing has changed; or the
registration is disabled, by an earlier call or by a nested `sock_poll_event`; or the
registered interest is `sock_get_poll_events` of the socket returned. A second
`sock_reselect` whose probe reports nothing returns the same socket and leaves the same
registered interest. When the probes report nothing, `sock_reselect` returns with the
event state as it was, and, for a socket that is registered or has to be and whose
registration has not been disabled, with `sock_get_poll_events` of the socket as the
registered interest. -/
theorem sock_reselect_registers (fuel : Nat) (env : Env) (sys : Sys) (sock : Sock) :
    (∀ p, sock_reselect fuel env sys sock = some p →
      ((sock.select = -1 ∧ sock.state &&& bnot32 FD_WINE_NONBLOCKING = 0 ∧ p = (sys, sock))
        ∨ registered_interest p.1.calls p.2.fd = some (-1)
        ∨ registered_interest p.1.calls p.2.fd = some (sock_get_poll_events p.2 : Int))
      ∧ (env.poll p.1.clock p.2.fd (sock_get_poll_events p.2) = 0 → ∀ fuel2,
          ∃ sys2, sock_reselect fuel2 env p.1 p.2 = some (sys2, p.2)
            ∧ registered_interest sys2.calls p.2.fd = registered_interest p.1.calls p.2.fd))
    ∧ (quiet env →
      ∃ p, sock_reselect fuel env sys sock = some p ∧ same_event_state p.2 sock
        ∧ (sock.select ≠ -1 ∨ sock.state &&& bnot32 FD_WINE_NONBLOCKING ≠ 0 →
            registered_interest sys.calls sock.fd ≠ some (-1) →
            registered_interest p.1.calls p.2.fd = some (sock_get_poll_events p.2 : Int))) := by
  refine ⟨fun p h => ?_, fun hq => ?_⟩
  · rcases sock_reselect_settles fuel env sys sock p h with ⟨a, b, c⟩ | ⟨a, b⟩
    · refine ⟨Or.inl ⟨a, b, c⟩, fun _ fuel2 => ⟨sys, ?_, ?_⟩⟩
      · rw [c]; exact sock_reselect_inert fuel2 env sys sock a b
      · rw [c]
    · exact ⟨Or.inr a, fun hp fuel2 => sock_reselect_settled_again fuel2 env p.1 p.2 b a hp⟩
  · refine ⟨sock_reselect_idle env sys sock, sock_reselect_quiet fuel env hq sys sock,
      (sock_reselect_idle_frame env sys sock).2.1, fun hreg hdis => ?_⟩
    have hinert : ¬ (sock.select = -1 ∧ ¬ (sock.state &&& bnot32 FD_WINE_NONBLOCKING ≠ 0)) :=
      fun hc => hreg.elim (fun h => h hc.1) (fun h => hc.2 h)
    simp only [sock_reselect_idle, if_neg hinert]
    by_cases hsel : sock.select = -1
    · simp only [if_pos hsel, add_select_user, set_select_events]
      show registered_interest (log (log (log sys _) (Call.set_select_events sock.fd _)) _).calls
        sock.fd = _
      rw [registered_interest_log, registered_interest_log, registered_interest_log]
      simp [interest_step, hdis]
      rfl
    · simp only [if_neg hsel, set_select_events]
      show registered_interest (log (log sys (Call.set_select_events sock.fd _)) _).calls
        sock.fd = _
      rw [registered_interest_log, registered_interest_log]
      simp [interest_step, hdis]

/-- C16, amended, at a connected socket in the quiet environment. -/
theorem sock_reselect_registers_witness :
    ∃ p, sock_reselect 0 quiet_env idle_sys connected_sock = some p
      ∧ registered_interest p.1.calls p.2.fd = some (sock_get_poll_events p.2 : Int) := by
  obtain ⟨p, hp, -, h⟩ :=
    (sock_reselect_registers 0 quiet_env idle_sys connected_sock).2 quiet_env_quiet
  exact ⟨p, hp, h (Or.inl (by decide)) (by decide)⟩

/-! ## The writable and the priority rule -/

/-- C17, as stated, fails when the peek finds the end of the stream: a connected socket
that is reported readable and writable at once, or readable with priority data, is left
with neither `FD_WRITE` nor `FD_OOB` pending or held, because the readiness has been
replaced by `POLLHUP` before the two rules are looked at. -/
theorem eof_peek_drops_writable :
    (sock_poll_event 1 eof_env idle_sys connected_sock (POLLIN ||| POLLOUT)).map
        (fun p => (p.2.pmask &&& FD_WRITE, p.2.hmask &&& FD_WRITE)) = some (0, 0)
    ∧ (sock_poll_event 1 eof_env idle_sys connected_sock (POLLIN ||| POLLPRI)).map
        (fun p => (p.2.pmask &&& FD_OOB, p.2.hmask &&& FD_OOB)) = some (0, 0) := by
  decide

/-- C17, amended. For every normal-phase socket and every readiness, whatever other bits
are set with it, unless the readiness has `POLLIN` and the peek finds the end of the
stream: what `sock_poll_event` returns, whatever the probes report, has `FD_WRITE`
pending and held with error 0 when the readiness has `POLLOUT`, has `FD_OOB` pending and
held with error 0 when it has `POLLPRI`, and has `FD_READ` pending and held when it has
`POLLIN`. The function returns when the probes of the reselection report nothing. -/
theorem writable_and_priority_rules (fuel : Nat) (env : Env) (sys : Sys) (sock : Sock)
    (event : Nat) (hc : sock.state &&& FD_CONNECT = 0)
    (hl : sock.state &&& FD_WINE_LISTENING = 0) (hlen : sock.errors.length = FD_MAX_EVENTS)
    (hpeek : ¬ (event &&& POLLIN ≠ 0 ∧ env.recv_peek sys.clock sock.fd = 0)) :
    (∀ p, sock_poll_event fuel env sys sock event = some p →
      (event &&& POLLOUT ≠ 0 → p.2.pmask &&& FD_WRITE ≠ 0 ∧ p.2.hmask &&& FD_WRITE ≠ 0
        ∧ p.2.errors[FD_WRITE_BIT]? = some 0)
      ∧ (event &&& POLLPRI ≠ 0 → p.2.pmask &&& FD_OOB ≠ 0 ∧ p.2.hmask &&& FD_OOB ≠ 0
        ∧ p.2.errors[FD_OOB_BIT]? = some 0)
      ∧ (event &&& POLLIN ≠ 0 → p.2.pmask &&& FD_READ ≠ 0 ∧ p.2.hmask &&& FD_READ ≠ 0))
    ∧ (quiet env → ∃ p, sock_poll_event (fuel + 1) env sys sock event = some p) := by
  refine ⟨fun p h => ?_, fun hq => ⟨_, sock_poll_event_quiet fuel env hq sys sock event⟩⟩
  obtain ⟨a, b, c⟩ := sock_poll_event_normal_rules fuel env sys sock event p hc hl hpeek h
  exact ⟨fun h => ⟨(b h).1, (b h).2.1, (b h).2.2 hlen⟩,
    fun h => ⟨(c h).1, (c h).2.1, (c h).2.2 hlen⟩, a⟩

/-- C17, amended, at a connected socket reported readable and writable at once. -/
theorem writable_and_priority_rules_witness :
    ∃ p, sock_poll_event 1 quiet_env idle_sys connected_sock (POLLIN ||| POLLOUT) = some p
      ∧ p.2.pmask &&& FD_WRITE ≠ 0 ∧ p.2.hmask &&& FD_WRITE ≠ 0
      ∧ p.2.errors[FD_WRITE_BIT]? = some 0 := by
  obtain ⟨p, hp⟩ := (writable_and_priority_rules 0 quiet_env idle_sys connected_sock
    (POLLIN ||| POLLOUT) (by decide) (by decide) (by decide) (by decide)).2 quiet_env_quiet
  exact ⟨p, hp, ((writable_and_priority_rules 1 quiet_env idle_sys connected_sock
    (POLLIN ||| POLLOUT) (by decide) (by decide) (by decide) (by decide)).1 p hp).1 (by decide)⟩

/-! ## The close rule -/

/-- C18. For every normal-phase socket and every readiness, the state update of
`sock_poll_event` applies the close rule exactly when the state has `FD_READ` or
`FD_WRITE` and the readiness after the peek has `POLLERR`, or `POLLHUP` without `POLLIN`:
then `FD_CLOSE` is pending, the three state bits are cleared and the error of `FD_CLOSE`
is the translated `SO_ERROR`; otherwise the `FD_CLOSE` bit of `pmask`, the state and the
error of `FD_CLOSE` are as they were. Whatever the probes report, `FD_CLOSE` is held in
what `sock_poll_event` returns only if it was held before; and when the probes report
nothing the function returns the result of the update. -/
theorem close_rule_condition (env : Env) (sys : Sys) (sock : Sock) (event : Nat)
    (hc : sock.state &&& FD_CONNECT = 0) (hl : sock.state &&& FD_WINE_LISTENING = 0)
    (hlen : sock.errors.length = FD_MAX_EVENTS) :
    (close_rule_applies sock.state (readiness_after_peek env sys sock event) →
        (sock_poll_event_update env sys sock event).2.1.pmask &&& FD_CLOSE ≠ 0
        ∧ (sock_poll_event_update env sys sock event).2.1.state
            = sock.state &&& bnot32 (FD_WINE_CONNECTED ||| FD_READ ||| FD_WRITE)
        ∧ (sock_poll_event_update env sys sock event).2.1.errors[FD_CLOSE_BIT]?
            = some (translated_so_error env
                (if event &&& POLLIN ≠ 0 then sys.clock + 1 else sys.clock) sock.fd))
    ∧ (¬ close_rule_applies sock.state (readiness_after_peek env sys sock event) →
        ((sock_poll_event_update env sys sock event).2.1.pmask &&& FD_CLOSE ≠ 0
          ↔ sock.pmask &&& FD_CLOSE ≠ 0)
        ∧ (sock_poll_event_update env sys sock event).2.1.state = sock.state
        ∧ (sock_poll_event_update env sys sock event).2.1.errors[FD_CLOSE_BIT]?
            = sock.errors[FD_CLOSE_BIT]?)
    ∧ (∀ fuel p, sock_poll_event fuel env sys sock event = some p →
        (p.2.hmask &&& FD_CLOSE ≠ 0 ↔ sock.hmask &&& FD_CLOSE ≠ 0))
    ∧ (quiet env → ∀ fuel, ∃ p, sock_poll_event (fuel + 1) env sys sock event = some p
        ∧ same_event_state p.2 (sock_poll_event_update env sys sock event).2.1) := by
  obtain ⟨-, a, b⟩ := sock_poll_event_update_close env sys sock event hc hl
  refine ⟨fun h => ⟨(a h).1, (a h).2.1, (a h).2.2 hlen⟩, b, fun fuel p h => (sock_poll_event_grows env fuel sys sock event p h).2.2.1,
    fun hq fuel => ⟨_, sock_poll_event_quiet fuel env hq sys sock event,
      (sock_poll_event_idle_frame env sys sock event).2⟩⟩

/-- C18, at a hangup on a connected socket and at a readable readiness with data. -/
theorem close_rule_condition_witness :
    (sock_poll_event_update quiet_env idle_sys connected_sock POLLHUP).2.1.pmask &&& FD_CLOSE ≠ 0
    ∧ (sock_poll_event_update quiet_env idle_sys connected_sock POLLIN).2.1.state
        = connected_sock.state :=
  ⟨((close_rule_condition quiet_env idle_sys connected_sock POLLHUP (by decide) (by decide)
      (by decide)).1 ⟨by decide, Or.inr ⟨by decide, by decide⟩⟩).1,
    ((close_rule_condition quiet_env idle_sys connected_sock POLLIN (by decide) (by decide)
      (by decide)).2.1 (fun h => by
        rcases h.2 with h1 | h1
        · exact absurd h1 (by decide)
        · exact absurd h1.1 (by decide))).2.1⟩

/-! ## Registration after a readiness notification -/

/-- C19, as stated, fails on a readable readiness whose peek finds the end of the stream:
the readiness passed in has neither `POLLERR` nor `POLLHUP`, and the invocation disables
the registration and makes no reselection. -/
theorem eof_readable_disables_registration :
    POLLIN &&& (POLLERR ||| POLLHUP) = 0
    ∧ (sock_poll_event 1 eof_env idle_sys connected_sock POLLIN).map (fun p => p.1.calls)
      = some [Call.recv_peek 3 0, Call.getsockopt_so_error 3 0,
          Call.set_select_events 3 (-1), Call.wake_up 3] := by
  decide

/-- C19, amended. For every socket and every invocation of `sock_poll_event`: when the
readiness passed in has `POLLERR` or `POLLHUP`, or the socket is in the normal phase and
the readiness has `POLLIN` with a peek that finds the end of the stream, the function
returns the updated socket after a `set_select_events` with -1 followed by nothing but
the `set_event` and the wakeup, so without a reselection; in every other case the function
continues with `sock_reselect` on the updated socket, and when the probes report nothing
it returns without a `set_select_events` with -1 among its calls. -/
theorem registration_after_event (fuel : Nat) (env : Env) (sys : Sys) (sock : Sock)
    (event : Nat) :
    (disables_registration env sys sock event →
      ∃ p tail, sock_poll_event (fuel + 1) env sys sock event = some p
        ∧ p.2 = (sock_poll_event_update env sys sock event).2.1
        ∧ p.1.calls = (sock_poll_event_update env sys sock event).1.calls
            ++ Call.set_select_events sock.fd (-1) :: tail
        ∧ ∀ c ∈ tail, c = Call.set_event sock.event ∨ c = Call.wake_up sock.fd)
    ∧ (¬ disables_registration env sys sock event →
      sock_poll_event (fuel + 1) env sys sock event
        = (sock_reselect fuel env (sock_poll_event_update env sys sock event).1
            (sock_poll_event_update env sys sock event).2.1).map
          (fun q => (sock_poll_event_wake q.1 q.2, q.2)))
    ∧ (¬ disables_registration env sys sock event → quiet env →
      ∃ p added, sock_poll_event (fuel + 1) env sys sock event = some p
        ∧ p.1.calls = (sock_poll_event_update env sys sock event).1.calls ++ added
        ∧ Call.set_select_events sock.fd (-1) ∉ added) := by
  obtain ⟨⟨-, hev, hfd, -⟩, -, -⟩ := sock_poll_event_update_frame env sys sock event
  refine ⟨fun hd => ?_, fun hd => ?_, fun hd hq => ?_⟩
  · have hc := (sock_poll_event_update_disables env sys sock event).mpr hd
    obtain ⟨tail, h1, h2⟩ := sock_poll_event_wake_trace
      (set_select_events (sock_poll_event_update env sys sock event).1
        (sock_poll_event_update env sys sock event).2.1 (-1))
      (sock_poll_event_update env sys sock event).2.1
    refine ⟨(sock_poll_event_wake
        (set_select_events (sock_poll_event_update env sys sock event).1
          (sock_poll_event_update env sys sock event).2.1 (-1))
        (sock_poll_event_update env sys sock event).2.1,
      (sock_poll_event_update env sys sock event).2.1), tail,
      by simp only [sock_poll_event, if_pos hc, Option.map_some'], rfl, ?_, ?_⟩
    · rw [h1]
      simp [set_select_events, log, hfd]
    · intro c hc2
      rw [← hev, ← hfd]
      exact h2 c hc2
  · have hc := fun h => hd ((sock_poll_event_update_disables env sys sock event).mp h)
    simp only [sock_poll_event, if_neg hc, sock_reselect]
  · have hc := fun h => hd ((sock_poll_event_update_disables env sys sock event).mp h)
    obtain ⟨added, h1, h2⟩ := sock_reselect_idle_trace env
      (sock_poll_event_update env sys sock event).1 (sock_poll_event_update env sys sock event).2.1
    obtain ⟨tail, h3, h4⟩ := sock_poll_event_wake_trace
      (sock_reselect_idle env (sock_poll_event_update env sys sock event).1
        (sock_poll_event_update env sys sock event).2.1).1
      (sock_reselect_idle env (sock_poll_event_update env sys sock event).1
        (sock_poll_event_update env sys sock event).2.1).2
    refine ⟨(sock_poll_event_wake
        (sock_reselect_idle env (sock_poll_event_update env sys sock event).1
          (sock_poll_event_update env sys sock event).2.1).1
        (sock_reselect_idle env (sock_poll_event_update env sys sock event).1
          (sock_poll_event_update env sys sock event).2.1).2,
      (sock_reselect_idle env (sock_poll_event_update env sys sock event).1
        (sock_poll_event_update env sys sock event).2.1).2), added ++ tail, ?_, ?_, ?_⟩
    · simp only [sock_poll_event, if_neg hc, sock_reselect_body_quiet _ env hq,
        Option.map_some']
    · show (sock_poll_event_wake _ _).calls = _
      rw [h3, h1, List.append_assoc]
    · intro hm
      rcases List.mem_append.mp hm with hm | hm
      · rcases h2 _ hm with h | h | h
        · cases h
        · simp only [Call.set_select_events.injEq] at h
          omega
        · cases h
      · rcases h4 _ hm with h | h <;> cases h

/-- C19, amended, at a hangup on a connected socket. -/
theorem registration_after_event_witness :
    ∃ p tail, sock_poll_event 1 quiet_env idle_sys connected_sock POLLHUP = some p
      ∧ p.2 = (sock_poll_event_update quiet_env idle_sys connected_sock POLLHUP).2.1
      ∧ p.1.calls = (sock_poll_event_update quiet_env idle_sys connected_sock POLLHUP).1.calls
          ++ Call.set_select_events connected_sock.fd (-1) :: tail
      ∧ ∀ c ∈ tail, c = Call.set_event connected_sock.event
          ∨ c = Call.wake_up connected_sock.fd :=
  (registration_after_event 0 quiet_env idle_sys connected_sock POLLHUP).1
    (Or.inl (by decide))

/-! ## Termination of the reselection -/

/-- C20, at an input on which the code does not terminate. The environment answers every
probe with the bits of the requested interest that urgent data satisfies, the same at
every moment, so it is a readiness oracle of the claim; on a connected socket subscribed
to `FD_READ`, `sock_reselect` runs out of fuel whatever the fuel: every nested
`sock_poll_event` holds `FD_OOB`, which `sock_get_poll_events` does not look at, and
finds `POLLPRI` reported again. -/
theorem urgent_data_reselect_diverges :
    answers_within_interest urgent_env ∧ answers_stable urgent_env
    ∧ ∀ fuel sys, sock_reselect fuel urgent_env sys connected_sock = none := by
  refine ⟨fun t fd ev => ?_, fun _ _ _ _ => rfl, fun fuel sys => ?_⟩
  · show (ev &&& POLLPRI) &&& (ev ||| POLLERR ||| POLLHUP) = ev &&& POLLPRI
    apply Nat.eq_of_testBit_eq
    intro i
    simp only [Nat.testBit_and, Nat.testBit_or]
    cases ev.testBit i <;> simp
  · exact sock_reselect_body_urgent (sock_poll_event fuel urgent_env)
      (sock_poll_event_urgent fuel) sys connected_sock
      ⟨by decide, by decide, by decide⟩

/-! ## Termination for oracles that report priority data with readable data -/

theorem nesting_measure_le_two (sock : Sock) (hc : sock.state &&& FD_CONNECT = 0) :
    nesting_measure sock ≤ 2 := by
  unfold nesting_measure
  rw [if_neg (by simpa using hc)]
  split_ifs <;> omega

/-- A probe answer has one of the bits of the interest, `POLLERR` or `POLLHUP`. -/
theorem probe_answer_bit (sock : Sock) (revents : Nat) (h : probe_answer sock revents) :
    ∃ i, revents.testBit i = true
      ∧ ((sock_get_poll_events sock).testBit i = true ∨ i = 3 ∨ i = 4) := by
  obtain ⟨h0, h1, -⟩ := h
  obtain ⟨i, hi⟩ := Nat.ne_zero_implies_bit_true h0
  refine ⟨i, hi, ?_⟩
  have h2 := congrArg (fun x => x.testBit i) h1
  simp only [Nat.testBit_and, Nat.testBit_or, hi, Bool.true_and, testBit_POLLERR,
    testBit_POLLHUP, Bool.or_eq_true, decide_eq_true_eq] at h2
  rcases h2 with (h2 | h2) | h2
  · exact Or.inl h2
  · exact Or.inr (Or.inl h2.symm)
  · exact Or.inr (Or.inr h2.symm)

theorem land_err_hup_of_bit (event i : Nat) (hi : event.testBit i = true)
    (h : i = 3 ∨ i = 4) : event &&& (POLLERR ||| POLLHUP) ≠ 0 := by
  rcases h with rfl | rfl <;> simp [-Nat.testBit_zero, hi]

/-- The state update on a probe answer either ends with a readiness that disables the
registration or lowers the measure: the connecting phase. -/
theorem sock_poll_event_update_step_connecting (env : Env) (sys : Sys) (sock : Sock)
    (event : Nat) (hc : sock.state &&& FD_CONNECT ≠ 0) (h : probe_answer sock event) :
    (sock_poll_event_update env sys sock event).2.2 &&& (POLLERR ||| POLLHUP) ≠ 0
    ∨ nesting_measure (sock_poll_event_update env sys sock event).2.1
        < nesting_measure sock := by
  obtain ⟨i, hi, hM⟩ := probe_answer_bit sock event h
  have hg : sock_get_poll_events sock = POLLOUT := by
    unfold sock_get_poll_events
    rw [if_pos hc]
  have hm : nesting_measure sock = 3 := by
    unfold nesting_measure
    rw [if_pos hc]
  rw [hg, testBit_POLLOUT, decide_eq_true_eq] at hM
  by_cases hout : event &&& POLLOUT ≠ 0
  · right
    rw [sock_poll_event_update_connecting_pollout env sys sock event hc hout, hm]
    have := nesting_measure_le_two { sock with
      state := (sock.state ||| (FD_WINE_CONNECTED ||| FD_READ ||| FD_WRITE))
        &&& bnot32 FD_CONNECT
      pmask := sock.pmask ||| FD_CONNECT
      errors := sock.errors.set FD_CONNECT_BIT 0 } (by simp [-Nat.testBit_zero])
    exact Nat.lt_of_le_of_lt this (by decide)
  · left
    have hne : event.testBit 2 = false := by simpa using hout
    have h34 : i = 3 ∨ i = 4 := by
      rcases hM with h2 | h34
      · rw [← h2, hne] at hi; cases hi
      · exact h34
    rw [sock_poll_event_update_event, if_neg (fun hn => hc hn.1)]
    exact land_err_hup_of_bit event i hi h34

/-- The same in the listening phase. -/
theorem sock_poll_event_update_step_listening (env : Env) (sys : Sys) (sock : Sock)
    (event : Nat) (hc : sock.state &&& FD_CONNECT = 0)
    (hl : sock.state &&& FD_WINE_LISTENING ≠ 0) (h : probe_answer sock event) :
    (sock_poll_event_update env sys sock event).2.2 &&& (POLLERR ||| POLLHUP) ≠ 0
    ∨ nesting_measure (sock_poll_event_update env sys sock event).2.1
        < nesting_measure sock := by
  obtain ⟨i, hi, hM⟩ := probe_answer_bit sock event h
  rw [sock_get_poll_events_listening sock hc hl] at hM
  by_cases hin : event &&& POLLIN ≠ 0
  · by_cases hheld : sock.hmask &&& FD_ACCEPT ≠ 0
    · left
      rw [if_pos hheld, Nat.zero_testBit] at hM
      rw [sock_poll_event_update_event, if_neg (fun hn => hl hn.2)]
      exact land_err_hup_of_bit event i hi (hM.elim (fun x => by cases x) id)
    · right
      rw [sock_poll_event_update_listening_pollin env sys sock event hc hl hin]
      have hc2 : ¬ (sock.state &&& FD_CONNECT ≠ 0) := fun x => x hc
      have hh : (sock.hmask ||| FD_ACCEPT) &&& FD_ACCEPT ≠ 0 := by simp [-Nat.testBit_zero]
      simp only [nesting_measure, if_neg hc2, if_pos hl, if_neg hheld, if_pos hh]
      decide
  · left
    have hne : event.testBit 0 = false := by simpa [-Nat.testBit_zero] using hin
    have h34 : i = 3 ∨ i = 4 := by
      rcases hM with h2 | h34
      · split_ifs at h2
        · rw [Nat.zero_testBit] at h2; cases h2
        · rw [testBit_POLLIN, decide_eq_true_eq] at h2
          rw [← h2, hne] at hi; cases hi
      · exact h34
    rw [sock_poll_event_update_event, if_neg (fun hn => hl hn.2)]
    exact land_err_hup_of_bit event i hi h34

/-- In the normal phase, when the readiness is not rewritten by the peek, the state
update holds `FD_READ` on `POLLIN` and `FD_WRITE` on `POLLOUT`. -/
theorem sock_poll_event_update_normal_held (env : Env) (sys : Sys) (sock : Sock)
    (event : Nat) (hc : sock.state &&& FD_CONNECT = 0)
    (hl : sock.state &&& FD_WINE_LISTENING = 0)
    (hpeek : ¬ (event &&& POLLIN ≠ 0 ∧ env.recv_peek sys.clock sock.fd = 0)) :
    (event &&& POLLIN ≠ 0 →
      (sock_poll_event_update env sys sock event).2.1.hmask &&& FD_READ ≠ 0)
    ∧ (event &&& POLLOUT ≠ 0 →
      (sock_poll_event_update env sys sock event).2.1.hmask &&& FD_WRITE ≠ 0) := by
  rw [sock_poll_event_update_normal_eq env sys sock event hc hl]
  simp only [sock_poll_event_normal]
  have he := (sock_poll_event_pollin_event env sys sock event).1
  rw [if_neg hpeek] at he
  rw [he]
  have g2 := sock_poll_event_pollout_grows (sock_poll_event_pollin env sys sock event).2.1 event
  have g3 := sock_poll_event_pollpri_grows
    (sock_poll_event_pollout (sock_poll_event_pollin env sys sock event).2.1 event) event
  have g4 := sock_poll_event_close_grows env (sock_poll_event_pollin env sys sock event).1
    (sock_poll_event_pollpri
      (sock_poll_event_pollout (sock_poll_event_pollin env sys sock event).2.1 event) event) event
  refine ⟨fun hin => ?_, fun hout => ?_⟩
  · have hd : env.recv_peek sys.clock sock.fd ≠ 0 := fun e => hpeek ⟨hin, e⟩
    exact (grows_from_keeps (grows_from_trans g2 (grows_from_trans g3 g4)) FD_READ 0
      (by omega)).2.1 (sock_poll_event_pollin_data env sys sock event hin hd).2
  · exact (grows_from_keeps (grows_from_trans g3 g4) FD_WRITE 0 (by omega)).2.1
      (sock_poll_event_pollout_fires _ event hout).2.1

/-- The measure in the normal phase. -/
theorem nesting_measure_normal (sock : Sock) (hc : sock.state &&& FD_CONNECT = 0)
    (hl : sock.state &&& FD_WINE_LISTENING = 0) :
    nesting_measure sock
      = (if sock.mask.testBit 0 = true ∧ sock.state.testBit 0 = true
            ∧ sock.hmask.testBit 0 = false then 1 else 0)
        + (if sock.mask.testBit 1 = true ∧ sock.state.testBit 1 = true
            ∧ sock.hmask.testBit 1 = false then 1 else 0) := by
  unfold nesting_measure
  rw [if_neg (by simpa using hc), if_neg (by simpa using hl)]
  simp [-Nat.testBit_zero]

/-- The interest in the normal phase, bit by bit. -/
theorem sock_get_poll_events_normal_bit (sock : Sock) (hc : sock.state &&& FD_CONNECT = 0)
    (hl : sock.state &&& FD_WINE_LISTENING = 0) (i : Nat)
    (h : (sock_get_poll_events sock).testBit i = true) :
    ((i = 0 ∨ i = 1) ∧ sock.mask.testBit 0 = true ∧ sock.state.testBit 0 = true
      ∧ sock.hmask.testBit 0 = false)
    ∨ (i = 2 ∧ sock.mask.testBit 1 = true ∧ sock.state.testBit 1 = true
      ∧ sock.hmask.testBit 1 = false) := by
  unfold sock_get_poll_events at h
  rw [if_neg (by simpa using hc), if_neg (by simpa using hl)] at h
  simp only [ne_eq, land_FD_READ, land_FD_WRITE, Nat.testBit_and, testBit_bnot32,
    Bool.not_eq_false] at h
  split_ifs at h with hw hr hr
  · simp only [Nat.testBit_or, Nat.zero_testBit, testBit_POLLIN, testBit_POLLPRI,
      testBit_POLLOUT, Bool.false_or, Bool.or_eq_true, decide_eq_true_eq] at h
    simp [-Nat.testBit_zero] at hw hr
    rcases h with (h | h) | h
    · exact Or.inl ⟨Or.inl h.symm, hr.1.1, hr.1.2, hr.2⟩
    · exact Or.inl ⟨Or.inr h.symm, hr.1.1, hr.1.2, hr.2⟩
    · exact Or.inr ⟨h.symm, hw.1.1, hw.1.2, hw.2⟩
  · simp only [Nat.testBit_or, Nat.zero_testBit, testBit_POLLOUT, Bool.false_or,
      decide_eq_true_eq] at h
    simp [-Nat.testBit_zero] at hw
    exact Or.inr ⟨h.symm, hw.1.1, hw.1.2, hw.2⟩
  · simp only [Nat.testBit_or, Nat.zero_testBit, testBit_POLLIN, testBit_POLLPRI,
      Bool.false_or, Bool.or_eq_true, decide_eq_true_eq] at h
    simp [-Nat.testBit_zero] at hr
    rcases h with h | h
    · exact Or.inl ⟨Or.inl h.symm, hr.1.1, hr.1.2, hr.2⟩
    · exact Or.inl ⟨Or.inr h.symm, hr.1.1, hr.1.2, hr.2⟩
  · rw [Nat.zero_testBit] at h
    cases h

/-- The same in the normal phase. -/
theorem sock_poll_event_update_step_normal (env : Env) (sys : Sys) (sock : Sock)
    (event : Nat) (hc : sock.state &&& FD_CONNECT = 0)
    (hl : sock.state &&& FD_WINE_LISTENING = 0) (h : probe_answer sock event) :
    (sock_poll_event_update env sys sock event).2.2 &&& (POLLERR ||| POLLHUP) ≠ 0
    ∨ nesting_measure (sock_poll_event_update env sys sock event).2.1
        < nesting_measure sock := by
  by_cases hd : disables_registration env sys sock event
  · exact Or.inl ((sock_poll_event_update_disables env sys sock event).mpr hd)
  right
  have herr : event &&& (POLLERR ||| POLLHUP) = 0 := by
    by_contra hne
    exact hd (Or.inl hne)
  have hpeek : ¬ (event &&& POLLIN ≠ 0 ∧ env.recv_peek sys.clock sock.fd = 0) :=
    fun x => hd (Or.inr ⟨hc, hl, x.1, x.2⟩)
  obtain ⟨i, hi, hM⟩ := probe_answer_bit sock event h
  have hg : (sock_get_poll_events sock).testBit i = true := by
    rcases hM with hM | hM
    · exact hM
    · exact absurd herr (land_err_hup_of_bit event i hi hM)
  -- the update leaves the mask and the state as they are and only adds to the held set
  have hmask : (sock_poll_event_update env sys sock event).2.1.mask = sock.mask :=
    (sock_poll_event_update_frame env sys sock event).1.1
  have hre : readiness_after_peek env sys sock event = event := by
    unfold readiness_after_peek
    rw [if_neg hpeek]
  have hcl : ¬ close_rule_applies sock.state (readiness_after_peek env sys sock event) := by
    rw [hre]
    intro x
    simp only [land_lor_eq_zero] at herr
    rcases x.2 with y | y
    · exact y herr.1
    · exact y.1 herr.2
  have hstate : (sock_poll_event_update env sys sock event).2.1.state = sock.state :=
    ((sock_poll_event_update_close env sys sock event hc hl).2.2 hcl).2.1
  have hgrow := (sock_poll_event_update_grows env sys sock event).2.1
  obtain ⟨hin, hout⟩ := sock_poll_event_update_normal_held env sys sock event hc hl hpeek
  rw [nesting_measure_normal sock hc hl,
    nesting_measure_normal _ (by rw [hstate]; exact hc) (by rw [hstate]; exact hl),
    hmask, hstate]
  have k0 : (sock_poll_event_update env sys sock event).2.1.hmask.testBit 0 = false →
      sock.hmask.testBit 0 = false := by
    intro x
    by_contra y
    rw [hgrow 0 (by simpa using y)] at x
    cases x
  have k1 : (sock_poll_event_update env sys sock event).2.1.hmask.testBit 1 = false →
      sock.hmask.testBit 1 = false := by
    intro x
    by_contra y
    rw [hgrow 1 (by simpa using y)] at x
    cases x
  simp only [ne_eq, land_POLLIN, land_POLLOUT, land_FD_READ, land_FD_WRITE,
    Bool.not_eq_false] at hin hout
  rcases sock_get_poll_events_normal_bit sock hc hl i hg with ⟨hi01, a, b, c⟩ | ⟨hi2, a, b, c⟩
  · have hev : event.testBit 0 = true := by
      rcases hi01 with rfl | rfl
      · exact hi
      · have := h.2.2 (by simpa [-Nat.testBit_zero] using hi)
        simpa [-Nat.testBit_zero] using this
    have hheld := hin hev
    have hR : sock.mask.testBit 0 = true ∧ sock.state.testBit 0 = true
        ∧ sock.hmask.testBit 0 = false := ⟨a, b, c⟩
    have hR2 : ¬ (sock.mask.testBit 0 = true ∧ sock.state.testBit 0 = true
        ∧ (sock_poll_event_update env sys sock event).2.1.hmask.testBit 0 = false) :=
      fun x => by rw [hheld] at x; exact Bool.noConfusion x.2.2
    simp only [if_pos hR, if_neg hR2]
    split_ifs with x y
    · omega
    · exact absurd ⟨x.1, x.2.1, k1 x.2.2⟩ y
    · omega
    · omega
  · have hev : event.testBit 2 = true := by rw [← hi2]; exact hi
    have hheld := hout hev
    have hW : sock.mask.testBit 1 = true ∧ sock.state.testBit 1 = true
        ∧ sock.hmask.testBit 1 = false := ⟨a, b, c⟩
    have hW2 : ¬ (sock.mask.testBit 1 = true ∧ sock.state.testBit 1 = true
        ∧ (sock_poll_event_update env sys sock event).2.1.hmask.testBit 1 = false) :=
      fun x => by rw [hheld] at x; exact Bool.noConfusion x.2.2
    simp only [if_pos hW, if_neg hW2]
    split_ifs with x y
    · omega
    · exact absurd ⟨x.1, x.2.1, k0 x.2.2⟩ y
    · omega
    · omega

/-- The state update on a probe answer either ends with a readiness that disables the
registration or lowers the measure. -/
theorem sock_poll_event_update_step (env : Env) (sys : Sys) (sock : Sock) (event : Nat)
    (h : probe_answer sock event) :
    (sock_poll_event_update env sys sock event).2.2 &&& (POLLERR ||| POLLHUP) ≠ 0
    ∨ nesting_measure (sock_poll_event_update env sys sock event).2.1
        < nesting_measure sock := by
  by_cases hc : sock.state &&& FD_CONNECT = 0
  · by_cases hl : sock.state &&& FD_WINE_LISTENING = 0
    · exact sock_poll_event_update_step_normal env sys sock event hc hl h
    · exact sock_poll_event_update_step_listening env sys sock event hc hl h
  · exact sock_poll_event_update_step_connecting env sys sock event hc h

theorem nesting_measure_le_three (sock : Sock) : nesting_measure sock ≤ 3 := by
  unfold nesting_measure
  split_ifs <;> omega

/-- A reselection returns when the function it calls on a satisfied condition returns on
every probe answer for a socket of at most the measure of this one. -/
theorem sock_reselect_body_returns (poll_event : Sys → Sock → Nat → Option (Sys × Sock))
    (env : Env) (h1 : answers_within_interest env) (h2 : priority_with_readable env) (m : Nat)
    (hpe : ∀ sys sock event, nesting_measure sock ≤ m → probe_answer sock event →
      ∃ p, poll_event sys sock event = some p)
    (sys : Sys) (sock : Sock) (hm : nesting_measure sock ≤ m) :
    ∃ q, sock_reselect_body poll_event env sys sock = some q := by
  simp only [sock_reselect_body]
  split_ifs with a b c c
  · exact ⟨_, rfl⟩
  · exact hpe _ _ _ hm ⟨c, h1 _ _ _, h2 _ _ _⟩
  · exact ⟨_, rfl⟩
  · exact hpe _ _ _ hm ⟨c, h1 _ _ _, h2 _ _ _⟩
  · exact ⟨_, rfl⟩

/-- For a readiness oracle that answers within the requested interest, `POLLERR` and
`POLLHUP`, and that reports priority data only together with readable data,
`sock_poll_event` on a probe answer returns within as many nested calls as the measure
of the socket. -/
theorem sock_poll_event_returns (env : Env) (h1 : answers_within_interest env)
    (h2 : priority_with_readable env) (n : Nat) :
    ∀ (sys : Sys) (sock : Sock) (event : Nat), nesting_measure sock ≤ n →
      probe_answer sock event → ∃ p, sock_poll_event (n + 1) env sys sock event = some p := by
  induction n with
  | zero =>
    intro sys sock event hm ha
    simp only [sock_poll_event]
    rcases sock_poll_event_update_step env sys sock event ha with ht | hlt
    · rw [if_pos ht]
      exact ⟨_, rfl⟩
    · omega
  | succ m ih =>
    intro sys sock event hm ha
    rw [sock_poll_event]
    by_cases ht : (sock_poll_event_update env sys sock event).2.2 &&& (POLLERR ||| POLLHUP) ≠ 0
    · rw [if_pos ht]
      exact ⟨_, rfl⟩
    · rw [if_neg ht]
      have hlt : nesting_measure (sock_poll_event_update env sys sock event).2.1 ≤ m := by
        rcases sock_poll_event_update_step env sys sock event ha with h | h
        · exact absurd h ht
        · omega
      obtain ⟨q, hq⟩ := sock_reselect_body_returns (sock_poll_event (m + 1) env) env h1 h2 m ih
        (sock_poll_event_update env sys sock event).1
        (sock_poll_event_update env sys sock event).2.1 hlt
      rw [hq]
      exact ⟨_, rfl⟩

/-- For such an oracle `sock_reselect` returns: four levels of nesting are enough for
every socket. -/
theorem sock_reselect_returns (env : Env) (h1 : answers_within_interest env)
    (h2 : priority_with_readable env) (sys : Sys) (sock : Sock) :
    ∃ p, sock_reselect 4 env sys sock = some p :=
  sock_reselect_body_returns (sock_poll_event 4 env) env h1 h2 3
    (sock_poll_event_returns env h1 h2 3) sys sock (nesting_measure_le_three sock)

/-- The environment with a second connection queued is such an oracle, so the
reselection of a listener returns in it. -/
theorem sock_reselect_returns_second_connection (sys : Sys) (sock : Sock) :
    ∃ p, sock_reselect 4 second_connection_env sys sock = some p := by
  refine sock_reselect_returns second_connection_env (fun t fd ev => ?_) (fun t fd ev h => ?_)
    sys sock
  · show (if fd = 3 then ev &&& POLLIN else 0) &&& (ev ||| POLLERR ||| POLLHUP)
      = if fd = 3 then ev &&& POLLIN else 0
    split_ifs
    · apply Nat.eq_of_testBit_eq
      intro i
      simp only [Nat.testBit_and, Nat.testBit_or]
      cases ev.testBit i <;> simp
    · exact Nat.zero_and _
  · have h3 : (if fd = 3 then ev &&& POLLIN else 0) &&& POLLPRI ≠ 0 := h
    exfalso
    apply h3
    split_ifs
    · apply Nat.eq_of_testBit_eq
      intro i
      simp only [Nat.testBit_and, testBit_POLLIN, testBit_POLLPRI, Nat.zero_testBit]
      by_cases h0 : 0 = i
      · subst h0; simp
      · simp [h0]
    · exact Nat.zero_and _

/-! ## Calls on an absent event -/

theorem absent_event_calls_log (s : Sys) (c : Call) :
    absent_event_calls (log s c)
      = absent_event_calls s ++ (if absent_event_call c = true then [c] else []) := by
  simp only [absent_event_calls, log, List.filter_append, List.filter_cons, List.filter_nil]

@[simp] theorem absent_event_calls_tick (s : Sys) :
    absent_event_calls (tick s) = absent_event_calls s := rfl

theorem absent_event_calls_set_event (s : Sys) (e : Option Nat) :
    absent_event_calls (set_event s e)
      = absent_event_calls s ++ (if e = none then [Call.set_event none] else []) := by
  cases e with
  | none => simp [set_event, absent_event_calls_log, absent_event_call]
  | some x =>
    simp only [set_event]
    show absent_event_calls (log s (Call.set_event (some x))) = _
    simp [absent_event_calls_log, absent_event_call]

theorem absent_event_calls_reset_event (s : Sys) (e : Option Nat) :
    absent_event_calls (reset_event s e)
      = absent_event_calls s ++ (if e = none then [Call.reset_event none] else []) := by
  cases e with
  | none => simp [reset_event, absent_event_calls_log, absent_event_call]
  | some x =>
    simp only [reset_event]
    show absent_event_calls (log s (Call.reset_event (some x))) = _
    simp [absent_event_calls_log, absent_event_call]

theorem absent_event_calls_release (s : Sys) (e : Option Nat) :
    absent_event_calls (log s (Call.release_object e))
      = absent_event_calls s ++ (if e = none then [Call.release_object none] else []) := by
  cases e <;> simp [absent_event_calls_log, absent_event_call]

theorem absent_event_calls_set_error (s : Sys) (code : Int) :
    absent_event_calls (set_error s code) = absent_event_calls s := by
  show absent_event_calls (log s (Call.set_error code)) = _
  simp [absent_event_calls_log, absent_event_call]

theorem absent_event_calls_clear_error (s : Sys) :
    absent_event_calls (clear_error s) = absent_event_calls s := by
  show absent_event_calls (log s Call.clear_error) = _
  simp [absent_event_calls_log, absent_event_call]

/-- The state update of `sock_poll_event` makes no call on an event. -/
theorem absent_event_calls_update (env : Env) (sys : Sys) (sock : Sock) (event : Nat) :
    absent_event_calls (sock_poll_event_update env sys sock event).1
      = absent_event_calls sys := by
  simp only [sock_poll_event_update, sock_poll_event_connecting, sock_poll_event_listening,
    sock_poll_event_normal, sock_poll_event_pollin, sock_poll_event_close, sock_error]
  split_ifs <;> simp [absent_event_calls_log, absent_event_call]

/-- The last part of `sock_poll_event` signals the subscriber event only when there is
one. -/
theorem absent_event_calls_wake (sys : Sys) (sock : Sock) :
    absent_event_calls (sock_poll_event_wake sys sock) = absent_event_calls sys := by
  simp only [sock_poll_event_wake]
  split_ifs with h
  · rw [absent_event_calls_log, absent_event_calls_set_event, if_neg h.2]
    simp [absent_event_call]
  · rw [absent_event_calls_log]
    simp [absent_event_call]

/-- A reselection makes no call on an absent event when the function it calls on a
satisfied condition makes none. -/
theorem absent_event_calls_reselect_body
    (poll_event : Sys → Sock → Nat → Option (Sys × Sock)) (env : Env)
    (hpe : ∀ sys sock event p, poll_event sys sock event = some p →
      absent_event_calls p.1 = absent_event_calls sys)
    (sys : Sys) (sock : Sock) (q : Sys × Sock)
    (h : sock_reselect_body poll_event env sys sock = some q) :
    absent_event_calls q.1 = absent_event_calls sys := by
  simp only [sock_reselect_body] at h
  split_ifs at h
  all_goals first
    | (cases h; rfl)
    | (cases h
       simp [add_select_user, set_select_events, absent_event_calls_log, absent_event_call])
    | (rw [hpe _ _ _ q h]
       simp [add_select_user, set_select_events, absent_event_calls_log, absent_event_call])

/-- Whatever the probes report, `sock_poll_event` makes no call on an absent event. -/
theorem absent_event_calls_poll_event (env : Env) (fuel : Nat) :
    ∀ (sys : Sys) (sock : Sock) (event : Nat) (p : Sys × Sock),
      sock_poll_event fuel env sys sock event = some p →
      absent_event_calls p.1 = absent_event_calls sys := by
  induction fuel with
  | zero => intro sys sock event p h; simp [sock_poll_event] at h
  | succ n ih =>
    intro sys sock event p h
    simp only [sock_poll_event, Option.map_eq_some'] at h
    obtain ⟨q, hq, hp⟩ := h
    subst hp
    show absent_event_calls (sock_poll_event_wake q.1 q.2) = _
    rw [absent_event_calls_wake]
    split_ifs at hq
    · cases hq
      show absent_event_calls (log _ (Call.set_select_events _ (-1))) = _
      rw [absent_event_calls_log, absent_event_calls_update]
      simp [absent_event_call]
    · rw [absent_event_calls_reselect_body _ env ih _ _ q hq, absent_event_calls_update]

/-- Whatever the probes report, `sock_reselect` makes no call on an absent event. -/
theorem absent_event_calls_reselect (fuel : Nat) (env : Env) (sys : Sys) (sock : Sock)
    (p : Sys × Sock) (h : sock_reselect fuel env sys sock = some p) :
    absent_event_calls p.1 = absent_event_calls sys :=
  absent_event_calls_reselect_body _ env (absent_event_calls_poll_event env fuel) sys sock p h

theorem absent_event_calls_signal_pending (s0 : Sys) (sock2 : Sock) :
    absent_event_calls (if sock2.pmask &&& sock2.mask ≠ 0 then set_event s0 sock2.event else s0)
      = absent_event_calls s0
        ++ (if sock2.event = none ∧ sock2.pmask &&& sock2.mask ≠ 0
            then [Call.set_event none] else []) := by
  by_cases hm : sock2.pmask &&& sock2.mask ≠ 0
  · rw [if_pos hm, absent_event_calls_set_event]
    by_cases he : sock2.event = none
    · rw [if_pos he, if_pos ⟨he, hm⟩]
    · rw [if_neg he, if_neg (fun x => he x.1)]
  · rw [if_neg hm, if_neg (fun x => hm x.2), List.append_nil]

/-- The end of `set_socket_event`, after the reselection: the old event is signaled and
released only when there is one; the new one is signaled without a test. -/
theorem absent_event_calls_set_socket_event_tail (s0 : Sys) (sock2 : Sock)
    (oevent : Option Nat) (omask : Nat) :
    absent_event_calls (if oevent ≠ none then
          log (if oevent ≠ sock2.event ∧ omask &&& FD_WINE_SERVEVENT ≠ 0 then
              set_event (if sock2.pmask &&& sock2.mask ≠ 0 then set_event s0 sock2.event else s0)
                oevent
            else (if sock2.pmask &&& sock2.mask ≠ 0 then set_event s0 sock2.event else s0))
            (Call.release_object oevent)
        else (if sock2.pmask &&& sock2.mask ≠ 0 then set_event s0 sock2.event else s0))
      = absent_event_calls s0
        ++ (if sock2.event = none ∧ sock2.pmask &&& sock2.mask ≠ 0
            then [Call.set_event none] else []) := by
  by_cases ho : oevent ≠ none
  · rw [if_pos ho, absent_event_calls_release, if_neg ho, List.append_nil]
    by_cases h1 : oevent ≠ sock2.event ∧ omask &&& FD_WINE_SERVEVENT ≠ 0
    · rw [if_pos h1, absent_event_calls_set_event, if_neg ho, List.append_nil,
        absent_event_calls_signal_pending]
    · rw [if_neg h1, absent_event_calls_signal_pending]
  · rw [if_neg ho, absent_event_calls_signal_pending]

/-- The calls on an absent event that `set_socket_event` makes: one `set_event`, exactly
when the new event handle names no event and `pmask & mask` is not empty on return. -/
theorem absent_event_calls_set_socket_event (fuel : Nat) (env : Env) (sys sys1 : Sys)
    (sock sock1 : Sock) (req : set_socket_event_request)
    (h : set_socket_event fuel env sys (some sock) req = some (sys1, some sock1)) :
    absent_event_calls sys1
      = absent_event_calls sys
        ++ (if env.get_event_obj req.event = none ∧ sock1.pmask &&& sock1.mask ≠ 0
            then [Call.set_event none] else []) := by
  simp only [set_socket_event, Option.map_eq_some', Prod.mk.injEq, Option.some.injEq] at h
  obtain ⟨p, hp, h1, h2⟩ := h
  have ha := absent_event_calls_reselect fuel env sys _ p hp
  have hev : p.2.event = env.get_event_obj req.event :=
    (sock_reselect_keeps fuel env sys _ p hp).1.2.1
  have e1 : (if p.2.mask ≠ 0 then { p.2 with state := p.2.state ||| FD_WINE_NONBLOCKING }
      else p.2).event = env.get_event_obj req.event := by
    split_ifs <;> exact hev
  generalize (if p.2.mask ≠ 0 then { p.2 with state := p.2.state ||| FD_WINE_NONBLOCKING }
      else p.2) = k at h1 h2 e1
  subst h2
  rw [← h1, absent_event_calls_set_socket_event_tail, ha, e1]

/-- The calls on an absent event that `get_socket_event` makes in service mode: a release
of the companion signalling event when its handle is not 0 and names no event; a reset
and a release of the companion event to clear when the query goes on to clear, its handle
is not 0 and names no event. -/
theorem absent_event_calls_get_socket_event (fuel : Nat) (env : Env) (sys sys1 : Sys)
    (sock sock1 : Sock) (req : get_socket_event_request) (reply : get_socket_event_reply)
    (h : get_socket_event fuel env sys (some sock) req = some (sys1, some sock1, reply)) :
    absent_event_calls sys1
      = absent_event_calls sys
        ++ (if req.service ≠ 0 ∧ req.s_event ≠ 0 ∧ env.get_event_obj req.s_event = none
            then [Call.release_object none] else [])
        ++ (if req.service ≠ 0
              ∧ (req.s_event = 0 ∨ env.get_event_obj req.s_event = sock.event)
              ∧ req.c_event ≠ 0 ∧ env.get_event_obj req.c_event = none
            then [Call.reset_event none, Call.release_object none] else []) := by
  simp only [get_socket_event] at h
  by_cases hs : req.service ≠ 0
  swap
  · rw [if_neg hs] at h
    simp only [Option.some.injEq, Prod.mk.injEq] at h
    rw [← h.1, if_neg (fun x => hs x.1), if_neg (fun x => hs x.1)]
    simp
  rw [if_pos hs] at h
  -- the lookup of the companion signalling event
  have hr : absent_event_calls (if req.s_event ≠ 0 then
        (if env.get_event_obj req.s_event = sock.event then 0 else req.s_event,
          log sys (Call.release_object (env.get_event_obj req.s_event)))
      else (req.s_event, sys)).2
      = absent_event_calls sys
        ++ (if req.service ≠ 0 ∧ req.s_event ≠ 0 ∧ env.get_event_obj req.s_event = none
            then [Call.release_object none] else []) := by
    by_cases hse : req.s_event ≠ 0
    · rw [if_pos hse]
      show absent_event_calls (log sys _) = _
      rw [absent_event_calls_release]
      by_cases hn : env.get_event_obj req.s_event = none
      · rw [if_pos hn, if_pos ⟨hs, hse, hn⟩]
      · rw [if_neg hn, if_neg (fun x => hn x.2.2)]
    · rw [if_neg hse, if_neg (fun x => hse x.2.1), List.append_nil]
  have hz : (if req.s_event ≠ 0 then
        (if env.get_event_obj req.s_event = sock.event then 0 else req.s_event,
          log sys (Call.release_object (env.get_event_obj req.s_event)))
      else (req.s_event, sys)).1 = 0
      ↔ (req.s_event = 0 ∨ env.get_event_obj req.s_event = sock.event) := by
    by_cases hse : req.s_event ≠ 0
    · rw [if_pos hse]
      by_cases heq : env.get_event_obj req.s_event = sock.event
      · simp [heq]
      · simp [heq, hse]
    · rw [if_neg hse]
      simp only [ne_eq, not_not] at hse
      simp [hse]
  generalize (if req.s_event ≠ 0 then
        (if env.get_event_obj req.s_event = sock.event then 0 else req.s_event,
          log sys (Call.release_object (env.get_event_obj req.s_event)))
      else (req.s_event, sys)) = r at h hr hz
  by_cases h0 : r.1 = 0
  · rw [if_pos h0] at h
    simp only [Option.map_eq_some', Prod.mk.injEq, Option.some.injEq] at h
    obtain ⟨p, hp, h1, -, -⟩ := h
    rw [← h1, absent_event_calls_reselect fuel env _ _ p hp]
    by_cases hce : req.c_event ≠ 0
    · rw [if_pos hce, absent_event_calls_release, absent_event_calls_reset_event, hr]
      by_cases hn : env.get_event_obj req.c_event = none
      · have c2 : req.service ≠ 0
            ∧ (req.s_event = 0 ∨ env.get_event_obj req.s_event = sock.event)
            ∧ req.c_event ≠ 0 ∧ env.get_event_obj req.c_event = none := ⟨hs, hz.mp h0, hce, hn⟩
        rw [if_pos hn, if_pos hn, if_pos c2]
        simp
      · have c2 : ¬ (req.service ≠ 0
            ∧ (req.s_event = 0 ∨ env.get_event_obj req.s_event = sock.event)
            ∧ req.c_event ≠ 0 ∧ env.get_event_obj req.c_event = none) := fun x => hn x.2.2.2
        rw [if_neg hn, if_neg hn, if_neg c2]
        simp
    · have c2 : ¬ (req.service ≠ 0
          ∧ (req.s_event = 0 ∨ env.get_event_obj req.s_event = sock.event)
          ∧ req.c_event ≠ 0 ∧ env.get_event_obj req.c_event = none) := fun x => hce x.2.2.1
      rw [if_neg hce, hr, if_neg c2, List.append_nil]
  · rw [if_neg h0] at h
    simp only [Option.some.injEq, Prod.mk.injEq] at h
    have c2 : ¬ (req.service ≠ 0
        ∧ (req.s_event = 0 ∨ env.get_event_obj req.s_event = sock.event)
        ∧ req.c_event ≠ 0 ∧ env.get_event_obj req.c_event = none) :=
      fun x => h0 (hz.mpr x.2.1)
    rw [← h.1, absent_event_calls_set_error, hr, if_neg c2, List.append_nil]

/-- An acknowledge signals the subscriber event only when there is one. -/
theorem absent_event_calls_enable_socket_event (fuel : Nat) (env : Env) (sys sys1 : Sys)
    (sock : Sock) (sock1 : Option Sock) (req : enable_socket_event_request)
    (h : enable_socket_event fuel env sys (some sock) req = some (sys1, sock1)) :
    absent_event_calls sys1 = absent_event_calls sys := by
  simp only [enable_socket_event, Option.map_eq_some'] at h
  obtain ⟨p, hp, h1⟩ := h
  have ha := absent_event_calls_reselect fuel env sys _ p hp
  split_ifs at h1 with a b
  · simp only [Prod.mk.injEq] at h1
    rw [← h1.1, absent_event_calls_set_event, if_neg b, List.append_nil, ha]
  · simp only [Prod.mk.injEq] at h1
    rw [← h1.1, ha]
  · simp only [Prod.mk.injEq] at h1
    rw [← h1.1, ha]

/-- The destruction of a socket signals and releases the subscriber event only when there
is one. -/
theorem absent_event_calls_destroy (sys : Sys) (sock : Sock) :
    absent_event_calls (sock_destroy sys sock) = absent_event_calls sys := by
  simp only [sock_destroy]
  have hq : absent_event_calls (if sock.flags &&& WSA_FLAG_OVERLAPPED ≠ 0 then
        log (log sys (Call.destroy_async_queue sock.fd)) (Call.destroy_async_queue sock.fd)
      else sys) = absent_event_calls sys := by
    split_ifs
    · simp [absent_event_calls_log, absent_event_call]
    · rfl
  by_cases he : sock.event ≠ none
  · rw [if_pos he, absent_event_calls_release, if_neg he, List.append_nil]
    by_cases hm : sock.mask &&& FD_WINE_SERVEVENT ≠ 0
    · rw [if_pos hm, absent_event_calls_set_event, if_neg he, List.append_nil, hq]
    · rw [if_neg hm, hq]
  · rw [if_neg he, hq]

/-! ## The handlers and absent events -/

/-- C21, at inputs on which the handlers call on an absent event. A subscription to
`FD_CONNECT` with the event handle 0, on a socket that has `FD_CONNECT` pending, returns
with `pmask & mask` not empty and calls `set_event` on `NULL`. A service-mode query whose
companion signalling handle names no event calls `release_object` on `NULL`, and one
whose companion handle to clear names no event calls `reset_event` and `release_object`
on `NULL`. -/
theorem handlers_call_on_absent_event :
    (set_socket_event 0 quiet_env idle_sys (some just_connected_sock)
        connect_subscription_without_event).map
      (fun r => (quiet_env.get_event_obj connect_subscription_without_event.event,
        r.2.map (fun k => k.pmask &&& k.mask), absent_event_calls r.1))
      = some (none, some FD_CONNECT, [Call.set_event none])
    ∧ (get_socket_event 0 stale_handle_env idle_sys (some readable_sock)
        service_query_registered).map (fun r => absent_event_calls r.1)
      = some [Call.release_object none]
    ∧ (get_socket_event 0 stale_handle_env idle_sys (some readable_sock)
        service_query_resetting).map (fun r => absent_event_calls r.1)
      = some [Call.reset_event none, Call.release_object none] := by
  decide

end Sock2
